import Mathlib

/-!
# finance-system: shallow embedding of the client and checked properties

The client is a React application.  Each handler is embedded as a pure function
on an explicit state; browser storage, the network and the console are explicit
components of that state.  JavaScript numbers that arrive as JSON are finite and
are represented by exact rationals, on which `>`, `<=` and `===` agree with the
IEEE comparisons of the source.  Where a handler computes with `*` or `/`, the
rounding of the result to a JavaScript number is a parameter (`Rounding`), so what is
proved holds whatever the binary format rounds to; `Rounding.binary64` is the rounding
of doubles (to nearest, ties to even, exponent range unbounded) and is used where a
computation on doubles is evaluated.
-/

namespace FinanceSystem

/-! ## Materials page (`src/pages/Materials/Materials.jsx`) -/

/-- Fields of a material record that `getStockStatus` reads. -/
structure Material where
  quantityInStock : ℚ
  minimumStock : ℚ
  deriving DecidableEq

/-- Embedding of `getStockStatus` (Materials.jsx, lines 153-161): the `low` test runs
first, the `empty` test second. -/
def getStockStatus (material : Material) : String :=
  if material.minimumStock > 0 ∧ material.quantityInStock ≤ material.minimumStock then
    "low"
  else if material.quantityInStock = 0 then
    "empty"
  else
    "ok"

/-- Classification as the specification words it: a zero quantity is `empty`, a
positive quantity not above a positive minimum is `low`, anything else is `ok`. -/
def specStockStatus (material : Material) : String :=
  if material.quantityInStock = 0 then
    "empty"
  else if 0 < material.quantityInStock ∧ material.quantityInStock ≤ material.minimumStock
      ∧ material.minimumStock > 0 then
    "low"
  else
    "ok"

/-! ## JavaScript values used by the handlers -/

/-- A JavaScript number: `NaN`, an infinity, or a finite value (kept exact). -/
inductive JsNum where
  | nan
  | posInf
  | negInf
  | fin (q : ℚ)
  deriving DecidableEq

/-- The comparison `x > 0` of JavaScript: false on `NaN`. -/
def JsNum.gtZero : JsNum → Bool
  | .fin q => decide (q > 0)
  | .posInf => true
  | _ => false

/-- Sign applied to a parsed magnitude. -/
def JsNum.withSign (negative : Bool) : JsNum → JsNum
  | .fin q => .fin (if negative then -q else q)
  | .posInf => if negative then .negInf else .posInf
  | .negInf => if negative then .posInf else .negInf
  | .nan => .nan

/-- Truthiness of a string value: every string but the empty one. -/
def truthyStr (s : String) : Bool := decide (s ≠ "")

/-- Truthiness of a value that is a string or `null` (what `localStorage.getItem`
and `FormData.get` return). -/
def truthy : Option String → Bool
  | some s => truthyStr s
  | none => false

/-- White space and line terminators of the JavaScript lexical grammar. -/
def isStrWhiteSpace (c : Char) : Bool :=
  let n := c.toNat
  n = 9 || n = 10 || n = 11 || n = 12 || n = 13 || n = 32 || n = 160 || n = 5760
    || (8192 ≤ n && n ≤ 8202) || n = 8232 || n = 8233 || n = 8239 || n = 8287
    || n = 12288 || n = 65279

/-- Value of a digit character in a radix up to 16 (`none` when it is not one). -/
def digitValue (radix : ℕ) (c : Char) : Option ℕ :=
  let n := c.toNat
  let v : Option ℕ :=
    if 48 ≤ n ∧ n ≤ 57 then some (n - 48)
    else if 97 ≤ n ∧ n ≤ 102 then some (n - 87)
    else if 65 ≤ n ∧ n ≤ 70 then some (n - 55)
    else none
  v.bind fun d => if d < radix then some d else none

/-- Longest prefix of digits of the radix, and what follows it. -/
def spanDigits (radix : ℕ) : List Char → List ℕ × List Char
  | [] => ([], [])
  | c :: cs =>
    match digitValue radix c with
    | some d => let r := spanDigits radix cs; (d :: r.1, r.2)
    | none => ([], c :: cs)

/-- Value of a list of digits, most significant first. -/
def digitsValue (radix : ℕ) (ds : List ℕ) : ℕ :=
  ds.foldl (fun acc d => radix * acc + d) 0

/-- Optional sign in front of a literal: whether it is `-`, and the rest. -/
def takeSign : List Char → Bool × List Char
  | '-' :: cs => (true, cs)
  | '+' :: cs => (false, cs)
  | cs => (false, cs)

/-- Exponent part `e`/`E`, optional sign, digits: scaling factor and the rest.  When
no digit follows, there is no exponent part and the input is returned whole. -/
def scanExponent (cs : List Char) : ℚ × List Char :=
  match cs with
  | c :: rest =>
    if c = 'e' ∨ c = 'E' then
      let sg := takeSign rest
      let ds := spanDigits 10 sg.2
      if ds.1 = [] then (1, cs)
      else if sg.1 then (1 / (10 : ℚ) ^ digitsValue 10 ds.1, ds.2)
      else ((10 : ℚ) ^ digitsValue 10 ds.1, ds.2)
    else (1, cs)
  | [] => (1, cs)

/-- Longest unsigned decimal literal at the head of the input (digits, optional
fraction, optional exponent), with what follows; `none` when there is no digit. -/
def scanDecimal (cs : List Char) : Option (ℚ × List Char) :=
  let ip := spanDigits 10 cs
  let fp : List ℕ × List Char :=
    match ip.2 with
    | '.' :: rest => spanDigits 10 rest
    | rest => ([], rest)
  if ip.1 = [] ∧ fp.1 = [] then none
  else
    let mantissa : ℚ := (digitsValue 10 ip.1 : ℚ)
      + (digitsValue 10 fp.1 : ℚ) / (10 : ℚ) ^ fp.1.length
    let ex := scanExponent fp.2
    some (mantissa * ex.1, ex.2)

/-- The characters of `Infinity`. -/
def infinityChars : List Char := "Infinity".toList

/-- Global `parseFloat`: leading white space is skipped and the longest decimal
literal prefix is read. -/
def parseFloat (s : String) : JsNum :=
  let sg := takeSign (s.toList.dropWhile isStrWhiteSpace)
  if infinityChars.isPrefixOf sg.2 then JsNum.withSign sg.1 .posInf
  else
    match scanDecimal sg.2 with
    | some r => JsNum.withSign sg.1 (.fin r.1)
    | none => .nan

/-- Global `parseInt` called without a radix: leading white space is skipped, a `0x`
prefix selects radix 16, and the longest prefix of digits is read. -/
def parseInt (s : String) : JsNum :=
  let sg := takeSign (s.toList.dropWhile isStrWhiteSpace)
  let rd : ℕ × List Char :=
    match sg.2 with
    | '0' :: 'x' :: rest => (16, rest)
    | '0' :: 'X' :: rest => (16, rest)
    | rest => (10, rest)
  let ds := spanDigits rd.1 rd.2
  if ds.1 = [] then .nan else JsNum.withSign sg.1 (.fin (digitsValue rd.1 ds.1))

/-- Numeric literal with a radix prefix (`0x`, `0o`, `0b`), which takes no sign. -/
def scanRadixLiteral (cs : List Char) : Option JsNum :=
  let lit (radix : ℕ) (rest : List Char) : Option JsNum :=
    let ds := spanDigits radix rest
    if ds.1 ≠ [] ∧ ds.2 = [] then some (.fin (digitsValue radix ds.1)) else some .nan
  match cs with
  | '0' :: 'x' :: rest => lit 16 rest
  | '0' :: 'X' :: rest => lit 16 rest
  | '0' :: 'o' :: rest => lit 8 rest
  | '0' :: 'O' :: rest => lit 8 rest
  | '0' :: 'b' :: rest => lit 2 rest
  | '0' :: 'B' :: rest => lit 2 rest
  | _ => none

/-- Conversion of a string to a number, as the comparison `str > 0` performs it: white
space is trimmed, the empty string is `0`, and the whole of what remains must be one
numeric literal. -/
def toNumber (s : String) : JsNum :=
  let cs := ((s.toList.dropWhile isStrWhiteSpace).reverse.dropWhile isStrWhiteSpace).reverse
  if cs = [] then .fin 0
  else
    match scanRadixLiteral cs with
    | some r => r
    | none =>
      let sg := takeSign cs
      if sg.2 = infinityChars then JsNum.withSign sg.1 .posInf
      else
        match scanDecimal sg.2 with
        | some r => if r.2 = [] then JsNum.withSign sg.1 (.fin r.1) else .nan
        | none => .nan

/-! ## Browser state: `localStorage`, and what the handlers emit -/

/-- The origin's `localStorage`: string keys bound to string values. -/
structure LocalStorage where
  items : List (String × String)
  deriving DecidableEq

/-- `localStorage.getItem(key)`: the bound value, or `null`. -/
def LocalStorage.getItem (ls : LocalStorage) (key : String) : Option String :=
  (ls.items.find? fun kv => kv.1 = key).map Prod.snd

/-- `localStorage.removeItem(key)`. -/
def LocalStorage.removeItem (ls : LocalStorage) (key : String) : LocalStorage :=
  { items := ls.items.filter fun kv => kv.1 ≠ key }

/-- `localStorage.setItem(key, value)`. -/
def LocalStorage.setItem (ls : LocalStorage) (key value : String) : LocalStorage :=
  { items := (key, value) :: (ls.removeItem key).items }

/-- Headers of a request config of the `api` instance (api.js, lines 5-11 and 18). -/
structure Headers where
  contentType : Option String
  Authorization : Option String
  deriving DecidableEq

/-- Material line of the payload of `saleService.create`. -/
structure PayloadMaterial where
  material : String
  quantity : JsNum
  deriving DecidableEq

/-- Item line of the payload of `saleService.create`. -/
structure PayloadItem where
  product : String
  quantity : JsNum
  materialsUsed : List PayloadMaterial
  deriving DecidableEq

/-- Object passed to `saleService.create` (Sales.jsx, lines 260-265). -/
structure SalePayload where
  client : String
  items : List PayloadItem
  paymentMethod : String
  paymentStatus : String
  deriving DecidableEq

/-- Object passed to `materialService.create` / `update` (Materials.jsx, lines 74-81):
the form fields, with the three numbers parsed and the `initialPurchase` flag. -/
structure MaterialPayload where
  name : String
  description : String
  category : String
  unit : String
  costPerUnit : JsNum
  quantityInStock : JsNum
  minimumStock : JsNum
  supplier : String
  supplierPhone : String
  notes : String
  initialPurchase : Bool
  deriving DecidableEq

/-- Request body (`data`) of a call through the `api` instance. -/
inductive Body where
  | empty
  | sale (payload : SalePayload)
  | login (email password : String)
  | register (name email password phone : String)
  | material (payload : MaterialPayload)
  deriving DecidableEq

/-- Request config as the request interceptor receives and returns it.  Query
parameters are not recorded. -/
structure RequestConfig where
  method : String
  url : String
  headers : Headers
  withCredentials : Bool
  data : Body
  deriving DecidableEq

/-- Observable actions of the handlers, in the order they happen. -/
inductive Effect where
  | request (config : RequestConfig)
  | notification (message : String) (kind : String)
  | consoleError (message : String)
  | navigate (path : String)
  deriving DecidableEq

/-- What lives outside the React state: the storage and the trace of actions. -/
structure Browser where
  localStorage : LocalStorage
  log : List Effect
  deriving DecidableEq

/-- Number of network requests in a trace. -/
def requestCount (log : List Effect) : ℕ :=
  (log.filter fun e => match e with
    | .request _ => true
    | _ => false).length

/-- `showNotification(message, type)` (utils/notifications.js). -/
def showNotification (message kind : String) (b : Browser) : Browser :=
  { b with log := b.log ++ [Effect.notification message kind] }

/-- `console.error(message, error)`. -/
def consoleError (message : String) (b : Browser) : Browser :=
  { b with log := b.log ++ [Effect.consoleError message] }

/-! ## The API client (`src/services/api.js`) -/

/-- `error.response` of a rejected request: the status and `data.message`. -/
structure ErrorResponse where
  status : ℕ
  message : Option String
  deriving DecidableEq

/-- Rejection of a request; `response` is absent when no answer arrived. -/
structure AxiosError where
  response : Option ErrorResponse
  deriving DecidableEq

/-- `error.response?.status`. -/
def AxiosError.status (error : AxiosError) : Option ℕ :=
  error.response.map fun r => r.status

/-- `error.response?.data?.message || fallback`. -/
def AxiosError.messageOr (error : AxiosError) (fallback : String) : String :=
  match error.response.bind fun r => r.message with
  | some m => if truthyStr m then m else fallback
  | none => fallback

/-- Config that `api.get(url)` / `api.post(url, data)` hand to the interceptors:
the instance defaults of `axios.create` (api.js, lines 5-11). -/
def apiConfig (method url : String) (data : Body) : RequestConfig :=
  { method := method
    url := url
    headers := { contentType := some "application/json", Authorization := none }
    withCredentials := true
    data := data }

/-- Request interceptor (api.js, lines 14-22). -/
def requestInterceptor (ls : LocalStorage) (config : RequestConfig) : RequestConfig :=
  let token := ls.getItem "token"
  if truthy token then
    { config with
      headers := { config.headers with
        Authorization := some ("Bearer " ++ token.getD "") } }
  else
    config

/-- Response interceptor, error handler (api.js, lines 31-38): the storage afterwards
and the rejected promise. -/
def responseErrorInterceptor {α : Type} (ls : LocalStorage) (error : AxiosError) :
    LocalStorage × Except AxiosError α :=
  let ls1 := if error.status = some 401 then ls.removeItem "token" else ls
  (ls1, Except.error error)

/-- Response interceptor, success handler (api.js, line 30). -/
def responseInterceptor {α : Type} (ls : LocalStorage) (response : α) :
    LocalStorage × Except AxiosError α :=
  (ls, Except.ok response)

/-- Sending half of a call through `api`: the request interceptor runs and the request
leaves. -/
def apiSend (method url : String) (data : Body) (b : Browser) : Browser :=
  { b with
    log := b.log ++ [Effect.request (requestInterceptor b.localStorage
      (apiConfig method url data))] }

/-- Receiving half of a call through `api`: the server's answer passes the response
interceptor and settles the promise. -/
def apiReceive {α : Type} (reply : Except AxiosError α) (b : Browser) :
    Browser × Except AxiosError α :=
  match reply with
  | .ok response =>
    let r := responseInterceptor b.localStorage response
    ({ b with localStorage := r.1 }, r.2)
  | .error error =>
    let r := responseErrorInterceptor b.localStorage error
    ({ b with localStorage := r.1 }, r.2)

/-- A whole call through `api`, awaited, with the server's answer given. -/
def apiRequest {α : Type} (method url : String) (data : Body)
    (reply : Except AxiosError α) (b : Browser) : Browser × Except AxiosError α :=
  apiReceive reply (apiSend method url data b)

/-! ## Session context (`src/context/AuthContext.jsx`) -/

/-- User record returned by the server. -/
structure User where
  name : String
  email : String
  role : String
  emailVerified : Bool
  deriving DecidableEq

/-- State of `AuthProvider`: the two `useState` cells and `checkingRef.current`. -/
structure AuthState where
  user : Option User
  loading : Bool
  checkingRef : Bool
  deriving DecidableEq

/-- The session context together with the browser. -/
structure App where
  auth : AuthState
  browser : Browser
  deriving DecidableEq

/-- Body of a fulfilled `GET /auth/me`: `data.success` and `data.data.user`. -/
structure MeResponse where
  success : Bool
  user : Option User
  deriving DecidableEq

/-- Where a call of `checkAuth` stands when it first yields control. -/
inductive CheckAuthStatus where
  | returned
  | awaitingGetMe
  deriving DecidableEq

/-- Synchronous part of `checkAuth` (AuthContext.jsx, lines 20-38): the guard, the
token test, and the sending of `authService.getMe()`. -/
def checkAuthStart (s : App) : App × CheckAuthStatus :=
  if s.auth.checkingRef then
    (s, .returned)
  else
    let s1 : App := { s with auth := { s.auth with checkingRef := true } }
    let token := s1.browser.localStorage.getItem "token"
    if !truthy token then
      ({ s1 with auth := { user := none, loading := false, checkingRef := false } },
        .returned)
    else
      ({ s1 with browser := apiSend "get" "/auth/me" .empty s1.browser }, .awaitingGetMe)

/-- Continuation of `checkAuth` once `getMe` settles (AuthContext.jsx, lines 38-58):
the response interceptor, then the `try` / `catch` / `finally` blocks. -/
def checkAuthResume (s : App) (reply : Except AxiosError MeResponse) : App :=
  let r := apiReceive reply s.browser
  let s1 : App := { s with browser := r.1 }
  let s2 : App :=
    match r.2 with
    | .ok response =>
      if response.success then
        { s1 with auth := { s1.auth with user := response.user } }
      else
        { auth := { s1.auth with user := none }
          browser := { s1.browser with
            localStorage := s1.browser.localStorage.removeItem "token" } }
    | .error error =>
      if error.status = some 401 then
        { auth := { s1.auth with user := none }
          browser := { s1.browser with
            localStorage := s1.browser.localStorage.removeItem "token" } }
      else if error.status ≠ some 429 then
        { auth := { s1.auth with user := none }
          browser := consoleError "Erro ao verificar autenticação:" s1.browser }
      else
        s1
  { s2 with auth := { s2.auth with loading := false, checkingRef := false } }

/-- A call of `checkAuth` run to completion against a server that gives `reply` to
`GET /auth/me`. -/
def checkAuth (s : App) (reply : Except AxiosError MeResponse) : App :=
  match checkAuthStart s with
  | (s1, .returned) => s1
  | (s1, .awaitingGetMe) => checkAuthResume s1 reply

/-- The `data` object of a fulfilled login or registration: `user` and `token`. -/
structure AuthData where
  user : Option User
  token : Option String
  deriving DecidableEq

/-- Body of a fulfilled `POST /auth/login` or `POST /auth/register`: `data.success`,
`data.message` and `data.data`. -/
structure AuthResponse where
  success : Bool
  message : Option String
  data : AuthData
  deriving DecidableEq

/-- Object returned by `login` and `register`; `data` is set by `register` only. -/
structure AuthResult where
  success : Bool
  message : Option String
  data : Option AuthData
  deriving DecidableEq

/-- Embedding of `login` (AuthContext.jsx, lines 67-82).  A failed request is thrown
again to the caller. -/
def login (s : App) (email password : String) (reply : Except AxiosError AuthResponse) :
    App × Except AxiosError AuthResult :=
  let r := apiRequest "post" "/auth/login" (.login email password) reply s.browser
  match r.2 with
  | .ok response =>
    if response.success then
      let b1 : Browser :=
        if truthy response.data.token then
          { r.1 with
            localStorage := r.1.localStorage.setItem "token" (response.data.token.getD "") }
        else r.1
      ({ auth := { s.auth with user := response.data.user }, browser := b1 },
        .ok { success := true, message := response.message, data := none })
    else
      ({ s with browser := r.1 },
        .ok { success := false, message := some "Erro ao fazer login", data := none })
  | .error error => ({ s with browser := r.1 }, .error error)

/-- Embedding of `register` (AuthContext.jsx, lines 84-107).  The user and the token
are taken only when the returned user has a verified email and a token came. -/
def register (s : App) (name email password phone : String)
    (reply : Except AxiosError AuthResponse) : App × Except AxiosError AuthResult :=
  let r := apiRequest "post" "/auth/register" (.register name email password phone) reply
    s.browser
  match r.2 with
  | .ok response =>
    if response.success then
      let verified : Bool :=
        match response.data.user with
        | some user => user.emailVerified
        | none => false
      let s1 : App :=
        if verified && truthy response.data.token then
          { auth := { s.auth with user := response.data.user }
            browser := { r.1 with
              localStorage :=
                r.1.localStorage.setItem "token" (response.data.token.getD "") } }
        else { s with browser := r.1 }
      (s1, .ok { success := true, message := response.message,
                 data := some response.data })
    else
      ({ s with browser := r.1 },
        .ok { success := false, message := some "Erro ao registrar", data := none })
  | .error error =>
    ({ s with browser := r.1 },
      .ok { success := false, message := some (error.messageOr "Erro ao registrar"),
            data := none })

/-- Embedding of `logout` (AuthContext.jsx, lines 109-118): the `catch` block logs, the
`finally` block clears the user and the token. -/
def logout (s : App) (reply : Except AxiosError Unit) : App × Except AxiosError Unit :=
  let r := apiRequest "post" "/auth/logout" .empty reply s.browser
  let b1 : Browser :=
    match r.2 with
    | .ok _ => r.1
    | .error _ => consoleError "Erro ao fazer logout:" r.1
  ({ auth := { s.auth with user := none }
     browser := { b1 with localStorage := b1.localStorage.removeItem "token" } },
    .ok ())

/-- A service call awaited by a page component while the session context holds
`s.auth`.  Only the interceptors of api.js run around the request; they act on
`localStorage`, and nothing in `AuthProvider` listens to them. -/
def serviceCall {α : Type} (s : App) (method url : String) (data : Body)
    (reply : Except AxiosError α) : App × Except AxiosError α :=
  let r := apiRequest method url data reply s.browser
  ({ s with browser := r.1 }, r.2)

/-! ## Route gating (`src/App.jsx`) -/

/-- What a route wrapper renders. -/
inductive RouteView where
  | loading
  | navigate (path : String)
  | children
  deriving DecidableEq

/-- Embedding of `PrivateRoute` (App.jsx, lines 22-34). -/
def PrivateRoute (auth : AuthState) : RouteView :=
  if auth.loading then .loading
  else if auth.user.isNone then .navigate "/login"
  else .children

/-- Embedding of `PublicRoute` (App.jsx, lines 36-48). -/
def PublicRoute (auth : AuthState) : RouteView :=
  if auth.loading then .loading
  else if auth.user.isSome then .navigate "/dashboard"
  else .children

/-! ## Arithmetic on JavaScript numbers -/

/-- Rounding of an exact result to a JavaScript number.  The binary format is not
modelled: a rounding is any monotone map that keeps zero, and the handlers below are
parametric in it. -/
structure Rounding where
  fl : ℚ → ℚ
  fl_zero : fl 0 = 0
  fl_mono : Monotone fl

/-- The rounding that changes nothing (every value taken as representable). -/
def Rounding.exact : Rounding :=
  { fl := fun x => x
    fl_zero := rfl
    fl_mono := fun _ _ h => h }

/-- The number a parsed literal denotes, as a JavaScript number. -/
def JsNum.round (R : Rounding) : JsNum → JsNum
  | .fin q => .fin (R.fl q)
  | x => x

/-- The expression `x || 0` on a number: `NaN` and `0` give `0`. -/
def JsNum.orZero : JsNum → JsNum
  | .nan => .fin 0
  | .fin q => if q = 0 then .fin 0 else .fin q
  | x => x

/-- The product `a * b` (signed zeros are not told apart). -/
def JsNum.mul (R : Rounding) : JsNum → JsNum → JsNum
  | .nan, _ => .nan
  | _, .nan => .nan
  | .fin a, .fin b => .fin (R.fl (a * b))
  | .fin a, .posInf => if a = 0 then .nan else if 0 < a then .posInf else .negInf
  | .fin a, .negInf => if a = 0 then .nan else if 0 < a then .negInf else .posInf
  | .posInf, .fin b => if b = 0 then .nan else if 0 < b then .posInf else .negInf
  | .negInf, .fin b => if b = 0 then .nan else if 0 < b then .negInf else .posInf
  | .posInf, .posInf => .posInf
  | .negInf, .negInf => .posInf
  | .posInf, .negInf => .negInf
  | .negInf, .posInf => .negInf

/-- The quotient `a / b` (signed zeros are not told apart). -/
def JsNum.div (R : Rounding) : JsNum → JsNum → JsNum
  | .nan, _ => .nan
  | _, .nan => .nan
  | .fin a, .fin b =>
    if b = 0 then (if a = 0 then .nan else if 0 < a then .posInf else .negInf)
    else .fin (R.fl (a / b))
  | .fin _, .posInf => .fin 0
  | .fin _, .negInf => .fin 0
  | .posInf, .fin b => if 0 ≤ b then .posInf else .negInf
  | .negInf, .fin b => if 0 ≤ b then .negInf else .posInf
  | .posInf, .posInf => .nan
  | .posInf, .negInf => .nan
  | .negInf, .posInf => .nan
  | .negInf, .negInf => .nan

/-- Two-decimal rendering of a count of hundredths: the integer part, a point, and two
digits. -/
def toFixed2Digits (n : ℕ) : String :=
  toString (n / 100) ++ "." ++ String.mk [Nat.digitChar (n / 10 % 10), Nat.digitChar (n % 10)]

/-- `Number.prototype.toFixed(2)`.  Below `10^21` the value is rounded to the nearest
hundredth, ties upward in magnitude, and rendered with two decimals; from `10^21` on
the method returns `Number::toString`, which is taken as the parameter
`numberToString`. -/
def JsNum.toFixed2 (numberToString : ℚ → String) : JsNum → String
  | .nan => "NaN"
  | .posInf => "Infinity"
  | .negInf => "-Infinity"
  | .fin x =>
    let sign := if x < 0 then "-" else ""
    if |x| ≥ 10 ^ 21 then sign ++ numberToString |x|
    else sign ++ toFixed2Digits ⌊|x| * 100 + 1 / 2⌋.toNat

/-! ## Sales page (`src/pages/Sales/Sales.jsx`) -/

/-- Client record returned by the server. -/
structure Client where
  _id : String
  name : String
  phone : String
  deriving DecidableEq

/-- Material row of a sale item in the form.  `quantity` is the text of the number
input; the initial value `1` of the source is the text `1`, which `>`, `parseInt` and
`parseFloat` read as the same number. -/
structure MaterialUse where
  material : String
  quantity : String
  deriving DecidableEq

/-- Sale item of the form (`saleItems` state); `quantity` as for `MaterialUse`. -/
structure SaleItem where
  product : String
  quantity : String
  materialsUsed : List MaterialUse
  deriving DecidableEq

/-- State cells of the `Sales` component that `handleSubmit` reads or writes. -/
structure SalesState where
  clients : List Client
  saleItems : List SaleItem
  selectedClientId : String
  isQuickSale : Bool
  isModalOpen : Bool
  deriving DecidableEq

/-- Filter of line 238: `item.product && item.quantity > 0`.  The comparison is made
on the exact value of the text; the double nearest to it compares with zero in the same
way unless the text lies below the smallest double, which the `min` of the quantity
inputs excludes. -/
def validItem (item : SaleItem) : Bool :=
  truthyStr item.product && (toNumber item.quantity).gtZero

/-- Filter of line 243: `mat.material && mat.quantity > 0`. -/
def validMaterialUse (mat : MaterialUse) : Bool :=
  truthyStr mat.material && (toNumber mat.quantity).gtZero

/-- The `items` of `handleSubmit` (Sales.jsx, lines 237-248).  `parseInt` (line 241)
and `parseFloat` (line 246) return JavaScript numbers: what they read from the text is
rounded by `R` before it enters the payload. -/
def payloadItems (R : Rounding) (saleItems : List SaleItem) : List PayloadItem :=
  (saleItems.filter validItem).map fun item =>
    { product := item.product
      quantity := (parseInt item.quantity).round R
      materialsUsed := (item.materialsUsed.filter validMaterialUse).map fun mat =>
        { material := mat.material
          quantity := (parseFloat mat.quantity).round R } }

/-- The part of `handleSubmit` after the client is known (Sales.jsx, lines 232-278):
client check, item check, then `saleService.create` and the reset of the form.
`paymentMethodField` is `formData.get('paymentMethod')`; `fetchSales()` is started
without being awaited and only its request is recorded. -/
def handleSubmitWithClient (R : Rounding) (s : SalesState) (b : Browser) (client : String)
    (paymentMethodField : Option String) (createReply : Except AxiosError Unit) :
    SalesState × Browser :=
  if !truthyStr client then
    (s, showNotification "Selecione um cliente" "error" b)
  else
    let items := payloadItems R s.saleItems
    if items.length = 0 then
      (s, showNotification "Adicione pelo menos um produto" "error" b)
    else
      let paymentMethod := if truthy paymentMethodField then paymentMethodField.getD ""
        else "dinheiro"
      let paymentStatus := if paymentMethod = "pendente" then "pendente" else "pago"
      let r := apiRequest "post" "/sales"
        (.sale { client := client, items := items, paymentMethod := paymentMethod,
                 paymentStatus := paymentStatus })
        createReply b
      match r.2 with
      | .ok _ =>
        ({ s with
            isModalOpen := false
            saleItems := [{ product := "", quantity := "1", materialsUsed := [] }]
            selectedClientId := ""
            isQuickSale := false },
          apiSend "get" "/sales" .empty
            (showNotification "Venda registrada com sucesso!" "success" r.1))
      | .error error =>
        (s, showNotification (error.messageOr "Erro ao registrar venda") "error" r.1)

/-- Embedding of `handleSubmit` (Sales.jsx, lines 209-279).  `quickReply` is the
server's answer to `clientService.createQuickSale()` and is consulted only when that
request is made. -/
def handleSubmit (R : Rounding) (s : SalesState) (b : Browser)
    (quickReply : Except AxiosError Client) (paymentMethodField : Option String)
    (createReply : Except AxiosError Unit) : SalesState × Browser :=
  if s.isQuickSale && !truthyStr s.selectedClientId then
    let r := apiRequest "post" "/clients/quick-sale" .empty quickReply b
    match r.2 with
    | .ok newClient =>
      handleSubmitWithClient R { s with clients := newClient :: s.clients } r.1
        newClient._id paymentMethodField createReply
    | .error error =>
      (s, showNotification (error.messageOr "Erro ao criar cliente temporário") "error" r.1)
  else
    handleSubmitWithClient R s b s.selectedClientId paymentMethodField createReply

/-- Embedding of `handleAddItem` (Sales.jsx, lines 169-171): one more empty row. -/
def handleAddItem (s : SalesState) : SalesState :=
  { s with
      saleItems := s.saleItems ++ [{ product := "", quantity := "1", materialsUsed := [] }] }

/-- Embedding of `handleRemoveItem` (Sales.jsx, lines 173-175): the row at `index` is
filtered out. -/
def handleRemoveItem (s : SalesState) (index : ℕ) : SalesState :=
  { s with saleItems := s.saleItems.eraseIdx index }

/-- Click on the remove button of row `index`.  The button is rendered only while
`saleItems.length > 1` (Sales.jsx, lines 578-586); without it there is nothing to
click. -/
def removeItemClick (s : SalesState) (index : ℕ) : SalesState :=
  if 1 < s.saleItems.length then handleRemoveItem s index else s

/-- The `onClose` of the sale modal (Sales.jsx, lines 484-489). -/
def closeSaleModal (s : SalesState) : SalesState :=
  { s with
      isModalOpen := false
      saleItems := [{ product := "", quantity := "1", materialsUsed := [] }]
      selectedClientId := ""
      isQuickSale := false }

/-- Constraint validation of an `<input type="number">` holding `text`, with its
`min`, `step` and `required` attributes: an empty field violates only `required`;
any other text has to denote a finite number that is at least `min` and a whole number
of steps away from it (the step base is `min`).  The text is read with `toNumber`; a
number input holds decimal literals only, and on those the browser reads the same
value. -/
def numberInputValid (min step : ℚ) (required : Bool) (text : String) : Bool :=
  if text = "" then !required
  else
    match toNumber text with
    | .fin x => decide (min ≤ x) && ((x - min) / step).isInt
    | _ => false

/-- Constraint validation of the sale form (Sales.jsx, lines 493-691; the form has no
`noValidate`).  The client `<select required>` is rendered outside quick-sale mode
(lines 495-523).  On every row the product `<select>` is `required` (lines 546-553) and
the quantity is `<input type="number" min="1" required>` with the default step 1
(lines 561-570).  The material rows of a row with a product hold
`<input type="number" step="0.01" min="0.01">` with value `matItem.quantity || 1`
(lines 626-640). -/
def saleFormValid (s : SalesState) : Bool :=
  (s.isQuickSale || truthyStr s.selectedClientId) &&
    s.saleItems.all fun item =>
      truthyStr item.product && numberInputValid 1 1 true item.quantity &&
        item.materialsUsed.all fun mat =>
          numberInputValid (1 / 100) (1 / 100) false
            (if truthyStr mat.quantity then mat.quantity else "1")

/-- Click on "Registrar Venda", the `<button type="submit">` (line 688) of
`<form onSubmit={handleSubmit}>` (line 493): the browser validates the form and fires
`submit`, hence `handleSubmit`, only when the form is valid; otherwise it points at
the first invalid field and neither the state nor the network is touched. -/
def submitSaleForm (R : Rounding) (s : SalesState) (b : Browser)
    (quickReply : Except AxiosError Client) (paymentMethodField : Option String)
    (createReply : Except AxiosError Unit) : SalesState × Browser :=
  if saleFormValid s then handleSubmit R s b quickReply paymentMethodField createReply
  else (s, b)

/-! ## Products page (`src/pages/Products/Products.jsx`) -/

/-- The `formData` state of the product form. -/
structure ProductForm where
  name : String
  description : String
  price : String
  costPrice : String
  stock : String
  category : String
  productionBatch : String
  deriving DecidableEq

/-- The `calculatorData` state of the cost calculator. -/
structure CalculatorData where
  totalCost : String
  quantity : String
  deriving DecidableEq

/-- State cells of `Products` that the calculator reads or writes. -/
structure ProductsState where
  formData : ProductForm
  calculatorData : CalculatorData
  deriving DecidableEq

/-- `value.replace(',', '.')`: the first comma only. -/
def replaceFirstComma : List Char → List Char
  | [] => []
  | c :: cs => if c = ',' then '.' :: cs else c :: replaceFirstComma cs

/-- Normalisation of the typed total cost (Products.jsx, lines 377-385): the first
comma becomes a point, every character that is not a digit or a point is removed, and
when more than one point is left only the first one is kept. -/
def sanitizeTotalCost (input : String) : String :=
  let kept := (replaceFirstComma input.toList).filter fun c => c.isDigit || c = '.'
  if (kept.filter fun c => c = '.').length > 1 then
    let head := kept.takeWhile fun c => c ≠ '.'
    let tail := (kept.dropWhile fun c => c ≠ '.').filter fun c => c ≠ '.'
    String.mk (head ++ '.' :: tail)
  else String.mk kept

/-- `onChange` of the total-cost input of the calculator (Products.jsx, lines 376-399);
`input` is `e.target.value`. -/
def onTotalCostChange (R : Rounding) (numberToString : ℚ → String) (s : ProductsState)
    (input : String) : ProductsState :=
  let value := sanitizeTotalCost input
  let total := ((parseFloat value).round R).orZero
  let qty := ((parseFloat s.calculatorData.quantity).round R).orZero
  let s1 : ProductsState :=
    { s with calculatorData := { s.calculatorData with totalCost := value } }
  if qty.gtZero && total.gtZero then
    { s1 with
      formData := { s.formData with
        costPrice := (JsNum.div R total qty).toFixed2 numberToString } }
  else s1

/-- `onChange` of the quantity input of the calculator (Products.jsx, lines 407-420);
`input` is `e.target.value`. -/
def onQuantityChange (R : Rounding) (numberToString : ℚ → String) (s : ProductsState)
    (input : String) : ProductsState :=
  let qty := ((parseFloat input).round R).orZero
  let total := ((parseFloat s.calculatorData.totalCost).round R).orZero
  let s1 : ProductsState :=
    { s with calculatorData := { s.calculatorData with quantity := input } }
  if qty.gtZero && total.gtZero then
    { s1 with
      formData := { s.formData with
        costPrice := (JsNum.div R total qty).toFixed2 numberToString } }
  else s1

/-- Embedding of `handleDelete` of the products page (Products.jsx, lines 103-115).
`confirmed` is the answer of `window.confirm`; `fetchProducts()` is started without
being awaited and only its request is recorded. -/
def Products.handleDelete (b : Browser) (id : String) (confirmed : Bool)
    (reply : Except AxiosError Unit) : Browser :=
  if !confirmed then b
  else
    let r := apiRequest "delete" ("/products/" ++ id) .empty reply b
    match r.2 with
    | .ok _ =>
      apiSend "get" "/products" .empty
        (showNotification "Produto excluído com sucesso!" "success" r.1)
    | .error _ => showNotification "Erro ao excluir produto" "error" r.1

/-- Embedding of `handleDelete` of the materials page (Materials.jsx, lines 123-135);
parameters as for the products page. -/
def Materials.handleDelete (b : Browser) (id : String) (confirmed : Bool)
    (reply : Except AxiosError Unit) : Browser :=
  if !confirmed then b
  else
    let r := apiRequest "delete" ("/materials/" ++ id) .empty reply b
    match r.2 with
    | .ok _ =>
      apiSend "get" "/materials" .empty
        (showNotification "Material excluído com sucesso!" "success" r.1)
    | .error _ => showNotification "Erro ao excluir material" "error" r.1

/-- Product record returned by the server (fields the sale form reads). -/
structure Product where
  _id : String
  name : String
  price : ℚ
  stock : ℚ
  deriving DecidableEq

/-- The number shown as the subtotal of a sale item (Sales.jsx, lines 541-543 and
571-577): `selectedProduct.price * (parseInt(item.quantity) || 0)`, present only when
the item's product is found in the list. -/
def itemSubtotal (R : Rounding) (products : List Product) (item : SaleItem) :
    Option JsNum :=
  (products.find? fun p => p._id = item.product).map fun selectedProduct =>
    JsNum.mul R (.fin selectedProduct.price) ((parseInt item.quantity).round R).orZero

/-- The text of the subtotal: `formatCurrency` of the number.  `formatCurrency` lives
in `utils/format`, which is not among the sources, and is taken as a parameter. -/
def itemSubtotalText (formatCurrency : JsNum → String) (R : Rounding)
    (products : List Product) (item : SaleItem) : Option String :=
  (itemSubtotal R products item).map formatCurrency

/-! ## Materials page: the form (`src/pages/Materials/Materials.jsx`) -/

/-- The `formData` state of the material form; the numeric fields hold the text of
their inputs. -/
structure MaterialForm where
  name : String
  description : String
  category : String
  unit : String
  costPerUnit : String
  quantityInStock : String
  minimumStock : String
  supplier : String
  supplierPhone : String
  notes : String
  deriving DecidableEq

/-- State cells of `Materials` that `handleSubmit` reads or writes; `editingMaterial`
is represented by the `_id` of the material being edited. -/
structure MaterialsState where
  formData : MaterialForm
  editingMaterial : Option String
  isModalOpen : Bool
  deriving DecidableEq

/-- The `data` object of `handleSubmit` (Materials.jsx, lines 73-81). -/
def Materials.submitData (R : Rounding) (s : MaterialsState) : MaterialPayload :=
  let quantityInStock := ((parseFloat s.formData.quantityInStock).round R).orZero
  { name := s.formData.name
    description := s.formData.description
    category := s.formData.category
    unit := s.formData.unit
    costPerUnit := (parseFloat s.formData.costPerUnit).round R
    quantityInStock := quantityInStock
    minimumStock := ((parseFloat s.formData.minimumStock).round R).orZero
    supplier := s.formData.supplier
    supplierPhone := s.formData.supplierPhone
    notes := s.formData.notes
    initialPurchase := s.editingMaterial.isNone && quantityInStock.gtZero }

/-- The form after `resetForm()` (Materials.jsx, lines 137-151). -/
def Materials.emptyForm : MaterialForm :=
  { name := "", description := "", category := "cone", unit := "unidade", costPerUnit := ""
    quantityInStock := "", minimumStock := "", supplier := "", supplierPhone := ""
    notes := "" }

/-- Embedding of `handleSubmit` of the materials page (Materials.jsx, lines 70-104).
`fetchMaterials()` is started without being awaited and only its request is
recorded. -/
def Materials.handleSubmit (R : Rounding) (s : MaterialsState) (b : Browser)
    (reply : Except AxiosError Unit) : MaterialsState × Browser :=
  let data := Materials.submitData R s
  let r : Browser × Except AxiosError Unit :=
    match s.editingMaterial with
    | some id => apiRequest "put" ("/materials/" ++ id) (.material data) reply b
    | none => apiRequest "post" "/materials" (.material data) reply b
  match r.2 with
  | .ok _ =>
    let message :=
      match s.editingMaterial with
      | some _ => "Material atualizado com sucesso!"
      | none =>
        if data.quantityInStock.gtZero then "Material criado e estoque inicial registrado!"
        else "Material criado com sucesso!"
    ({ formData := Materials.emptyForm, editingMaterial := none, isModalOpen := false },
      apiSend "get" "/materials" .empty (showNotification message "success" r.1))
  | .error error =>
    (s, showNotification (error.messageOr "Erro ao salvar material") "error" r.1)

/-! ## Low-stock alert (`src/components/StockAlert.jsx`) -/

/-- Material record listed by the alert. -/
structure LowStockMaterial where
  _id : String
  name : String
  unit : String
  quantityInStock : ℚ
  minimumStock : ℚ
  deriving DecidableEq

/-- Body of a fulfilled `GET /materials/stats` (`response.data.data`); every field may
be missing. -/
structure MaterialStats where
  lowStockMaterials : Option (List LowStockMaterial)
  totalMaterials : Option ℚ
  totalStockValue : Option ℚ
  totalWithdrawalsValue : Option ℚ
  lowStockCount : Option ℚ
  deriving DecidableEq

/-- State cells of `StockAlert`. -/
structure StockAlertState where
  lowStockMaterials : List LowStockMaterial
  loading : Bool
  isExpanded : Bool
  deriving DecidableEq

/-- Embedding of `fetchLowStockMaterials` (StockAlert.jsx, lines 19-29), run while the
session context holds `app.auth`.  The third component tells how the call ends: the
`catch` block takes every failure, so it always ends normally. -/
def StockAlert.fetchLowStockMaterials (app : App) (st : StockAlertState)
    (reply : Except AxiosError MaterialStats) :
    App × StockAlertState × Except AxiosError Unit :=
  let r := serviceCall app "get" "/materials/stats" .empty reply
  match r.2 with
  | .ok response =>
    (r.1,
      { st with lowStockMaterials := response.lowStockMaterials.getD [], loading := false },
      .ok ())
  | .error _ =>
    ({ r.1 with
        browser := consoleError "Erro ao buscar materiais com estoque baixo:" r.1.browser },
      { st with loading := false },
      .ok ())

/-! ## Dashboard (`src/pages/Dashboard/Dashboard.jsx`) -/

/-- Sale record returned by the server (fields the dashboard reads). -/
structure Sale where
  _id : String
  paymentStatus : String
  totalAmount : ℚ
  netProfit : ℚ
  deriving DecidableEq

/-- Body of a fulfilled `GET /sales`: `data.data.sales` and `data.data.pagination.total`,
either of which may be missing. -/
structure SalesListResponse where
  sales : Option (List Sale)
  paginationTotal : Option ℚ
  deriving DecidableEq

/-- Body of a fulfilled `GET /products`: `data.data.pagination.total`. -/
structure ProductsListResponse where
  paginationTotal : Option ℚ
  deriving DecidableEq

/-- The `stats` state of the dashboard. -/
structure DashboardStats where
  totalSales : ℚ
  totalRevenue : ℚ
  totalProfit : ℚ
  totalProducts : ℚ
  pendingSales : ℚ
  pendingAmount : ℚ
  totalMaterials : ℚ
  materialsStockValue : ℚ
  totalWithdrawalsValue : ℚ
  lowStockMaterials : ℚ
  deriving DecidableEq

/-- State cells of `Dashboard` that `fetchDashboardData` writes. -/
structure DashboardState where
  stats : DashboardStats
  recentSales : List Sale
  loading : Bool
  refreshing : Bool
  deriving DecidableEq

/-- `xs.reduce((sum, x) => sum + x, 0)`: every addition is rounded. -/
def jsSum (R : Rounding) (xs : List ℚ) : ℚ :=
  xs.foldl (fun sum x => R.fl (sum + x)) 0

/-- The object given to `setStats` (Dashboard.jsx, lines 76-100). -/
def Dashboard.computeStats (R : Rounding) (salesRes : SalesListResponse)
    (productsRes : ProductsListResponse) (materialsStats : MaterialStats) : DashboardStats :=
  let sales := salesRes.sales.getD []
  let pendingSales := sales.filter fun s => s.paymentStatus = "pendente"
  { totalSales := salesRes.paginationTotal.getD 0
    totalRevenue :=
      jsSum R ((sales.filter fun s => s.paymentStatus = "pago").map fun sale => sale.totalAmount)
    totalProfit :=
      jsSum R ((sales.filter fun s => s.paymentStatus = "pago").map fun sale => sale.netProfit)
    totalProducts := productsRes.paginationTotal.getD 0
    pendingSales := pendingSales.length
    pendingAmount := jsSum R (pendingSales.map fun sale => sale.totalAmount)
    totalMaterials := materialsStats.totalMaterials.getD 0
    materialsStockValue := materialsStats.totalStockValue.getD 0
    totalWithdrawalsValue := materialsStats.totalWithdrawalsValue.getD 0
    lowStockMaterials := materialsStats.lowStockCount.getD 0 }

/-- Embedding of `fetchDashboardData` (Dashboard.jsx, lines 66-109), run while the
session context holds `app.auth`.  The three requests of `Promise.all` leave first;
each answer passes the response interceptor; a failed `getStats` is replaced by an
empty object, and a failed sales or products request sends the call to the `catch`
block.  `setRefreshing(true)` at entry is overwritten by the `finally` block.  The
third component tells how the call ends. -/
def Dashboard.fetchDashboardData (R : Rounding) (app : App) (st : DashboardState)
    (salesReply : Except AxiosError SalesListResponse)
    (productsReply : Except AxiosError ProductsListResponse)
    (materialsReply : Except AxiosError MaterialStats) :
    App × DashboardState × Except AxiosError Unit :=
  let sent := apiSend "get" "/materials/stats" .empty
    (apiSend "get" "/products" .empty (apiSend "get" "/sales" .empty app.browser))
  let r1 := apiReceive salesReply sent
  let r2 := apiReceive productsReply r1.1
  let r3 := apiReceive materialsReply r2.1
  let materialsStats : MaterialStats :=
    match r3.2 with
    | .ok stats => stats
    | .error _ =>
      { lowStockMaterials := none, totalMaterials := none, totalStockValue := none
        totalWithdrawalsValue := none, lowStockCount := none }
  match r1.2, r2.2 with
  | .ok salesRes, .ok productsRes =>
    ({ app with browser := r3.1 },
      { stats := Dashboard.computeStats R salesRes productsRes materialsStats
        recentSales := (salesRes.sales.getD []).take 5
        loading := false
        refreshing := false },
      .ok ())
  | _, _ =>
    ({ app with browser := consoleError "Erro ao buscar dados:" r3.1 },
      { st with loading := false, refreshing := false },
      .ok ())

/-! ## Reports (`src/pages/Reports/Reports.jsx`) -/

/-- The `statistics` object of a report. -/
structure ReportStatistics where
  totalSales : ℚ
  totalAmount : ℚ
  totalCost : ℚ
  totalGrossProfit : ℚ
  totalNetProfit : ℚ
  deriving DecidableEq

/-- One-decimal rendering of a count of tenths. -/
def toFixed1Digits (n : ℕ) : String :=
  toString (n / 10) ++ "." ++ String.mk [Nat.digitChar (n % 10)]

/-- `Number.prototype.toFixed(1)`; see `JsNum.toFixed2`. -/
def JsNum.toFixed1 (numberToString : ℚ → String) : JsNum → String
  | .nan => "NaN"
  | .posInf => "Infinity"
  | .negInf => "-Infinity"
  | .fin x =>
    let sign := if x < 0 then "-" else ""
    if |x| ≥ 10 ^ 21 then sign ++ numberToString |x|
    else sign ++ toFixed1Digits ⌊|x| * 10 + 1 / 2⌋.toNat

/-- A value computed while a page is rendered, together with the divisions that were
evaluated to compute it: dividend and divisor of each, in order of evaluation. -/
structure Traced (α : Type) where
  value : α
  divisions : List (JsNum × JsNum)

/-- The operator `/` as the rendering functions below use it: the quotient, and the
record of the division in the trace. -/
def tracedDiv (R : Rounding) (a b : JsNum) : Traced JsNum :=
  { value := JsNum.div R a b, divisions := [(a, b)] }

/-- The gross-margin line (Reports.jsx, lines 101-105): rendered only when
`totalAmount > 0`; only then is the quotient evaluated. -/
def Reports.grossMargin (R : Rounding) (numberToString : ℚ → String)
    (statistics : ReportStatistics) : Traced (Option String) :=
  if statistics.totalAmount > 0 then
    let ratio := tracedDiv R (.fin statistics.totalGrossProfit) (.fin statistics.totalAmount)
    { value := some ("Margem: "
        ++ (JsNum.mul R ratio.value (.fin 100)).toFixed1 numberToString ++ "%")
      divisions := ratio.divisions }
  else { value := none, divisions := [] }

/-- The net-margin line (Reports.jsx, lines 112-116): rendered only when
`totalAmount > 0`; only then is the quotient evaluated. -/
def Reports.netMargin (R : Rounding) (numberToString : ℚ → String)
    (statistics : ReportStatistics) : Traced (Option String) :=
  if statistics.totalAmount > 0 then
    let ratio := tracedDiv R (.fin statistics.totalNetProfit) (.fin statistics.totalAmount)
    { value := some ("Margem: "
        ++ (JsNum.mul R ratio.value (.fin 100)).toFixed1 numberToString ++ "%")
      divisions := ratio.divisions }
  else { value := none, divisions := [] }

/-- The average-ticket card (Reports.jsx, lines 118-125): rendered only when
`totalSales > 0`; `formatCurrency` is a parameter, as for `itemSubtotalText`. -/
def Reports.averageTicket (formatCurrency : JsNum → String) (R : Rounding)
    (statistics : ReportStatistics) : Traced (Option String) :=
  if statistics.totalSales > 0 then
    let ticket := tracedDiv R (.fin statistics.totalAmount) (.fin statistics.totalSales)
    { value := some (formatCurrency ticket.value), divisions := ticket.divisions }
  else { value := none, divisions := [] }

/-- The ratios of the statistics grid of a report (Reports.jsx, lines 79-126), in the
order of the page: gross margin, net margin, average ticket.  The other cards show the
statistics as they are and divide nothing. -/
def Reports.statsGrid (formatCurrency : JsNum → String) (R : Rounding)
    (numberToString : ℚ → String) (statistics : ReportStatistics) :
    Traced (Option String × Option String × Option String) :=
  let gross := Reports.grossMargin R numberToString statistics
  let net := Reports.netMargin R numberToString statistics
  let ticket := Reports.averageTicket formatCurrency R statistics
  { value := (gross.value, net.value, ticket.value)
    divisions := gross.divisions ++ net.divisions ++ ticket.divisions }

/-! ## Round-to-nearest on 53 significant bits -/

/-- Nearest integer, a tie going to the even neighbour. -/
def roundHalfEven (y : ℚ) : ℤ :=
  if y - ⌊y⌋ < 1 / 2 then ⌊y⌋
  else if 1 / 2 < y - ⌊y⌋ then ⌊y⌋ + 1
  else if ⌊y⌋ % 2 = 0 then ⌊y⌋
  else ⌊y⌋ + 1

/-- Rounding of a positive value `x` to 53 significant bits: with `2^e ≤ x < 2^(e+1)`
the value is rounded to the nearest multiple of `2^(e-52)`. -/
def binary64Pos (x : ℚ) : ℚ :=
  (roundHalfEven (x / 2 ^ (Int.log 2 x - 52)) : ℚ) * 2 ^ (Int.log 2 x - 52)

/-- Round-to-nearest-even of the double format, with the exponent range left unbounded
(no overflow to an infinity, no subnormal numbers). -/
def binary64Round (x : ℚ) : ℚ :=
  if x = 0 then 0 else if 0 < x then binary64Pos x else -binary64Pos (-x)

/-- The rounding of JavaScript numbers (IEEE-754 binary64, round to nearest even), away
from overflow and underflow. -/
def Rounding.binary64 : Rounding :=
  { fl := binary64Round
    fl_zero := by simp [binary64Round]
    fl_mono := by
      have rhe_bounds : ∀ y : ℚ, ⌊y⌋ ≤ roundHalfEven y ∧ roundHalfEven y ≤ ⌊y⌋ + 1 := by
        intro y
        unfold roundHalfEven
        split_ifs <;> constructor <;> omega
      have rhe_of_int_le : ∀ (y : ℚ) (n : ℤ), (n : ℚ) ≤ y → n ≤ roundHalfEven y :=
        fun y n h => le_trans (Int.le_floor.mpr h) (rhe_bounds y).1
      have rhe_le_of_le_int : ∀ (y : ℚ) (n : ℤ), y ≤ (n : ℚ) → roundHalfEven y ≤ n := by
        intro y n h
        rcases lt_or_eq_of_le (Int.floor_le_floor h) with hlt | heq
        · rw [Int.floor_intCast] at hlt
          have := (rhe_bounds y).2
          omega
        · rw [Int.floor_intCast] at heq
          have hy : y = n := le_antisymm h (by rw [← heq]; exact Int.floor_le y)
          subst hy
          simp [roundHalfEven]
      have rhe_mono : ∀ y y' : ℚ, y ≤ y' → roundHalfEven y ≤ roundHalfEven y' := by
        intro y y' h
        rcases lt_or_eq_of_le (Int.floor_le_floor h) with hlt | heq
        · have h1 := (rhe_bounds y).2
          have h2 := (rhe_bounds y').1
          omega
        · have hr : y - ⌊y⌋ ≤ y' - ⌊y'⌋ := by rw [heq]; linarith
          unfold roundHalfEven
          rw [heq]
          split_ifs <;> first | omega | (exfalso; linarith)
      have pos_facts : ∀ x : ℚ, 0 < x →
          (2 : ℚ) ^ (Int.log 2 x) ≤ binary64Pos x
            ∧ binary64Pos x ≤ (2 : ℚ) ^ (Int.log 2 x + 1) := by
        intro x hx
        have hu : (0 : ℚ) < 2 ^ (Int.log 2 x - 52) := by positivity
        have hlo : (2 : ℚ) ^ (Int.log 2 x) ≤ x := by
          have := Int.zpow_log_le_self (b := 2) (by norm_num) hx
          simpa using this
        have hhi : x < (2 : ℚ) ^ (Int.log 2 x + 1) := by
          have := Int.lt_zpow_succ_log_self (b := 2) (by norm_num) x
          simpa using this
        have e1 : (2 : ℚ) ^ (Int.log 2 x)
            = ((2 ^ 52 : ℤ) : ℚ) * 2 ^ (Int.log 2 x - 52) := by
          rw [zpow_sub₀ (by norm_num : (2 : ℚ) ≠ 0)]
          push_cast
          field_simp
          norm_num
          ring
        have e2 : (2 : ℚ) ^ (Int.log 2 x + 1)
            = ((2 ^ 53 : ℤ) : ℚ) * 2 ^ (Int.log 2 x - 52) := by
          rw [zpow_sub₀ (by norm_num : (2 : ℚ) ≠ 0),
            zpow_add_one₀ (by norm_num : (2 : ℚ) ≠ 0)]
          push_cast
          field_simp
          ring
        have hy1 : ((2 ^ 52 : ℤ) : ℚ) ≤ x / 2 ^ (Int.log 2 x - 52) := by
          rw [le_div_iff₀ hu, ← e1]
          exact hlo
        have hy2 : x / 2 ^ (Int.log 2 x - 52) ≤ ((2 ^ 53 : ℤ) : ℚ) := by
          rw [div_le_iff₀ hu, ← e2]
          exact le_of_lt hhi
        have h1 := rhe_of_int_le _ _ hy1
        have h2 := rhe_le_of_le_int _ _ hy2
        unfold binary64Pos
        rw [e1, e2]
        constructor
        · exact mul_le_mul_of_nonneg_right (by exact_mod_cast h1) (le_of_lt hu)
        · exact mul_le_mul_of_nonneg_right (by exact_mod_cast h2) (le_of_lt hu)
      have pos_pos : ∀ x : ℚ, 0 < x → 0 < binary64Pos x :=
        fun x hx => lt_of_lt_of_le (by positivity) (pos_facts x hx).1
      have pos_mono : ∀ x x' : ℚ, 0 < x → x ≤ x' → binary64Pos x ≤ binary64Pos x' := by
        intro x x' hx h
        have hx' : 0 < x' := lt_of_lt_of_le hx h
        have he : Int.log 2 x ≤ Int.log 2 x' := Int.log_mono_right hx h
        rcases lt_or_eq_of_le he with hlt | heq
        · calc binary64Pos x ≤ (2 : ℚ) ^ (Int.log 2 x + 1) := (pos_facts x hx).2
            _ ≤ (2 : ℚ) ^ (Int.log 2 x') := zpow_le_zpow_right₀ (by norm_num) (by omega)
            _ ≤ binary64Pos x' := (pos_facts x' hx').1
        · unfold binary64Pos
          rw [heq]
          have hu : (0 : ℚ) < 2 ^ (Int.log 2 x' - 52) := by positivity
          apply mul_le_mul_of_nonneg_right _ (le_of_lt hu)
          have : x / 2 ^ (Int.log 2 x' - 52) ≤ x' / 2 ^ (Int.log 2 x' - 52) :=
            div_le_div_of_nonneg_right h (le_of_lt hu)
          exact_mod_cast rhe_mono _ _ this
      intro a b hab
      show binary64Round a ≤ binary64Round b
      unfold binary64Round
      by_cases ha0 : a = 0
      · subst ha0
        by_cases hb0 : b = 0
        · simp [hb0]
        · have hb : 0 < b := lt_of_le_of_ne hab (Ne.symm hb0)
          simp [hb0, hb, le_of_lt (pos_pos b hb)]
      · by_cases hb0 : b = 0
        · subst hb0
          have ha : a < 0 := lt_of_le_of_ne hab ha0
          have : 0 < binary64Pos (-a) := pos_pos _ (by linarith)
          simp [ha0, not_lt.mpr (le_of_lt ha)]
          linarith
        · by_cases ha : 0 < a
          · have hb : 0 < b := lt_of_lt_of_le ha hab
            simp [ha0, hb0, ha, hb, pos_mono a b ha hab]
          · have ha' : a < 0 := lt_of_le_of_ne (not_lt.mp ha) ha0
            by_cases hb : 0 < b
            · have h1 : 0 < binary64Pos (-a) := pos_pos _ (by linarith)
              have h2 : 0 < binary64Pos b := pos_pos b hb
              simp [ha0, hb0, ha, hb]
              linarith
            · have hb' : b < 0 := lt_of_le_of_ne (not_lt.mp hb) hb0
              have := pos_mono (-b) (-a) (by linarith) (by linarith)
              simp [ha0, hb0, ha, hb]
              linarith }

/-! ## Theorems -/

/-- After `removeItem key`, `getItem key` is `null`. -/
theorem LocalStorage.getItem_removeItem (ls : LocalStorage) (key : String) :
    (ls.removeItem key).getItem key = none := by
  simp [LocalStorage.getItem, LocalStorage.removeItem, List.find?_eq_none, List.mem_filter]

/-- After `setItem key value`, `getItem key` is `value`. -/
theorem LocalStorage.getItem_setItem (ls : LocalStorage) (key value : String) :
    (ls.setItem key value).getItem key = some value := by
  simp [LocalStorage.getItem, LocalStorage.setItem]

/-- A service call from a page leaves the session context as it was. -/
theorem serviceCall_auth {α : Type} (s : App) (method url : String) (data : Body)
    (reply : Except AxiosError α) :
    (serviceCall s method url data reply).1.auth = s.auth := rfl

/-- A rounding keeps non-negative values non-negative. -/
theorem Rounding.fl_nonneg (R : Rounding) {x : ℚ} (hx : 0 ≤ x) : 0 ≤ R.fl x := by
  have h := R.fl_mono hx
  rwa [R.fl_zero] at h

/-- `x || 0` leaves a positive number alone. -/
theorem JsNum.orZero_fin_pos {q : ℚ} (hq : 0 < q) : (JsNum.fin q).orZero = .fin q := by
  simp [JsNum.orZero, ne_of_gt hq]

/-- The rounded count of hundredths is within half a hundredth of the value. -/
theorem nearest_hundredth (x : ℚ) (hx : 0 ≤ x) :
    |((⌊x * 100 + 1 / 2⌋.toNat : ℕ) : ℚ) / 100 - x| ≤ 1 / 200 := by
  have hfloor_nonneg : 0 ≤ ⌊x * 100 + 1 / 2⌋ := Int.floor_nonneg.mpr (by positivity)
  have hcast : ((⌊x * 100 + 1 / 2⌋.toNat : ℕ) : ℚ) = (⌊x * 100 + 1 / 2⌋ : ℚ) := by
    have h := Int.toNat_of_nonneg hfloor_nonneg
    exact_mod_cast congrArg (fun z : ℤ => (z : ℚ)) h
  rw [hcast, abs_le]
  have h1 := Int.floor_le (x * 100 + 1 / 2)
  have h2 := Int.lt_floor_add_one (x * 100 + 1 / 2)
  constructor <;> linarith

/-- What the calculator writes for positive operands whose quotient is below `10^21`:
the two-decimal rendering of the quotient rounded to the nearest hundredth. -/
theorem calculator_quotient (R : Rounding) (numberToString : ℚ → String) (total qty : ℚ)
    (ht : 0 < total) (hq : 0 < qty) (hlt : R.fl (total / qty) < 10 ^ 21) :
    (JsNum.div R (.fin total) (.fin qty)).toFixed2 numberToString
      = toFixed2Digits ⌊R.fl (total / qty) * 100 + 1 / 2⌋.toNat := by
  have hx : 0 ≤ R.fl (total / qty) := R.fl_nonneg (le_of_lt (div_pos ht hq))
  simp only [JsNum.div, if_neg (ne_of_gt hq), JsNum.toFixed2, abs_of_nonneg hx,
    if_neg (not_lt.mpr hx), ge_iff_le, if_neg (not_le.mpr hlt)]
  simp

/-- The request interceptor touches nothing but the `Authorization` header. -/
theorem requestInterceptor_other_fields (ls : LocalStorage) (config : RequestConfig) :
    (requestInterceptor ls config).method = config.method
      ∧ (requestInterceptor ls config).url = config.url
      ∧ (requestInterceptor ls config).data = config.data
      ∧ (requestInterceptor ls config).headers.contentType = config.headers.contentType := by
  unfold requestInterceptor
  by_cases h : truthy (ls.getItem "token") = true <;> simp [h]

/-- A truthy stored value is a non-empty string. -/
theorem truthy_iff (v : Option String) : truthy v = true ↔ ∃ t, v = some t ∧ t ≠ "" := by
  cases v with
  | none => simp [truthy]
  | some t => simp [truthy, truthyStr]

/-- Result of the continuation of `checkAuth` on a 401 answer, from any state. -/
theorem checkAuthResume_unauthorized (s : App) (error : AxiosError)
    (h401 : error.status = some 401) :
    checkAuthResume s (.error error)
      = { auth := { user := none, loading := false, checkingRef := false }
          browser := { s.browser with
            localStorage :=
              (s.browser.localStorage.removeItem "token").removeItem "token" } } := by
  simp [checkAuthResume, apiReceive, responseErrorInterceptor, h401]

/-- Result of the continuation of `checkAuth` on a 429 answer, from any state. -/
theorem checkAuthResume_rateLimited (s : App) (error : AxiosError)
    (h429 : error.status = some 429) :
    checkAuthResume s (.error error)
      = { s with auth := { s.auth with loading := false, checkingRef := false } } := by
  simp [checkAuthResume, apiReceive, responseErrorInterceptor, h429]

/-- With the guard free and a truthy token, `checkAuth` sends `getMe` and waits. -/
theorem checkAuthStart_sends (s : App) (hfree : s.auth.checkingRef = false)
    (htok : truthy (s.browser.localStorage.getItem "token") = true) :
    checkAuthStart s
      = ({ auth := { s.auth with checkingRef := true }
           browser := apiSend "get" "/auth/me" .empty s.browser }, .awaitingGetMe) := by
  simp [checkAuthStart, hfree, htok]

/-- With the guard set, `checkAuth` returns at once and changes nothing. -/
theorem checkAuthStart_guarded (s : App) (hbusy : s.auth.checkingRef = true) :
    checkAuthStart s = (s, .returned) := by
  simp [checkAuthStart, hbusy]


/-- C1: evaluation of `getStockStatus` on a material with no stock and a positive
minimum: the result is `low`, not `empty`, because the `low` test is made first. -/
theorem getStockStatus_zero_stock_with_minimum :
    getStockStatus { quantityInStock := 0, minimumStock := 5 } = "low"
      ∧ getStockStatus { quantityInStock := 0, minimumStock := 5 } ≠ "empty" := by
  constructor <;> simp [getStockStatus]

/-- C2: every material with a positive minimum whose quantity is positive and not above
the minimum is classified `low`. -/
theorem getStockStatus_low (material : Material)
    (hmin : material.minimumStock > 0)
    (_hpos : 0 < material.quantityInStock)
    (hle : material.quantityInStock ≤ material.minimumStock) :
    getStockStatus material = "low" := by
  simp [getStockStatus, hmin, hle]

/-- C2 (witness): three units in stock against a minimum of five. -/
theorem getStockStatus_low_witness :
    getStockStatus { quantityInStock := 3, minimumStock := 5 } = "low" :=
  getStockStatus_low { quantityInStock := 3, minimumStock := 5 }
    (by norm_num) (by norm_num) (by norm_num)

/-- C3 (counterexample): the code and the specification's three cases disagree on a
material with a negative quantity and a positive minimum (`low` against `ok`), so the
results do not partition all inputs as the three cases do. -/
theorem getStockStatus_partition_counterexample :
    ¬ (∀ material : Material, getStockStatus material = specStockStatus material) := by
  intro h
  have h1 := h { quantityInStock := -1, minimumStock := 5 }
  norm_num [getStockStatus, specStockStatus] at h1
  exact absurd h1 (by decide)

/-- C3 (amended): for a material whose quantity is not zero the result is `ok` exactly
when the minimum is not positive or the quantity exceeds it; and for every positive
quantity the result is the one the specification's three cases give. -/
theorem getStockStatus_ok (material : Material) (hq : material.quantityInStock ≠ 0) :
    (getStockStatus material = "ok"
        ↔ (material.minimumStock ≤ 0 ∨ material.quantityInStock > material.minimumStock))
      ∧ (0 < material.quantityInStock →
          getStockStatus material = specStockStatus material) := by
  constructor
  · unfold getStockStatus
    by_cases hlow : material.minimumStock > 0
        ∧ material.quantityInStock ≤ material.minimumStock
    · rw [if_pos hlow]
      constructor
      · intro h
        exact absurd h (by decide)
      · rintro (h | h)
        · exact absurd hlow.1 (not_lt.mpr h)
        · exact absurd hlow.2 (not_le.mpr h)
    · rw [if_neg hlow, if_neg hq]
      constructor
      · intro _
        by_cases hm : material.minimumStock > 0
        · right
          by_contra hgt
          exact hlow ⟨hm, not_lt.mp hgt⟩
        · left
          exact not_lt.mp hm
      · intro _
        rfl
  · intro hpos
    have hspec : specStockStatus material
        = if 0 < material.quantityInStock ∧ material.quantityInStock ≤ material.minimumStock
            ∧ material.minimumStock > 0 then "low" else "ok" := by
      unfold specStockStatus
      exact if_neg hq
    rw [hspec]
    unfold getStockStatus
    by_cases hlow : material.minimumStock > 0
        ∧ material.quantityInStock ≤ material.minimumStock
    · rw [if_pos hlow, if_pos ⟨hpos, hlow.2, hlow.1⟩]
    · rw [if_neg hlow, if_neg hq, if_neg]
      rintro ⟨_, h2, h3⟩
      exact hlow ⟨h3, h2⟩

/-- C3 (witness): seven units in stock against a minimum of five. -/
theorem getStockStatus_ok_witness :
    (getStockStatus { quantityInStock := 7, minimumStock := 5 } = "ok"
        ↔ ((5 : ℚ) ≤ 0 ∨ (7 : ℚ) > 5))
      ∧ ((0 : ℚ) < 7 →
          getStockStatus { quantityInStock := 7, minimumStock := 5 }
            = specStockStatus { quantityInStock := 7, minimumStock := 5 }) :=
  getStockStatus_ok { quantityInStock := 7, minimumStock := 5 } (by norm_num)

/-- C5: for every request sent through `api`, the config that leaves the request
interceptor carries an `Authorization` header exactly when a non-empty token is
stored; the header is then `Bearer ` followed by the token; and with no token (absent
or empty) the config is returned as it came, without the header. -/
theorem requestInterceptor_authorization (ls : LocalStorage) (method url : String)
    (data : Body) :
    ((requestInterceptor ls (apiConfig method url data)).headers.Authorization ≠ none
        ↔ ∃ t, ls.getItem "token" = some t ∧ t ≠ "")
      ∧ (∀ t, ls.getItem "token" = some t → t ≠ "" →
          (requestInterceptor ls (apiConfig method url data)).headers.Authorization
            = some ("Bearer " ++ t))
      ∧ ((ls.getItem "token" = none ∨ ls.getItem "token" = some "") →
          requestInterceptor ls (apiConfig method url data) = apiConfig method url data
            ∧ (requestInterceptor ls (apiConfig method url data)).headers.Authorization
                = none)
      ∧ (∀ b : Browser, (apiSend method url data b).log
          = b.log ++ [Effect.request (requestInterceptor b.localStorage
              (apiConfig method url data))]) := by
  refine ⟨?_, ?_, ?_, fun b => rfl⟩
  · rw [← truthy_iff]
    unfold requestInterceptor
    by_cases h : truthy (ls.getItem "token") = true <;> simp [h, apiConfig]
  · intro t ht hne
    have h : truthy (some t) = true := (truthy_iff _).mpr ⟨t, rfl, hne⟩
    simp [requestInterceptor, h, ht]
  · intro hno
    have h : truthy (ls.getItem "token") = false := by
      rcases hno with hn | hn <;> simp [hn, truthy, truthyStr]
    simp [requestInterceptor, h, apiConfig]

/-- C5 (witness): a stored token `abc` on the request `GET /auth/me`. -/
theorem requestInterceptor_authorization_witness :
    (requestInterceptor { items := [("token", "abc")] }
        (apiConfig "get" "/auth/me" .empty)).headers.Authorization
      = some ("Bearer " ++ "abc") :=
  (requestInterceptor_authorization { items := [("token", "abc")] } "get" "/auth/me"
    .empty).2.1 "abc" (by decide) (by decide)

/-- C6: for every call through `api` that fails, the error is handed on to the caller
unchanged; when its status is 401 the stored token is removed, and for every other
failure (and for every fulfilled response) the storage is left as it was. -/
theorem responseInterceptor_unauthorized (α : Type) (b : Browser) (method url : String)
    (data : Body) (error : AxiosError) (response : α) :
    (apiRequest method url data (Except.error error : Except AxiosError α) b).2
        = Except.error error
      ∧ (apiRequest method url data (Except.error error : Except AxiosError α) b).1.localStorage
        = (if error.status = some 401 then b.localStorage.removeItem "token"
            else b.localStorage)
      ∧ (b.localStorage.removeItem "token").getItem "token" = none
      ∧ (apiRequest method url data (Except.ok response : Except AxiosError α) b).1.localStorage
        = b.localStorage := by
  refine ⟨rfl, rfl, LocalStorage.getItem_removeItem _ _, rfl⟩

/-- C7: a trigger of `checkAuth` that finds the guard set sends nothing and changes
nothing; hence when a first trigger is in flight (guard free, token stored) and a
second one arrives before the answer, the whole run adds exactly one request. -/
theorem checkAuth_deduplicated (s : App) (reply : Except AxiosError MeResponse)
    (hfree : s.auth.checkingRef = false)
    (htok : truthy (s.browser.localStorage.getItem "token") = true) :
    (∀ t : App, t.auth.checkingRef = true → checkAuthStart t = (t, .returned))
      ∧ (checkAuthStart s).2 = .awaitingGetMe
      ∧ (checkAuthStart s).1.auth.checkingRef = true
      ∧ checkAuthStart (checkAuthStart s).1 = ((checkAuthStart s).1, .returned)
      ∧ requestCount (checkAuthStart s).1.browser.log = requestCount s.browser.log + 1
      ∧ requestCount
          (checkAuthResume (checkAuthStart (checkAuthStart s).1).1 reply).browser.log
        = requestCount s.browser.log + 1 := by
  have hstart := checkAuthStart_sends s hfree htok
  have hcount : requestCount (apiSend "get" "/auth/me" .empty s.browser).log
      = requestCount s.browser.log + 1 := by
    simp [apiSend, requestCount, List.filter_append]
  refine ⟨checkAuthStart_guarded, ?_, ?_, ?_, ?_, ?_⟩
  · rw [hstart]
  · rw [hstart]
  · rw [hstart]
    exact checkAuthStart_guarded _ rfl
  · rw [hstart]
    exact hcount
  · rw [hstart, checkAuthStart_guarded _ rfl]
    have hlog : ∀ (t : App),
        requestCount (checkAuthResume t reply).browser.log = requestCount t.browser.log := by
      intro t
      unfold checkAuthResume
      cases reply with
      | ok response =>
        by_cases hs : response.success = true <;>
          simp [apiReceive, responseInterceptor, hs]
      | error error =>
        by_cases h1 : error.status = some 401
        · simp [apiReceive, responseErrorInterceptor, h1]
        · by_cases h2 : error.status = some 429
          · simp [apiReceive, responseErrorInterceptor, h2]
          · simp [apiReceive, responseErrorInterceptor, h1, h2, consoleError, requestCount,
              List.filter_append]
    rw [hlog]
    exact hcount

/-- C7 (witness): a stored token `abc`, the guard free, and a 401 answer. -/
theorem checkAuth_deduplicated_witness :
    requestCount
        (checkAuthResume
          (checkAuthStart
            (checkAuthStart
              { auth := { user := none, loading := true, checkingRef := false }
                browser := { localStorage := { items := [("token", "abc")] }, log := [] } }).1).1
          (.error { response := some { status := 401, message := none } })).browser.log
      = requestCount [] + 1 :=
  (checkAuth_deduplicated
    { auth := { user := none, loading := true, checkingRef := false }
      browser := { localStorage := { items := [("token", "abc")] }, log := [] } }
    (.error { response := some { status := 401, message := none } })
    rfl (by decide)).2.2.2.2.2

/-- C8: when no token is stored (absent or empty) and the guard is free, `checkAuth`
ends with `user = null`, `loading = false` and the guard released, and the browser
(storage and trace) is untouched: no request is sent. -/
theorem checkAuth_no_token (s : App) (reply : Except AxiosError MeResponse)
    (hfree : s.auth.checkingRef = false)
    (hno : truthy (s.browser.localStorage.getItem "token") = false) :
    checkAuth s reply
        = { auth := { user := none, loading := false, checkingRef := false }
            browser := s.browser }
      ∧ (checkAuthStart s).2 = .returned
      ∧ requestCount (checkAuth s reply).browser.log = requestCount s.browser.log := by
  have hstart : checkAuthStart s
      = ({ auth := { user := none, loading := false, checkingRef := false }
           browser := s.browser }, .returned) := by
    simp [checkAuthStart, hfree, hno]
  have hrun : checkAuth s reply
      = { auth := { user := none, loading := false, checkingRef := false }
          browser := s.browser } := by
    simp [checkAuth, hstart]
  refine ⟨hrun, ?_, ?_⟩
  · rw [hstart]
  · rw [hrun]

/-- C8 (witness): an empty storage, a user still shown, the first check. -/
theorem checkAuth_no_token_witness :
    checkAuth
        { auth := { user := some { name := "Ana", email := "ana@loja.br", role := "admin",
                                   emailVerified := true },
                    loading := true, checkingRef := false }
          browser := { localStorage := { items := [] }, log := [] } }
        (.ok { success := true, user := none })
      = { auth := { user := none, loading := false, checkingRef := false }
          browser := { localStorage := { items := [] }, log := [] } } :=
  (checkAuth_no_token
    { auth := { user := some { name := "Ana", email := "ana@loja.br", role := "admin",
                               emailVerified := true },
                loading := true, checkingRef := false }
      browser := { localStorage := { items := [] }, log := [] } }
    (.ok { success := true, user := none }) rfl (by decide)).1

/-- C9: when a token is stored, the guard is free and the server answers `GET /auth/me`
with 401, then after `checkAuth` the token is gone and `user = null`; the only action
added to the trace is the request itself, so no navigation is performed. -/
theorem checkAuth_unauthorized (s : App) (error : AxiosError)
    (hfree : s.auth.checkingRef = false)
    (htok : truthy (s.browser.localStorage.getItem "token") = true)
    (h401 : error.status = some 401) :
    (checkAuth s (.error error)).browser.localStorage.getItem "token" = none
      ∧ (checkAuth s (.error error)).auth.user = none
      ∧ (checkAuth s (.error error)).browser.log
          = s.browser.log ++ [Effect.request (requestInterceptor s.browser.localStorage
              (apiConfig "get" "/auth/me" .empty))]
      ∧ (∀ path, Effect.navigate path ∈ (checkAuth s (.error error)).browser.log →
          Effect.navigate path ∈ s.browser.log) := by
  have hrun : checkAuth s (.error error)
      = { auth := { user := none, loading := false, checkingRef := false }
          browser := { (apiSend "get" "/auth/me" .empty s.browser) with
            localStorage :=
              ((apiSend "get" "/auth/me" .empty s.browser).localStorage.removeItem
                "token").removeItem "token" } } := by
    simp only [checkAuth, checkAuthStart_sends s hfree htok]
    exact checkAuthResume_unauthorized _ error h401
  rw [hrun]
  refine ⟨LocalStorage.getItem_removeItem _ _, rfl, rfl, ?_⟩
  intro path hmem
  simpa [apiSend] using hmem

/-- C9 (witness): a stored token `abc` refused by the server. -/
theorem checkAuth_unauthorized_witness :
    (checkAuth
        { auth := { user := none, loading := true, checkingRef := false }
          browser := { localStorage := { items := [("token", "abc")] }, log := [] } }
        (.error { response := some { status := 401, message := none } })).auth.user
      = none :=
  (checkAuth_unauthorized
    { auth := { user := none, loading := true, checkingRef := false }
      browser := { localStorage := { items := [("token", "abc")] }, log := [] } }
    { response := some { status := 401, message := none } }
    rfl (by decide) rfl).2.1

/-- C10: when a token is stored, the guard is free and the server answers
`GET /auth/me` with 429, then after `checkAuth` the user is the one held before, the
storage is unchanged, and the only action added to the trace is the request itself: no
`console.error` entry is written. -/
theorem checkAuth_rateLimited (s : App) (error : AxiosError)
    (hfree : s.auth.checkingRef = false)
    (htok : truthy (s.browser.localStorage.getItem "token") = true)
    (h429 : error.status = some 429) :
    (checkAuth s (.error error)).auth.user = s.auth.user
      ∧ (checkAuth s (.error error)).browser.localStorage = s.browser.localStorage
      ∧ (checkAuth s (.error error)).browser.log
          = s.browser.log ++ [Effect.request (requestInterceptor s.browser.localStorage
              (apiConfig "get" "/auth/me" .empty))]
      ∧ (∀ message, Effect.consoleError message ∈ (checkAuth s (.error error)).browser.log →
          Effect.consoleError message ∈ s.browser.log) := by
  have hrun : checkAuth s (.error error)
      = { auth := { user := s.auth.user, loading := false, checkingRef := false }
          browser := apiSend "get" "/auth/me" .empty s.browser } := by
    simp only [checkAuth, checkAuthStart_sends s hfree htok]
    exact checkAuthResume_rateLimited _ error h429
  rw [hrun]
  refine ⟨rfl, rfl, rfl, ?_⟩
  intro message hmem
  simpa [apiSend] using hmem

/-- C10 (witness): a signed-in user whose check is answered with 429. -/
theorem checkAuth_rateLimited_witness :
    (checkAuth
        { auth := { user := some { name := "Ana", email := "ana@loja.br", role := "admin",
                                   emailVerified := true },
                    loading := false, checkingRef := false }
          browser := { localStorage := { items := [("token", "abc")] }, log := [] } }
        (.error { response := some { status := 429, message := none } })).auth.user
      = some { name := "Ana", email := "ana@loja.br", role := "admin",
               emailVerified := true } :=
  (checkAuth_rateLimited
    { auth := { user := some { name := "Ana", email := "ana@loja.br", role := "admin",
                               emailVerified := true },
                loading := false, checkingRef := false }
      browser := { localStorage := { items := [("token", "abc")] }, log := [] } }
    { response := some { status := 429, message := none } }
    rfl (by decide) rfl).1

/-- With no valid item, `handleSubmit` never reaches `saleService.create`; the number
of requests it sends is one in direct-sale mode without a selected client (the
temporary client is created first) and zero otherwise. -/
theorem handleSubmit_no_valid_items_requests (R : Rounding) (s : SalesState) (b : Browser)
    (quickReply : Except AxiosError Client) (paymentMethodField : Option String)
    (createReply : Except AxiosError Unit)
    (hnone : ∀ item ∈ s.saleItems, validItem item = false) :
    requestCount (handleSubmit R s b quickReply paymentMethodField createReply).2.log
      = requestCount b.log
        + (if s.isQuickSale && !truthyStr s.selectedClientId then 1 else 0) := by
  have hitems : payloadItems R s.saleItems = [] := by
    simp only [payloadItems, List.map_eq_nil_iff, List.filter_eq_nil_iff]
    intro item hmem
    simp [hnone item hmem]
  have hrest : ∀ (t : SalesState) (c : Browser) (client : String),
      t.saleItems = s.saleItems →
      requestCount
          (handleSubmitWithClient R t c client paymentMethodField createReply).2.log
        = requestCount c.log := by
    intro t c client ht
    unfold handleSubmitWithClient
    by_cases hc : truthyStr client = true
    · simp [hc, ht, hitems, showNotification, requestCount, List.filter_append]
    · simp [hc, showNotification, requestCount, List.filter_append]
  have hsend : ∀ (method url : String) (data : Body),
      requestCount (apiSend method url data b).log = requestCount b.log + 1 := by
    intro method url data
    simp [apiSend, requestCount, List.filter_append]
  unfold handleSubmit
  by_cases hq : (s.isQuickSale && !truthyStr s.selectedClientId) = true
  · rw [if_pos hq, if_pos hq]
    cases quickReply with
    | ok newClient =>
      simp only [apiRequest, apiReceive, responseInterceptor]
      rw [hrest { s with clients := newClient :: s.clients } _ _ rfl]
      exact hsend _ _ _
    | error error =>
      simp only [apiRequest, apiReceive, responseErrorInterceptor, showNotification]
      have := hsend "post" "/clients/quick-sale" .empty
      simpa [requestCount, List.filter_append] using this
  · rw [if_neg hq, if_neg hq, hrest _ _ _ rfl]
    rfl

/-- A row that the filter of `handleSubmit` would drop does not pass the validation of
the form: its product select is empty, or its quantity is empty, not a number, or
below the `min` of the input. -/
theorem row_invalid_of_not_validItem (item : SaleItem) (h : validItem item = false) :
    (truthyStr item.product && numberInputValid 1 1 true item.quantity) = false := by
  unfold validItem at h
  by_cases hp : truthyStr item.product = true
  · rw [hp, Bool.true_and] at h
    rw [hp, Bool.true_and]
    unfold numberInputValid
    by_cases he : item.quantity = ""
    · simp [he]
    · rw [if_neg he]
      cases hn : toNumber item.quantity with
      | nan => rfl
      | posInf => rfl
      | negInf => rfl
      | fin x =>
        rw [hn] at h
        have hx : ¬ (0 < x) := by simpa [JsNum.gtZero] using h
        have h1 : ¬ ((1 : ℚ) ≤ x) := fun h1 => hx (lt_of_lt_of_le one_pos h1)
        simp [h1]
  · simp [hp]

/-- The sale form always shows at least one row: it opens with one, `handleAddItem`
adds one, the remove button exists only while more than one row is left, and closing
the modal or registering a sale puts one empty row back. -/
theorem saleItems_never_empty (R : Rounding) (s : SalesState) (b : Browser)
    (quickReply : Except AxiosError Client) (paymentMethodField : Option String)
    (createReply : Except AxiosError Unit) (index : ℕ) (hrows : s.saleItems ≠ []) :
    (handleAddItem s).saleItems ≠ []
      ∧ (removeItemClick s index).saleItems ≠ []
      ∧ (closeSaleModal s).saleItems ≠ []
      ∧ (submitSaleForm R s b quickReply paymentMethodField createReply).1.saleItems
          ≠ [] := by
  have hwith : ∀ (t : SalesState) (c : Browser) (client : String),
      t.saleItems ≠ [] →
      (handleSubmitWithClient R t c client paymentMethodField createReply).1.saleItems
        ≠ [] := by
    intro t c client ht
    unfold handleSubmitWithClient
    by_cases hc : truthyStr client = true
    · by_cases hlen : (payloadItems R t.saleItems).length = 0
      · simpa [hc, hlen] using ht
      · cases createReply with
        | ok u => simp [hc, hlen, apiRequest, apiReceive, responseInterceptor]
        | error e =>
          simpa [hc, hlen, apiRequest, apiReceive, responseErrorInterceptor] using ht
    · simpa [hc] using ht
  refine ⟨by simp [handleAddItem], ?_, by simp [closeSaleModal], ?_⟩
  · unfold removeItemClick handleRemoveItem
    by_cases hlen : 1 < s.saleItems.length
    · rw [if_pos hlen]
      intro hnil
      have := congrArg List.length hnil
      simp only [List.length_eraseIdx, List.length_nil] at this
      split at this <;> omega
    · rw [if_neg hlen]
      exact hrows
  · unfold submitSaleForm
    by_cases hv : saleFormValid s = true
    · rw [if_pos hv]
      unfold handleSubmit
      by_cases hq : (s.isQuickSale && !truthyStr s.selectedClientId) = true
      · rw [if_pos hq]
        cases quickReply with
        | ok newClient =>
          simp only [apiRequest, apiReceive, responseInterceptor]
          exact hwith _ _ _ hrows
        | error e =>
          simpa [apiRequest, apiReceive, responseErrorInterceptor] using hrows
      · rw [if_neg hq]
        exact hwith _ _ _ hrows
    · rw [if_neg hv]
      exact hrows

/-- C4: for every state of the sale form (it always shows at least one row) in which
no row has both a selected product and a quantity above zero, in direct-sale mode
without a client as in any other mode, pressing "Registrar Venda" registers nothing and
sends no request: the form does not pass its validation, so the state and the trace are
left as they were.  Whenever `handleSubmit` runs on such rows with a client selected or
outside direct-sale mode, it stops at a notification of type `error` without any
request, and on no path does it send a sale. -/
theorem saleForm_without_valid_items (R : Rounding) (s : SalesState) (b : Browser)
    (quickReply : Except AxiosError Client) (paymentMethodField : Option String)
    (createReply : Except AxiosError Unit)
    (hrows : s.saleItems ≠ [])
    (hnone : ∀ item ∈ s.saleItems, validItem item = false) :
    saleFormValid s = false
      ∧ submitSaleForm R s b quickReply paymentMethodField createReply = (s, b)
      ∧ requestCount
            (submitSaleForm R s b quickReply paymentMethodField createReply).2.log
          = requestCount b.log
      ∧ ((s.isQuickSale && !truthyStr s.selectedClientId) = false →
          handleSubmit R s b quickReply paymentMethodField createReply
            = (s, showNotification
                (if truthyStr s.selectedClientId then "Adicione pelo menos um produto"
                 else "Selecione um cliente") "error" b))
      ∧ (∀ cfg payload,
          Effect.request cfg
              ∈ (handleSubmit R s b quickReply paymentMethodField createReply).2.log →
          cfg.data = .sale payload → Effect.request cfg ∈ b.log) := by
  have hitems : payloadItems R s.saleItems = [] := by
    simp only [payloadItems, List.map_eq_nil_iff, List.filter_eq_nil_iff]
    intro item hmem
    simp [hnone item hmem]
  have hvalid : saleFormValid s = false := by
    obtain ⟨item, rest, hs⟩ := List.exists_cons_of_ne_nil hrows
    have hrow := row_invalid_of_not_validItem item (hnone item (by simp [hs]))
    unfold saleFormValid
    rw [hs, List.all_cons, hrow]
    simp
  have hsubmit : submitSaleForm R s b quickReply paymentMethodField createReply = (s, b) := by
    unfold submitSaleForm
    rw [hvalid]
    rfl
  have hwith : ∀ (t : SalesState) (c : Browser) (client : String),
      t.saleItems = s.saleItems →
      handleSubmitWithClient R t c client paymentMethodField createReply
        = (t, showNotification
            (if truthyStr client then "Adicione pelo menos um produto"
             else "Selecione um cliente") "error" c) := by
    intro t c client ht
    unfold handleSubmitWithClient
    by_cases hc : truthyStr client = true
    · simp [hc, ht, hitems]
    · simp [hc]
  refine ⟨hvalid, hsubmit, by rw [hsubmit], ?_, ?_⟩
  · intro hq
    unfold handleSubmit
    rw [hq]
    exact hwith s b _ rfl
  · intro cfg payload hreq hsale
    unfold handleSubmit at hreq
    by_cases hq : (s.isQuickSale && !truthyStr s.selectedClientId) = true
    · rw [if_pos hq] at hreq
      cases quickReply with
      | ok newClient =>
        simp only [apiRequest, apiReceive, responseInterceptor] at hreq
        rw [hwith { s with clients := newClient :: s.clients } _ _ rfl] at hreq
        simp only [showNotification, apiSend, List.mem_append, List.mem_singleton,
          Effect.request.injEq] at hreq
        rcases hreq with (h | h) | h
        · exact h
        · rw [h] at hsale
          simp [requestInterceptor, apiConfig] at hsale
          split at hsale <;> simp at hsale
        · exact absurd h (by simp)
      | error e =>
        simp only [apiRequest, apiReceive, responseErrorInterceptor, showNotification,
          apiSend, List.mem_append, List.mem_singleton, Effect.request.injEq] at hreq
        rcases hreq with (h | h) | h
        · exact h
        · rw [h] at hsale
          simp [requestInterceptor, apiConfig] at hsale
          split at hsale <;> simp at hsale
        · exact absurd h (by simp)
    · rw [if_neg hq, hwith s b _ rfl] at hreq
      simp only [showNotification, List.mem_append, List.mem_singleton] at hreq
      rcases hreq with h | h
      · exact h
      · exact absurd h (by simp)

/-- C4, at the direct-sale form as it opens (one row with no product chosen, no client
selected). -/
theorem saleForm_without_valid_items_witness :
    submitSaleForm Rounding.exact
        { clients := []
          saleItems := [{ product := "", quantity := "1", materialsUsed := [] }]
          selectedClientId := ""
          isQuickSale := true
          isModalOpen := true }
        { localStorage := { items := [] }, log := [] }
        (.ok { _id := "c1", name := "Venda Direta", phone := "" })
        none
        (.ok ())
      = ({ clients := []
           saleItems := [{ product := "", quantity := "1", materialsUsed := [] }]
           selectedClientId := ""
           isQuickSale := true
           isModalOpen := true },
         { localStorage := { items := [] }, log := [] }) :=
  (saleForm_without_valid_items Rounding.exact
    { clients := []
      saleItems := [{ product := "", quantity := "1", materialsUsed := [] }]
      selectedClientId := ""
      isQuickSale := true
      isModalOpen := true }
    { localStorage := { items := [] }, log := [] }
    (.ok { _id := "c1", name := "Venda Direta", phone := "" })
    none (.ok ())
    (by simp)
    (by simp [validItem, truthyStr])).2.1

/-- C11: for every fulfilled login whose body has `success = true`, a user and a
(non-empty) token, `login` sets the session user to that user, stores that token under
`token`, and returns a result with `success = true`. -/
theorem login_success (s : App) (email password : String) (response : AuthResponse)
    (user : User) (token : String)
    (hsuccess : response.success = true)
    (huser : response.data.user = some user)
    (htoken : response.data.token = some token)
    (hne : token ≠ "") :
    (login s email password (.ok response)).1.auth.user = some user
      ∧ (login s email password (.ok response)).1.browser.localStorage.getItem "token"
          = some token
      ∧ (login s email password (.ok response)).2
          = .ok { success := true, message := response.message, data := none } := by
  have ht : truthy (some token) = true := (truthy_iff _).mpr ⟨token, rfl, hne⟩
  simp [login, apiRequest, apiReceive, responseInterceptor, hsuccess, huser, htoken, ht,
    LocalStorage.getItem_setItem]

/-- C11 (witness): the server accepts Ana and hands out the token `abc`. -/
theorem login_success_witness :
    (login
        { auth := { user := none, loading := false, checkingRef := false }
          browser := { localStorage := { items := [] }, log := [] } }
        "ana@loja.br" "segredo"
        (.ok { success := true, message := some "Login realizado"
               data := { user := some { name := "Ana", email := "ana@loja.br",
                                        role := "admin", emailVerified := true }
                         token := some "abc" } })).1.browser.localStorage.getItem "token"
      = some "abc" :=
  (login_success
    { auth := { user := none, loading := false, checkingRef := false }
      browser := { localStorage := { items := [] }, log := [] } }
    "ana@loja.br" "segredo"
    { success := true, message := some "Login realizado"
      data := { user := some { name := "Ana", email := "ana@loja.br",
                               role := "admin", emailVerified := true }
                token := some "abc" } }
    { name := "Ana", email := "ana@loja.br", role := "admin", emailVerified := true }
    "abc" rfl rfl rfl (by decide)).2.1

/-- C12 (counterexample): a registration answered with `success = true`, a user whose
email is not yet verified and a token: `register` leaves the session anonymous and
stores no token. -/
theorem register_unverified_counterexample :
    (register
        { auth := { user := none, loading := false, checkingRef := false }
          browser := { localStorage := { items := [] }, log := [] } }
        "Ana" "ana@loja.br" "segredo" ""
        (.ok { success := true, message := none
               data := { user := some { name := "Ana", email := "ana@loja.br",
                                        role := "cliente", emailVerified := false }
                         token := some "abc" } })).1.auth.user = none
      ∧ (register
        { auth := { user := none, loading := false, checkingRef := false }
          browser := { localStorage := { items := [] }, log := [] } }
        "Ana" "ana@loja.br" "segredo" ""
        (.ok { success := true, message := none
               data := { user := some { name := "Ana", email := "ana@loja.br",
                                        role := "cliente", emailVerified := false }
                         token := some "abc" } })).1.browser.localStorage.getItem "token"
          = none := by
  constructor <;>
    simp [register, apiRequest, apiReceive, apiSend, responseInterceptor,
      LocalStorage.getItem]

/-- C12 (amended): for every fulfilled registration whose body has `success = true`, a
user and a (non-empty) token, `register` returns `success = true` with the body's data;
when the user's email is verified it stores the token and sets the session user, and
when it is not verified it leaves the session user and the storage as they were. -/
theorem register_success (s : App) (name email password phone : String)
    (response : AuthResponse) (user : User) (token : String)
    (hsuccess : response.success = true)
    (huser : response.data.user = some user)
    (htoken : response.data.token = some token)
    (hne : token ≠ "") :
    (register s name email password phone (.ok response)).2
        = .ok { success := true, message := response.message, data := some response.data }
      ∧ (user.emailVerified = true →
          (register s name email password phone (.ok response)).1.auth.user = some user
            ∧ (register s name email password phone
                (.ok response)).1.browser.localStorage.getItem "token" = some token)
      ∧ (user.emailVerified = false →
          (register s name email password phone (.ok response)).1.auth = s.auth
            ∧ (register s name email password phone
                (.ok response)).1.browser.localStorage = s.browser.localStorage) := by
  have ht : truthy (some token) = true := (truthy_iff _).mpr ⟨token, rfl, hne⟩
  refine ⟨?_, ?_, ?_⟩
  · simp [register, apiRequest, apiReceive, responseInterceptor, hsuccess]
  · intro hv
    simp [register, apiRequest, apiReceive, responseInterceptor, hsuccess, huser, htoken,
      ht, hv, LocalStorage.getItem_setItem]
  · intro hv
    simp [register, apiRequest, apiReceive, apiSend, responseInterceptor, hsuccess, huser,
      hv]

/-- C12 (witness): a registration whose user comes back already verified. -/
theorem register_success_witness :
    (register
        { auth := { user := none, loading := false, checkingRef := false }
          browser := { localStorage := { items := [] }, log := [] } }
        "Ana" "ana@loja.br" "segredo" ""
        (.ok { success := true, message := none
               data := { user := some { name := "Ana", email := "ana@loja.br",
                                        role := "cliente", emailVerified := true }
                         token := some "abc" } })).1.browser.localStorage.getItem "token"
      = some "abc" :=
  ((register_success
    { auth := { user := none, loading := false, checkingRef := false }
      browser := { localStorage := { items := [] }, log := [] } }
    "Ana" "ana@loja.br" "segredo" ""
    { success := true, message := none
      data := { user := some { name := "Ana", email := "ana@loja.br",
                               role := "cliente", emailVerified := true }
                token := some "abc" } }
    { name := "Ana", email := "ana@loja.br", role := "cliente", emailVerified := true }
    "abc" rfl rfl rfl (by decide)).2.1 rfl).2

/-- C13: whatever the server answers to the logout call, `logout` ends normally with
the session user `null` and no token in the storage. -/
theorem logout_clears (s : App) (reply : Except AxiosError Unit) :
    (logout s reply).1.auth.user = none
      ∧ (logout s reply).1.browser.localStorage.getItem "token" = none
      ∧ (logout s reply).2 = .ok () := by
  refine ⟨rfl, ?_, rfl⟩
  simp only [logout]
  exact LocalStorage.getItem_removeItem _ _

/-- C14: `PrivateRoute` shows the loading view while `loading` is true; with `loading`
false it redirects to `/login` when there is no user; and it renders its children
exactly when `loading` is false and a user exists. -/
theorem privateRoute_gating (auth : AuthState) :
    (auth.loading = true → PrivateRoute auth = .loading)
      ∧ (auth.loading = false → auth.user = none → PrivateRoute auth = .navigate "/login")
      ∧ (PrivateRoute auth = .children ↔ auth.loading = false ∧ auth.user ≠ none) := by
  unfold PrivateRoute
  cases hl : auth.loading <;> cases hu : auth.user <;> simp

/-- C15: `PublicRoute` shows the loading view while `loading` is true; with `loading`
false it redirects to `/dashboard` when a user exists; and it renders its children
exactly when `loading` is false and there is no user. -/
theorem publicRoute_gating (auth : AuthState) :
    (auth.loading = true → PublicRoute auth = .loading)
      ∧ (auth.loading = false → auth.user ≠ none →
          PublicRoute auth = .navigate "/dashboard")
      ∧ (PublicRoute auth = .children ↔ auth.loading = false ∧ auth.user = none) := by
  unfold PublicRoute
  cases hl : auth.loading <;> cases hu : auth.user <;> simp

/-- C16: with `loading` false exactly one of the two wrappers renders its children and
the other one redirects; with `loading` true both show the loading view, so neither
renders children nor redirects. -/
theorem routes_mutually_exclusive (auth : AuthState) :
    (auth.loading = false →
        ((PrivateRoute auth = .children ∧ PublicRoute auth = .navigate "/dashboard")
          ∨ (PublicRoute auth = .children ∧ PrivateRoute auth = .navigate "/login"))
        ∧ ¬ (PrivateRoute auth = .children ∧ PublicRoute auth = .children))
      ∧ (auth.loading = true →
          PrivateRoute auth = .loading ∧ PublicRoute auth = .loading
            ∧ PrivateRoute auth ≠ .children ∧ PublicRoute auth ≠ .children
            ∧ (∀ path, PrivateRoute auth ≠ .navigate path)
            ∧ (∀ path, PublicRoute auth ≠ .navigate path)) := by
  unfold PrivateRoute PublicRoute
  cases hl : auth.loading <;> cases hu : auth.user <;> simp

/-- C19: evaluation of a page's request on a signed-in session whose answer is 401
(here `GET /sales`): the interceptor removes the token, but the session user of
`AuthProvider` is still the signed-in user. -/
theorem serviceCall_unauthorized_keeps_user :
    (@serviceCall Unit
        { auth := { user := some { name := "Ana", email := "ana@loja.br", role := "admin",
                                   emailVerified := true },
                    loading := false, checkingRef := false }
          browser := { localStorage := { items := [("token", "abc")] }, log := [] } }
        "get" "/sales" .empty
        (.error { response := some { status := 401, message := none } })).1.auth.user
        = some { name := "Ana", email := "ana@loja.br", role := "admin",
                 emailVerified := true }
      ∧ (@serviceCall Unit
        { auth := { user := some { name := "Ana", email := "ana@loja.br", role := "admin",
                                   emailVerified := true },
                    loading := false, checkingRef := false }
          browser := { localStorage := { items := [("token", "abc")] }, log := [] } }
        "get" "/sales" .empty
        (.error { response := some { status := 401, message := none }
                  })).1.browser.localStorage.getItem "token" = none := by
  constructor
  · rfl
  · simp [serviceCall, apiRequest, apiReceive, apiSend, responseErrorInterceptor,
      AxiosError.status, LocalStorage.getItem, LocalStorage.removeItem]

/-- C17 (counterexample): the total `1180591620717411303424` (which is `2^70`, above
`10^21`) over the quantity `1`.  `toFixed(2)` hands such a value to `Number::toString`,
whose result for `2^70` is `1.1805916207174113e+21`: the field does not receive the
two-decimal rendering `1180591620717411303424.00`. -/
theorem calculator_large_quotient_counterexample :
    (onTotalCostChange Rounding.exact (fun _ => "1.1805916207174113e+21")
        { formData := { name := "", description := "", price := "", costPrice := "",
                        stock := "", category := "", productionBatch := "" }
          calculatorData := { totalCost := "", quantity := "1" } }
        "1180591620717411303424").formData.costPrice
        = "1.1805916207174113e+21"
      ∧ toFixed2Digits 118059162071741130342400 = "1180591620717411303424.00"
      ∧ (onTotalCostChange Rounding.exact (fun _ => "1.1805916207174113e+21")
        { formData := { name := "", description := "", price := "", costPrice := "",
                        stock := "", category := "", productionBatch := "" }
          calculatorData := { totalCost := "", quantity := "1" } }
        "1180591620717411303424").formData.costPrice
        ≠ toFixed2Digits 118059162071741130342400 := by
  refine ⟨by decide!, by decide!, by decide!⟩

/-- C17 (amended): when the total cost and the quantity entered in the calculator are
numbers `total > 0` and `qty > 0` whose quotient is below `10^21`, either `onChange`
handler sets the cost-price field to the quotient rounded to the nearest hundredth and
rendered with exactly two decimals; and for the total `46,95` and the quantity `40`
the field becomes `1.17`, for every rounding accurate to one part in `10^9`. -/
theorem calculator_costPrice (R : Rounding) (numberToString : ℚ → String)
    (s : ProductsState) (totalInput qtyInput : String) (total qty : ℚ)
    (htotal : (parseFloat (sanitizeTotalCost totalInput)).round R = .fin total)
    (hqty : (parseFloat qtyInput).round R = .fin qty)
    (ht : 0 < total) (hq : 0 < qty) (hlt : R.fl (total / qty) < 10 ^ 21) :
    (onTotalCostChange R numberToString
        { s with calculatorData := { s.calculatorData with quantity := qtyInput } }
        totalInput).formData.costPrice
        = toFixed2Digits ⌊R.fl (total / qty) * 100 + 1 / 2⌋.toNat
      ∧ (onQuantityChange R numberToString
        { s with calculatorData :=
            { s.calculatorData with totalCost := sanitizeTotalCost totalInput } }
        qtyInput).formData.costPrice
        = toFixed2Digits ⌊R.fl (total / qty) * 100 + 1 / 2⌋.toNat
      ∧ |((⌊R.fl (total / qty) * 100 + 1 / 2⌋.toNat : ℕ) : ℚ) / 100 - R.fl (total / qty)|
          ≤ 1 / 200
      ∧ ((∀ x : ℚ, 1 ≤ x → x ≤ 100 → |R.fl x - x| ≤ x / 10 ^ 9) →
          (onTotalCostChange R numberToString
            { s with calculatorData := { s.calculatorData with quantity := "40" } }
            "46,95").formData.costPrice = "1.17") := by
  have hx : 0 ≤ R.fl (total / qty) := R.fl_nonneg (le_of_lt (div_pos ht hq))
  refine ⟨?_, ?_, nearest_hundredth _ hx, ?_⟩
  · simp only [onTotalCostChange, htotal, hqty, JsNum.orZero_fin_pos ht,
      JsNum.orZero_fin_pos hq, JsNum.gtZero, decide_eq_true ht, decide_eq_true hq,
      Bool.and_self, if_true]
    exact calculator_quotient R numberToString total qty ht hq hlt
  · simp only [onQuantityChange, htotal, hqty, JsNum.orZero_fin_pos ht,
      JsNum.orZero_fin_pos hq, JsNum.gtZero, decide_eq_true ht, decide_eq_true hq,
      Bool.and_self, if_true]
    exact calculator_quotient R numberToString total qty ht hq hlt
  · intro hacc
    have hsan : sanitizeTotalCost "46,95" = "46.95" := by decide
    have hpt : parseFloat "46.95" = .fin (939 / 20) := by decide!
    have hpq : parseFloat "40" = .fin 40 := by decide!
    have ha := abs_le.mp (hacc (939 / 20) (by norm_num) (by norm_num))
    have hb := abs_le.mp (hacc 40 (by norm_num) (by norm_num))
    have ha0 : (0 : ℚ) < R.fl (939 / 20) := by norm_num at ha; linarith [ha.1]
    have hb0 : (0 : ℚ) < R.fl 40 := by norm_num at hb; linarith [hb.1]
    have hclo : (11737 : ℚ) / 10000 ≤ R.fl (939 / 20) / R.fl 40 := by
      rw [le_div_iff₀ hb0]
      norm_num at ha hb
      linarith [ha.1, hb.2]
    have hchi : R.fl (939 / 20) / R.fl 40 ≤ (11738 : ℚ) / 10000 := by
      rw [div_le_iff₀ hb0]
      norm_num at ha hb
      linarith [ha.2, hb.1]
    have hc := abs_le.mp (hacc (R.fl (939 / 20) / R.fl 40) (by linarith) (by linarith))
    have hxlo : (1173 : ℚ) / 1000 ≤ R.fl (R.fl (939 / 20) / R.fl 40) := by
      have h1 : R.fl (939 / 20) / R.fl 40 / 10 ^ 9 ≤ 1 / 10000 := by
        rw [div_le_iff₀ (by positivity)]
        norm_num
        linarith
      linarith [hc.1]
    have hxhi : R.fl (R.fl (939 / 20) / R.fl 40) ≤ (1174 : ℚ) / 1000 := by
      have h1 : R.fl (939 / 20) / R.fl 40 / 10 ^ 9 ≤ 1 / 10000 := by
        rw [div_le_iff₀ (by positivity)]
        norm_num
        linarith
      linarith [hc.2]
    have hfloor : ⌊R.fl (R.fl (939 / 20) / R.fl 40) * 100 + 1 / 2⌋ = 117 := by
      rw [Int.floor_eq_iff]
      constructor
      · push_cast
        linarith
      · push_cast
        linarith
    have hsmall : R.fl (R.fl (939 / 20) / R.fl 40) < 10 ^ 21 := by
      have : (1174 : ℚ) / 1000 < 10 ^ 21 := by norm_num
      linarith
    simp only [onTotalCostChange, hsan, hpt, hpq, JsNum.round, JsNum.orZero_fin_pos ha0,
      JsNum.orZero_fin_pos hb0, JsNum.gtZero, decide_eq_true ha0, decide_eq_true hb0,
      Bool.and_self, if_true]
    rw [calculator_quotient R numberToString _ _ ha0 hb0 hsmall, hfloor]
    decide

/-- C17 (witness): the exact rounding, the total `46,95` and the quantity `40`. -/
theorem calculator_costPrice_witness :
    (onTotalCostChange Rounding.exact (fun _ => "")
        { formData := { name := "", description := "", price := "", costPrice := "",
                        stock := "", category := "", productionBatch := "" }
          calculatorData := { totalCost := "", quantity := "40" } }
        "46,95").formData.costPrice
      = toFixed2Digits ⌊Rounding.exact.fl ((939 / 20 : ℚ) / 40) * 100 + 1 / 2⌋.toNat :=
  (calculator_costPrice Rounding.exact (fun _ => "")
    { formData := { name := "", description := "", price := "", costPrice := "",
                    stock := "", category := "", productionBatch := "" }
      calculatorData := { totalCost := "", quantity := "" } }
    "46,95" "40" (939 / 20) 40 (by decide!) (by decide!) (by norm_num) (by norm_num)
    (by norm_num [Rounding.exact])).1

/-- C18: for a sale item whose product is found in the list with price `p`: when the
quantity parses to an integer `q` the subtotal is the product `p * q` of JavaScript
(the exact product when `q` and `p * q` are representable; `31.5` for `p = 10.5` and
the quantity `3`), and when the quantity does not parse to a number the subtotal is
`0`; the text shown is `formatCurrency` of that number. -/
theorem itemSubtotal_value (formatCurrency : JsNum → String) (R : Rounding)
    (products : List Product) (item : SaleItem) (selectedProduct : Product)
    (hsel : (products.find? fun p => p._id = item.product) = some selectedProduct) :
    (∀ q : ℤ, parseInt item.quantity = .fin q →
        itemSubtotal R products item
            = some (.fin (R.fl (selectedProduct.price * R.fl q)))
          ∧ (R.fl q = q → R.fl (selectedProduct.price * q) = selectedProduct.price * q →
              itemSubtotal R products item = some (.fin (selectedProduct.price * q))))
      ∧ (parseInt item.quantity = .nan → itemSubtotal R products item = some (.fin 0))
      ∧ itemSubtotalText formatCurrency R products item
          = (itemSubtotal R products item).map formatCurrency
      ∧ (R.fl 3 = 3 → R.fl (63 / 2) = 63 / 2 →
          itemSubtotal R [{ _id := "p1", name := "Cone", price := 21 / 2, stock := 8 }]
              { product := "p1", quantity := "3", materialsUsed := [] }
            = some (.fin (63 / 2))) := by
  refine ⟨?_, ?_, rfl, ?_⟩
  · intro q hq
    have hval : itemSubtotal R products item
        = some (.fin (R.fl (selectedProduct.price * R.fl q))) := by
      unfold itemSubtotal
      rw [hsel, hq]
      by_cases h0 : R.fl (q : ℚ) = 0
      · simp [JsNum.round, JsNum.orZero, JsNum.mul, h0]
      · simp [JsNum.round, JsNum.orZero, JsNum.mul, h0]
    refine ⟨hval, ?_⟩
    intro h1 h2
    rw [hval, h1, h2]
  · intro hnan
    unfold itemSubtotal
    rw [hsel, hnan]
    simp [JsNum.round, JsNum.orZero, JsNum.mul, R.fl_zero]
  · intro h3 h63
    have hp : parseInt "3" = .fin 3 := by decide!
    have hprod : (21 / 2 : ℚ) * 3 = 63 / 2 := by norm_num
    simp [itemSubtotal, hp, JsNum.round, JsNum.orZero, JsNum.mul, h3, hprod, h63]

/-- C18 (witness): a cone at 10.50 sold three times, with the exact rounding. -/
theorem itemSubtotal_value_witness :
    itemSubtotal Rounding.exact
        [{ _id := "p1", name := "Cone", price := 21 / 2, stock := 8 }]
        { product := "p1", quantity := "3", materialsUsed := [] }
      = some (.fin (63 / 2)) :=
  (itemSubtotal_value (fun _ => "") Rounding.exact
    [{ _id := "p1", name := "Cone", price := 21 / 2, stock := 8 }]
    { product := "p1", quantity := "3", materialsUsed := [] }
    { _id := "p1", name := "Cone", price := 21 / 2, stock := 8 }
    (by simp)).2.2.2 rfl rfl

/-- C20 (counterexample): a deletion on the materials page refused by the server with a
message of its own: the notification shown is the fixed text of the handler, and the
server's message appears nowhere. -/
theorem handleDelete_message_counterexample :
    (Materials.handleDelete { localStorage := { items := [] }, log := [] } "m1" true
        (.error { response := some { status := 400
                                     message := some "Material possui compras" } })).log
        = [Effect.request (apiConfig "delete" "/materials/m1" .empty),
           Effect.notification "Erro ao excluir material" "error"]
      ∧ Effect.notification "Material possui compras" "error"
          ∉ (Materials.handleDelete { localStorage := { items := [] }, log := [] } "m1" true
              (.error { response := some { status := 400
                                           message := some "Material possui compras" } })).log := by
  have hlog : (Materials.handleDelete { localStorage := { items := [] }, log := [] } "m1"
      true (.error { response := some { status := 400
                                        message := some "Material possui compras" } })).log
      = [Effect.request (apiConfig "delete" "/materials/m1" .empty),
         Effect.notification "Erro ao excluir material" "error"] := by
    simp [Materials.handleDelete, apiRequest, apiReceive, apiSend, responseErrorInterceptor,
      requestInterceptor, showNotification, LocalStorage.getItem, truthy, AxiosError.status]
  refine ⟨hlog, ?_⟩
  rw [hlog]
  decide

/-- C20 (amended): in `Sales.handleSubmit` every failed request ends in a
notification that is exactly the server's message when the error response carries a
non-empty one, and the fallback of that call otherwise: `Erro ao criar cliente
temporário` when the creation of the temporary client fails, `Erro ao registrar venda`
when `saleService.create` fails, be the client a selected one or the temporary client
just created.  The same holds of `Materials.handleSubmit` with the fallback `Erro ao
salvar material`.  The delete handlers of the materials and products pages show their
own fixed text whatever the error carries. -/
theorem error_message_surfacing (R : Rounding) (s : SalesState) (b : Browser)
    (quickReply : Except AxiosError Client) (paymentMethodField : Option String)
    (createReply : Except AxiosError Unit) (m : MaterialsState)
    (id : String) (error : AxiosError)
    (hitems : payloadItems R s.saleItems ≠ []) :
    (∀ fallback message, (error.response.bind fun r => r.message) = some message →
        message ≠ "" → error.messageOr fallback = message)
      ∧ (∀ fallback, (error.response.bind fun r => r.message) = none
            ∨ (error.response.bind fun r => r.message) = some "" →
          error.messageOr fallback = fallback)
      ∧ ((s.isQuickSale && !truthyStr s.selectedClientId) = true →
          (handleSubmit R s b (.error error) paymentMethodField createReply).2.log
            = b.log ++ [Effect.request (requestInterceptor b.localStorage
                          (apiConfig "post" "/clients/quick-sale" .empty)),
                        Effect.notification
                          (error.messageOr "Erro ao criar cliente temporário") "error"])
      ∧ ((s.isQuickSale && !truthyStr s.selectedClientId) = true →
          ∀ newClient : Client, truthyStr newClient._id = true →
          ∃ payload,
            (handleSubmit R s b (.ok newClient) paymentMethodField (.error error)).2.log
              = b.log ++ [Effect.request (requestInterceptor b.localStorage
                            (apiConfig "post" "/clients/quick-sale" .empty)),
                          Effect.request (requestInterceptor b.localStorage
                            (apiConfig "post" "/sales" (.sale payload))),
                          Effect.notification (error.messageOr "Erro ao registrar venda")
                            "error"])
      ∧ ((s.isQuickSale && !truthyStr s.selectedClientId) = false →
          truthyStr s.selectedClientId = true →
          ∃ payload,
            (handleSubmit R s b quickReply paymentMethodField (.error error)).2.log
              = b.log ++ [Effect.request (requestInterceptor b.localStorage
                            (apiConfig "post" "/sales" (.sale payload))),
                          Effect.notification (error.messageOr "Erro ao registrar venda")
                            "error"])
      ∧ (∃ method url payload,
          (Materials.handleSubmit R m b (.error error)).2.log
            = b.log ++ [Effect.request (requestInterceptor b.localStorage
                          (apiConfig method url (.material payload))),
                        Effect.notification (error.messageOr "Erro ao salvar material")
                          "error"])
      ∧ (Materials.handleDelete b id true (.error error)).log
          = b.log ++ [Effect.request (requestInterceptor b.localStorage
                        (apiConfig "delete" ("/materials/" ++ id) .empty)),
                      Effect.notification "Erro ao excluir material" "error"]
      ∧ (Products.handleDelete b id true (.error error)).log
          = b.log ++ [Effect.request (requestInterceptor b.localStorage
                        (apiConfig "delete" ("/products/" ++ id) .empty)),
                      Effect.notification "Erro ao excluir produto" "error"] := by
  have hlen : ¬ (payloadItems R s.saleItems).length = 0 := by
    simpa [List.length_eq_zero] using hitems
  have hwith : ∀ (t : SalesState) (c : Browser) (client : String),
      t.saleItems = s.saleItems → truthyStr client = true →
      ∃ payload,
        (handleSubmitWithClient R t c client paymentMethodField (.error error)).2.log
          = c.log ++ [Effect.request (requestInterceptor c.localStorage
                        (apiConfig "post" "/sales" (.sale payload))),
                      Effect.notification (error.messageOr "Erro ao registrar venda")
                        "error"] := by
    intro t c client ht hc
    refine ⟨{ client := client
              items := payloadItems R s.saleItems
              paymentMethod :=
                if truthy paymentMethodField then paymentMethodField.getD "" else "dinheiro"
              paymentStatus :=
                if (if truthy paymentMethodField then paymentMethodField.getD ""
                    else "dinheiro") = "pendente" then "pendente" else "pago" }, ?_⟩
    simp only [handleSubmitWithClient, hc, ht, Bool.not_true, Bool.false_eq_true, if_false,
      if_neg hlen, apiRequest, apiReceive, apiSend, responseErrorInterceptor,
      showNotification, List.append_assoc, List.singleton_append]
  refine ⟨?_, ?_, ?_, ?_, ?_, ?_, ?_, ?_⟩
  · intro fallback message hm hne
    simp [AxiosError.messageOr, hm, truthyStr, hne]
  · rintro fallback (hm | hm) <;> simp [AxiosError.messageOr, hm, truthyStr]
  · intro hq
    simp only [handleSubmit, hq, if_true, apiRequest, apiReceive, apiSend,
      responseErrorInterceptor, showNotification, List.append_assoc, List.singleton_append]
  · intro hq newClient hid
    obtain ⟨payload, hp⟩ := hwith { s with clients := newClient :: s.clients }
      (apiRequest "post" "/clients/quick-sale" .empty (.ok newClient) b).1 newClient._id
      rfl hid
    refine ⟨payload, ?_⟩
    have hok : (apiRequest "post" "/clients/quick-sale" .empty
        (Except.ok newClient : Except AxiosError Client) b).2 = .ok newClient := rfl
    simp only [handleSubmit, hq, if_true, hok]
    rw [hp]
    simp [apiRequest, apiReceive, apiSend, responseInterceptor]
  · intro hq hclient
    obtain ⟨payload, hp⟩ := hwith s b s.selectedClientId rfl hclient
    refine ⟨payload, ?_⟩
    simp only [handleSubmit, hq, Bool.false_eq_true, if_false]
    exact hp
  · cases hedit : m.editingMaterial with
    | none =>
      refine ⟨"post", "/materials", Materials.submitData R m, ?_⟩
      simp [Materials.handleSubmit, hedit, apiRequest, apiReceive, apiSend,
        responseErrorInterceptor, showNotification]
    | some editing =>
      refine ⟨"put", "/materials/" ++ editing, Materials.submitData R m, ?_⟩
      simp [Materials.handleSubmit, hedit, apiRequest, apiReceive, apiSend,
        responseErrorInterceptor, showNotification]
  · simp [Materials.handleDelete, apiRequest, apiReceive, apiSend, responseErrorInterceptor,
      showNotification]
  · simp [Products.handleDelete, apiRequest, apiReceive, apiSend, responseErrorInterceptor,
      showNotification]

/-- C20 (witness): a direct sale of one cone, refused by the server with the message
`Estoque insuficiente` after the temporary client was created. -/
theorem error_message_surfacing_witness :
    ∃ payload,
      (handleSubmit Rounding.exact
          { clients := []
            saleItems := [{ product := "p1", quantity := "1", materialsUsed := [] }]
            selectedClientId := ""
            isQuickSale := true
            isModalOpen := true }
          { localStorage := { items := [] }, log := [] }
          (.ok { _id := "c9", name := "Venda Direta", phone := "" }) none
          (.error { response := some { status := 400
                                       message := some "Estoque insuficiente" } })).2.log
        = [] ++ [Effect.request (requestInterceptor { items := [] }
                    (apiConfig "post" "/clients/quick-sale" .empty)),
                 Effect.request (requestInterceptor { items := [] }
                    (apiConfig "post" "/sales" (.sale payload))),
                 Effect.notification
                    (AxiosError.messageOr
                      { response := some { status := 400
                                           message := some "Estoque insuficiente" } }
                      "Erro ao registrar venda") "error"] :=
  (error_message_surfacing Rounding.exact
    { clients := []
      saleItems := [{ product := "p1", quantity := "1", materialsUsed := [] }]
      selectedClientId := ""
      isQuickSale := true
      isModalOpen := true }
    { localStorage := { items := [] }, log := [] }
    (.ok { _id := "c9", name := "Venda Direta", phone := "" }) none (.ok ())
    { formData := Materials.emptyForm, editingMaterial := none, isModalOpen := true }
    "m1"
    { response := some { status := 400, message := some "Estoque insuficiente" } }
    (by decide!)).2.2.2.1 (by decide) { _id := "c9", name := "Venda Direta", phone := "" }
      (by decide)

/-- C25: every run of `checkAuth` that passes the guard ends with `loading = false` and
the guard flag released, whatever the server answers (and also when no token is
stored); so afterwards neither route wrapper shows the loading view, and the guard
does not stop a later check.  The same holds for the continuation from any state. -/
theorem checkAuth_releases_gate (s : App) (reply : Except AxiosError MeResponse)
    (hfree : s.auth.checkingRef = false) :
    (checkAuth s reply).auth.loading = false
      ∧ (checkAuth s reply).auth.checkingRef = false
      ∧ PrivateRoute (checkAuth s reply).auth ≠ .loading
      ∧ PublicRoute (checkAuth s reply).auth ≠ .loading
      ∧ (∀ t : App, (checkAuthResume t reply).auth.loading = false
          ∧ (checkAuthResume t reply).auth.checkingRef = false) := by
  have hresume : ∀ t : App, (checkAuthResume t reply).auth.loading = false
      ∧ (checkAuthResume t reply).auth.checkingRef = false := by
    intro t
    unfold checkAuthResume
    exact ⟨rfl, rfl⟩
  have hrun : (checkAuth s reply).auth.loading = false
      ∧ (checkAuth s reply).auth.checkingRef = false := by
    by_cases htok : truthy (s.browser.localStorage.getItem "token") = true
    · simp only [checkAuth, checkAuthStart_sends s hfree htok]
      exact hresume _
    · simp [checkAuth, checkAuthStart, hfree, htok]
  have hroutes : ∀ a : AuthState, a.loading = false →
      PrivateRoute a ≠ .loading ∧ PublicRoute a ≠ .loading := by
    intro a ha
    unfold PrivateRoute PublicRoute
    cases hu : a.user <;> simp [ha]
  exact ⟨hrun.1, hrun.2, (hroutes _ hrun.1).1, (hroutes _ hrun.1).2, hresume⟩

/-- C25 (witness): a stored token and a server that answers with status 500. -/
theorem checkAuth_releases_gate_witness :
    (checkAuth
        { auth := { user := none, loading := true, checkingRef := false }
          browser := { localStorage := { items := [("token", "abc")] }, log := [] } }
        (.error { response := some { status := 500, message := none } })).auth.loading
      = false :=
  (checkAuth_releases_gate
    { auth := { user := none, loading := true, checkingRef := false }
      browser := { localStorage := { items := [("token", "abc")] }, log := [] } }
    (.error { response := some { status := 500, message := none } }) rfl).1

/-- C29: when the parsed total cost or the parsed quantity is not `> 0`, either
`onChange` handler of the calculator leaves the whole product form as it was; the
form changes, and the quotient is formed, only with a divisor that is `> 0`. -/
theorem calculator_frame (R : Rounding) (numberToString : ℚ → String) (s : ProductsState)
    (input : String) :
    ((((parseFloat s.calculatorData.quantity).round R).orZero.gtZero
          && ((parseFloat (sanitizeTotalCost input)).round R).orZero.gtZero) = false →
        (onTotalCostChange R numberToString s input).formData = s.formData)
      ∧ ((((parseFloat input).round R).orZero.gtZero
          && ((parseFloat s.calculatorData.totalCost).round R).orZero.gtZero) = false →
        (onQuantityChange R numberToString s input).formData = s.formData)
      ∧ ((onTotalCostChange R numberToString s input).formData ≠ s.formData →
          ((parseFloat s.calculatorData.quantity).round R).orZero.gtZero = true
            ∧ ((parseFloat s.calculatorData.quantity).round R).orZero ≠ .fin 0)
      ∧ ((onQuantityChange R numberToString s input).formData ≠ s.formData →
          ((parseFloat input).round R).orZero.gtZero = true
            ∧ ((parseFloat input).round R).orZero ≠ .fin 0) := by
  have hnz : ∀ x : JsNum, x.gtZero = true → x ≠ .fin 0 := by
    intro x hx h0
    rw [h0] at hx
    simp [JsNum.gtZero] at hx
  refine ⟨?_, ?_, ?_, ?_⟩
  · intro h
    simp [onTotalCostChange, h]
  · intro h
    simp [onQuantityChange, h]
  · intro hchg
    by_cases h : (((parseFloat s.calculatorData.quantity).round R).orZero.gtZero
        && ((parseFloat (sanitizeTotalCost input)).round R).orZero.gtZero) = true
    · have hq := (Bool.and_eq_true_iff.mp h).1
      exact ⟨hq, hnz _ hq⟩
    · exact absurd (by simp [onTotalCostChange, h]) hchg
  · intro hchg
    by_cases h : (((parseFloat input).round R).orZero.gtZero
        && ((parseFloat s.calculatorData.totalCost).round R).orZero.gtZero) = true
    · have hq := (Bool.and_eq_true_iff.mp h).1
      exact ⟨hq, hnz _ hq⟩
    · exact absurd (by simp [onQuantityChange, h]) hchg

/-- C29 (witness): the quantity is emptied while a total of `46.95` is entered. -/
theorem calculator_frame_witness :
    (onQuantityChange Rounding.exact (fun _ => "")
        { formData := { name := "Cone", description := "", price := "5", costPrice := "1.17",
                        stock := "3", category := "", productionBatch := "" }
          calculatorData := { totalCost := "46.95", quantity := "40" } }
        "").formData
      = { name := "Cone", description := "", price := "5", costPrice := "1.17",
          stock := "3", category := "", productionBatch := "" } :=
  (calculator_frame Rounding.exact (fun _ => "")
    { formData := { name := "Cone", description := "", price := "5", costPrice := "1.17",
                    stock := "3", category := "", productionBatch := "" }
      calculatorData := { totalCost := "46.95", quantity := "40" } }
    "").2.1 (by decide!)


/-- Without a comma in the text, `replace(',', '.')` changes nothing. -/
theorem replaceFirstComma_of_not_mem (l : List Char) (h : ',' ∉ l) :
    replaceFirstComma l = l := by
  induction l with
  | nil => rfl
  | cons c cs ih =>
    have hc : c ≠ ',' := fun hc => h (by simp [hc])
    have hcs : ',' ∉ cs := fun hm => h (List.mem_cons_of_mem _ hm)
    simp [replaceFirstComma, hc, ih hcs]

/-- A text made of digits and at most one point is left as it is by the
normalisation. -/
theorem sanitizeTotalCost_fixed (l : List Char)
    (hall : ∀ c ∈ l, c.isDigit = true ∨ c = '.')
    (hdots : (l.filter fun c => c = '.').length ≤ 1) :
    sanitizeTotalCost (String.mk l) = String.mk l := by
  have hcomma : ',' ∉ l := by
    intro hm
    rcases hall _ hm with h | h
    · exact absurd h (by decide)
    · exact absurd h (by decide)
  have hfilter : (l.filter fun c => c.isDigit || c = '.') = l := by
    rw [List.filter_eq_self]
    intro c hc
    rcases hall c hc with h | h <;> simp [h]
  have htoList : (String.mk l).toList = l := rfl
  unfold sanitizeTotalCost
  simp only [htoList, replaceFirstComma_of_not_mem l hcomma, hfilter]
  rw [if_neg (not_lt.mpr hdots)]

/-- What the normalisation returns is made of digits and at most one point. -/
theorem sanitizeTotalCost_chars (input : String) :
    (∀ c ∈ (sanitizeTotalCost input).toList, c.isDigit = true ∨ c = '.')
      ∧ ((sanitizeTotalCost input).toList.filter fun c => c = '.').length ≤ 1 := by
  have hkept : ∀ c ∈ (replaceFirstComma input.toList).filter
      (fun c => c.isDigit || c = '.'), c.isDigit = true ∨ c = '.' := by
    intro c hc
    have h := (List.mem_filter.mp hc).2
    simpa using h
  unfold sanitizeTotalCost
  by_cases hmany : ((List.filter (fun c => c.isDigit || c = '.')
      (replaceFirstComma input.toList)).filter fun c => c = '.').length > 1
  · simp only [if_pos hmany]
    have htoList : ∀ l : List Char, (String.mk l).toList = l := fun _ => rfl
    rw [htoList]
    constructor
    · intro c hc
      rcases List.mem_append.mp hc with h | h
      · exact hkept c ((List.takeWhile_prefix _).subset h)
      · rcases List.mem_cons.mp h with h | h
        · exact Or.inr h
        · exact hkept c ((List.dropWhile_suffix _).subset (List.mem_filter.mp h).1)
    · have hhead : (List.takeWhile (fun c => decide (c ≠ '.'))
          (List.filter (fun c => c.isDigit || c = '.')
            (replaceFirstComma input.toList))).filter (fun c => c = '.') = [] := by
        rw [List.filter_eq_nil_iff]
        intro c hc
        have := List.mem_takeWhile_imp hc
        simpa using this
      have htail : ((List.dropWhile (fun c => decide (c ≠ '.'))
          (List.filter (fun c => c.isDigit || c = '.')
            (replaceFirstComma input.toList))).filter (fun c => decide (c ≠ '.'))).filter
            (fun c => c = '.') = [] := by
        rw [List.filter_eq_nil_iff]
        intro c hc
        have := (List.mem_filter.mp hc).2
        simpa using this
      rw [List.filter_append, List.filter_cons, hhead, htail]
      simp
  · simp only [if_neg hmany]
    exact ⟨hkept, not_lt.mp hmany⟩

/-- Before the first point of the text with its first comma replaced stands what stood
before the first point or comma of the text. -/
theorem replaceFirstComma_takeWhile (l : List Char) :
    (replaceFirstComma l).takeWhile (fun c => c ≠ '.')
      = l.takeWhile (fun c => c ≠ '.' && c ≠ ',') := by
  induction l with
  | nil => rfl
  | cons c cs ih =>
    by_cases hc : c = ','
    · subst hc; simp [replaceFirstComma]
    · by_cases hp : c = '.'
      · subst hp; simp [replaceFirstComma]
      · simpa [replaceFirstComma, hc, hp, List.takeWhile_cons] using ih

/-- Replacing the first comma leaves the digits as they are. -/
theorem replaceFirstComma_digits (l : List Char) :
    (replaceFirstComma l).filter Char.isDigit = l.filter Char.isDigit := by
  induction l with
  | nil => rfl
  | cons c cs ih =>
    by_cases hc : c = ','
    · subst hc; simp [replaceFirstComma, List.filter_cons]
    · simp [replaceFirstComma, hc, List.filter_cons, ih]

/-- From the first point on, the text with its first comma replaced has the digits that
the text has from its first point or comma on. -/
theorem replaceFirstComma_dropWhile (l : List Char) :
    ((replaceFirstComma l).dropWhile (fun c => c ≠ '.')).filter Char.isDigit
      = (l.dropWhile (fun c => c ≠ '.' && c ≠ ',')).filter Char.isDigit := by
  induction l with
  | nil => rfl
  | cons c cs ih =>
    by_cases hc : c = ','
    · subst hc; simp [replaceFirstComma, List.filter_cons]
    · by_cases hp : c = '.'
      · subst hp; simp [replaceFirstComma, List.filter_cons, replaceFirstComma_digits]
      · simpa [replaceFirstComma, hc, hp, List.dropWhile_cons] using ih

/-- After the replacement there is a point exactly when the text held a point or a
comma. -/
theorem replaceFirstComma_mem_point (l : List Char) :
    '.' ∈ replaceFirstComma l ↔ ('.' ∈ l ∨ ',' ∈ l) := by
  induction l with
  | nil => simp [replaceFirstComma]
  | cons c cs ih =>
    by_cases hc : c = ','
    · subst hc; simp [replaceFirstComma]
    · by_cases hp : c = '.'
      · subst hp; simp [replaceFirstComma]
      · have h1 : ¬ '.' = c := fun h => hp h.symm
        have h2 : ¬ ',' = c := fun h => hc h.symm
        simp [replaceFirstComma, hc, h1, h2, ih]

/-- Before its first point the filtered text holds the digits that the text holds
before its first point. -/
theorem kept_takeWhile (t : List Char) :
    (t.filter fun c => c.isDigit || c = '.').takeWhile (fun c => c ≠ '.')
      = (t.takeWhile fun c => c ≠ '.').filter Char.isDigit := by
  induction t with
  | nil => rfl
  | cons c cs ih =>
    by_cases hp : c = '.'
    · subst hp; simp [List.filter_cons]
    · by_cases hd : c.isDigit = true
      · simpa [List.filter_cons, List.takeWhile_cons, hp, hd] using ih
      · simpa [List.filter_cons, List.takeWhile_cons, hp, hd] using ih

/-- Removing the points from the filtered text leaves the digits of the text. -/
theorem kept_without_points (t : List Char) :
    ((t.filter fun c => c.isDigit || c = '.').filter fun c => c ≠ '.')
      = t.filter Char.isDigit := by
  rw [List.filter_filter]
  apply List.filter_congr
  intro c _
  by_cases hp : c = '.'
  · subst hp; decide
  · simp [hp]

/-- From its first point on, the filtered text without points holds the digits that the
text holds from its first point on. -/
theorem kept_dropWhile (t : List Char) :
    (((t.filter fun c => c.isDigit || c = '.').dropWhile fun c => c ≠ '.').filter
        fun c => c ≠ '.')
      = (t.dropWhile fun c => c ≠ '.').filter Char.isDigit := by
  induction t with
  | nil => rfl
  | cons c cs ih =>
    by_cases hp : c = '.'
    · subst hp
      have := kept_without_points cs
      simpa [List.filter_cons] using this
    · by_cases hd : c.isDigit = true
      · simpa [List.filter_cons, List.dropWhile_cons, hp, hd] using ih
      · simpa [List.filter_cons, List.dropWhile_cons, hp, hd] using ih

/-- A filtered text with at most one point is the digits before the point, the point if
there is one, and the digits after it. -/
theorem kept_of_one_point (t : List Char)
    (h : ((t.filter fun c => c.isDigit || c = '.').filter fun c => c = '.').length ≤ 1) :
    (t.filter fun c => c.isDigit || c = '.')
      = (t.takeWhile fun c => c ≠ '.').filter Char.isDigit
        ++ (if '.' ∈ t then '.' :: (t.dropWhile fun c => c ≠ '.').filter Char.isDigit
            else []) := by
  induction t with
  | nil => rfl
  | cons c cs ih =>
    by_cases hp : c = '.'
    · subst hp
      have hnone : ((cs.filter fun c => c.isDigit || c = '.').filter fun c => c = '.') = [] := by
        have : ((cs.filter fun c => c.isDigit || c = '.').filter fun c => c = '.').length = 0 := by
          simp [List.filter_cons] at h
          simpa using h
        exact List.length_eq_zero.mp this
      have hrest : (cs.filter fun c => c.isDigit || c = '.') = cs.filter Char.isDigit := by
        rw [← kept_without_points cs]
        symm
        rw [List.filter_eq_self]
        intro c hc
        rw [List.filter_eq_nil_iff] at hnone
        simpa using hnone c hc
      simp [List.filter_cons, hrest]
    · have h1 : ¬ '.' = c := fun h => hp h.symm
      have h' : ((cs.filter fun c => c.isDigit || c = '.').filter fun c => c = '.').length ≤ 1 := by
        by_cases hd : c.isDigit = true
        · simpa [List.filter_cons, hp, hd] using h
        · simpa [List.filter_cons, hp, hd] using h
      have ih' := ih h'
      by_cases hd : c.isDigit = true
      · simp only [List.filter_cons, hd, Bool.true_or, if_true, List.takeWhile_cons,
          List.dropWhile_cons, hp, decide_not, decide_False, Bool.not_false, List.mem_cons, h1,
          false_or, List.cons_append]
        simp only [decide_not] at ih'
        rw [ih']
      · simp only [List.filter_cons, hd, Bool.false_or, hp, decide_False, Bool.false_eq_true,
          if_false, List.takeWhile_cons, List.dropWhile_cons, decide_not, Bool.not_false,
          if_true, List.mem_cons, h1, false_or]
        simp only [decide_not] at ih'
        rw [ih']

/-- What the normalisation returns, read off the typed text: the digits before the
first point or comma, then, if a point or comma was typed, a point and the digits after
it. -/
theorem sanitizeTotalCost_closed (input : String) :
    (sanitizeTotalCost input).toList
      = (input.toList.takeWhile fun c => c ≠ '.' && c ≠ ',').filter Char.isDigit
        ++ (if '.' ∈ input.toList ∨ ',' ∈ input.toList then
              '.' :: (input.toList.dropWhile fun c => c ≠ '.' && c ≠ ',').filter Char.isDigit
            else []) := by
  have hcore : ∀ t : List Char,
      (if ((t.filter fun c => c.isDigit || c = '.').filter fun c => c = '.').length > 1 then
          ((t.filter fun c => c.isDigit || c = '.').takeWhile fun c => c ≠ '.')
            ++ '.' :: (((t.filter fun c => c.isDigit || c = '.').dropWhile
                fun c => c ≠ '.').filter fun c => c ≠ '.')
        else (t.filter fun c => c.isDigit || c = '.'))
        = (t.takeWhile fun c => c ≠ '.').filter Char.isDigit
          ++ (if '.' ∈ t then '.' :: (t.dropWhile fun c => c ≠ '.').filter Char.isDigit
              else []) := by
    intro t
    by_cases hmany : ((t.filter fun c => c.isDigit || c = '.').filter fun c => c = '.').length > 1
    · rw [if_pos hmany, kept_takeWhile, kept_dropWhile]
      have hmem : '.' ∈ t := by
        have hpos : 0 < ((t.filter fun c => c.isDigit || c = '.').filter
            fun c => c = '.').length := by omega
        obtain ⟨c, hc⟩ := List.exists_mem_of_length_pos hpos
        have h1 := List.mem_filter.mp hc
        have h2 := List.mem_filter.mp h1.1
        have : c = '.' := by simpa using h1.2
        rw [← this]
        exact h2.1
      rw [if_pos hmem]
    · rw [if_neg hmany]
      exact kept_of_one_point t (not_lt.mp hmany)
  have h := hcore (replaceFirstComma input.toList)
  rw [replaceFirstComma_takeWhile, replaceFirstComma_dropWhile] at h
  simp only [replaceFirstComma_mem_point] at h
  rw [← h]
  unfold sanitizeTotalCost
  simp only
  split <;> rfl

/-- The normalisation keeps every digit of the text, in order. -/
theorem sanitizeTotalCost_digits (input : String) :
    (sanitizeTotalCost input).toList.filter Char.isDigit
      = input.toList.filter Char.isDigit := by
  rw [sanitizeTotalCost_closed]
  by_cases hsep : '.' ∈ input.toList ∨ ',' ∈ input.toList
  · rw [if_pos hsep, List.filter_append, List.filter_cons]
    simp only [List.filter_filter, Bool.and_self]
    have hpoint : ('.' : Char).isDigit = false := by decide
    rw [hpoint]
    simp only [Bool.false_eq_true, if_false]
    rw [← List.filter_append, List.takeWhile_append_dropWhile]
  · rw [if_neg hsep, List.append_nil, List.filter_filter]
    simp only [Bool.and_self]
    have hall : input.toList.takeWhile (fun c => c ≠ '.' && c ≠ ',') = input.toList := by
      rw [List.takeWhile_eq_self_iff]
      intro c hc
      have h1 : c ≠ '.' := fun h => hsep (Or.inl (h ▸ hc))
      have h2 : c ≠ ',' := fun h => hsep (Or.inr (h ▸ hc))
      simp [h1, h2]
    rw [hall]

/-- Digits, a comma, digits: the comma is read as the decimal point. -/
theorem sanitizeTotalCost_comma (a b : List Char)
    (ha : ∀ c ∈ a, c.isDigit = true) (hb : ∀ c ∈ b, c.isDigit = true) :
    sanitizeTotalCost (String.mk (a ++ ',' :: b)) = String.mk (a ++ '.' :: b) := by
  apply String.ext
  have h := sanitizeTotalCost_closed (String.mk (a ++ ',' :: b))
  have htoList : (String.mk (a ++ ',' :: b)).toList = a ++ ',' :: b := rfl
  rw [htoList] at h
  have hsep : ∀ c ∈ a, (decide (c ≠ '.') && decide (c ≠ ',')) = true := by
    intro c hc
    have hd := ha c hc
    have h1 : c ≠ '.' := fun h => absurd (h ▸ hd) (by decide)
    have h2 : c ≠ ',' := fun h => absurd (h ▸ hd) (by decide)
    simp [h1, h2]
  rw [List.takeWhile_append_of_pos hsep, List.dropWhile_append_of_pos hsep] at h
  have hfa : a.filter Char.isDigit = a := List.filter_eq_self.mpr ha
  have hfb : b.filter Char.isDigit = b := List.filter_eq_self.mpr hb
  simp [List.filter_cons, hfa, hfb] at h
  exact h

/-- C23: for every typed text, the value stored as `totalCost` is the normalised text.
It consists of digits `0`-`9` and at most one `.`, and normalising it again returns it
unchanged.  It is the digits typed before the first point or comma, then, if a point or
comma was typed, one point and the digits typed after it: every digit is kept in
order, a comma between digits is read as the decimal point, and of several separators
only the first stays. -/
theorem sanitizeTotalCost_normalised (input : String) :
    (∀ c ∈ (sanitizeTotalCost input).toList, c.isDigit = true ∨ c = '.')
      ∧ ((sanitizeTotalCost input).toList.filter fun c => c = '.').length ≤ 1
      ∧ sanitizeTotalCost (sanitizeTotalCost input) = sanitizeTotalCost input
      ∧ (∀ (R : Rounding) (numberToString : ℚ → String) (s : ProductsState),
          (onTotalCostChange R numberToString s input).calculatorData.totalCost
            = sanitizeTotalCost input)
      ∧ (sanitizeTotalCost input).toList
          = (input.toList.takeWhile fun c => c ≠ '.' && c ≠ ',').filter Char.isDigit
            ++ (if '.' ∈ input.toList ∨ ',' ∈ input.toList then
                  '.' :: (input.toList.dropWhile fun c => c ≠ '.' && c ≠ ',').filter
                    Char.isDigit
                else [])
      ∧ (sanitizeTotalCost input).toList.filter Char.isDigit
          = input.toList.filter Char.isDigit
      ∧ ('.' ∈ (sanitizeTotalCost input).toList
          ↔ ('.' ∈ input.toList ∨ ',' ∈ input.toList))
      ∧ (∀ a b : List Char, (∀ c ∈ a, c.isDigit = true) → (∀ c ∈ b, c.isDigit = true) →
          sanitizeTotalCost (String.mk (a ++ ',' :: b)) = String.mk (a ++ '.' :: b)
            ∧ sanitizeTotalCost (String.mk (a ++ '.' :: b)) = String.mk (a ++ '.' :: b)
            ∧ sanitizeTotalCost (String.mk a) = String.mk a)
      ∧ sanitizeTotalCost "46,95" = "46.95"
      ∧ sanitizeTotalCost "R$ 1.234,56" = "1.23456" := by
  have hprops := sanitizeTotalCost_chars input
  have hclosed := sanitizeTotalCost_closed input
  refine ⟨hprops.1, hprops.2, ?_, ?_, hclosed, sanitizeTotalCost_digits input, ?_, ?_,
    by decide, by decide⟩
  · have h := sanitizeTotalCost_fixed (sanitizeTotalCost input).toList hprops.1 hprops.2
    exact h
  · intro R numberToString s
    simp only [onTotalCostChange]
    split <;> rfl
  · rw [hclosed]
    by_cases hsep : '.' ∈ input.toList ∨ ',' ∈ input.toList
    · simp [hsep]
    · rw [if_neg hsep, List.append_nil]
      constructor
      · intro h
        have := (List.mem_filter.mp h).2
        exact absurd this (by decide)
      · intro h
        exact absurd h hsep
  · intro a b ha hb
    have hdot : ∀ l : List Char, (∀ c ∈ l, c.isDigit = true) →
        (l.filter fun c => c = '.') = [] := by
      intro l hl
      rw [List.filter_eq_nil_iff]
      intro c hc
      have hd := hl c hc
      have h1 : c ≠ '.' := fun h => absurd (h ▸ hd) (by decide)
      simpa using h1
    refine ⟨sanitizeTotalCost_comma a b ha hb, ?_, ?_⟩
    · apply sanitizeTotalCost_fixed
      · intro c hc
        rcases List.mem_append.mp hc with h | h
        · exact Or.inl (ha c h)
        · rcases List.mem_cons.mp h with h | h
          · exact Or.inr h
          · exact Or.inl (hb c h)
      · rw [List.filter_append, List.filter_cons, hdot a ha, hdot b hb]
        simp
    · apply sanitizeTotalCost_fixed
      · intro c hc
        exact Or.inl (ha c hc)
      · rw [hdot a ha]
        simp


/-- In the payload items every product is non-empty and every material of
`materialsUsed` is non-empty (the two filters check the texts themselves). -/
theorem payloadItems_names_nonempty (R : Rounding) (saleItems : List SaleItem) :
    ∀ item ∈ payloadItems R saleItems,
      item.product ≠ "" ∧ ∀ mat ∈ item.materialsUsed, mat.material ≠ "" := by
  intro item hitem
  simp only [payloadItems, List.mem_map, List.mem_filter] at hitem
  obtain ⟨src, ⟨_, hvalid⟩, rfl⟩ := hitem
  constructor
  · have h := (Bool.and_eq_true_iff.mp hvalid).1
    simpa [truthyStr] using h
  · intro mat hmat
    simp only [List.mem_map, List.mem_filter] at hmat
    obtain ⟨m, ⟨_, hm⟩, rfl⟩ := hmat
    have h := (Bool.and_eq_true_iff.mp hm).1
    simpa [truthyStr] using h

/-- C24: evaluation of the submit of a sale of product `p1` for the selected client
`c1` with the quantity typed as `0.1e1`.  The text denotes the number 1, so the form
passes its validation (`min="1"`, whole steps) and the item passes the filter
(`item.quantity > 0`); the payload carries `parseInt("0.1e1")`, which stops at the
point and is `0`: `saleService.create` receives an item with quantity 0. -/
theorem handleSubmit_exponent_quantity (R : Rounding) :
    toNumber "0.1e1" = .fin 1
      ∧ parseInt "0.1e1" = .fin 0
      ∧ saleFormValid
          { clients := []
            saleItems := [{ product := "p1", quantity := "0.1e1", materialsUsed := [] }]
            selectedClientId := "c1"
            isQuickSale := false
            isModalOpen := true } = true
      ∧ (submitSaleForm R
          { clients := []
            saleItems := [{ product := "p1", quantity := "0.1e1", materialsUsed := [] }]
            selectedClientId := "c1"
            isQuickSale := false
            isModalOpen := true }
          { localStorage := { items := [] }, log := [] }
          (.ok { _id := "c1", name := "Ana", phone := "" })
          none
          (.ok ())).2.log
        = [Effect.request (apiConfig "post" "/sales"
              (.sale { client := "c1"
                       items := [{ product := "p1", quantity := .fin 0,
                                   materialsUsed := [] }]
                       paymentMethod := "dinheiro"
                       paymentStatus := "pago" })),
           Effect.notification "Venda registrada com sucesso!" "success",
           Effect.request (apiConfig "get" "/sales" .empty)] := by
  have hnum : toNumber "0.1e1" = .fin 1 := by decide!
  have hint : parseInt "0.1e1" = .fin 0 := by decide!
  have hvalid : saleFormValid
      { clients := []
        saleItems := [{ product := "p1", quantity := "0.1e1", materialsUsed := [] }]
        selectedClientId := "c1"
        isQuickSale := false
        isModalOpen := true } = true := by decide!
  refine ⟨hnum, hint, hvalid, ?_⟩
  simp [submitSaleForm, hvalid, handleSubmit, handleSubmitWithClient, payloadItems,
    validItem, hnum, hint, JsNum.round, JsNum.gtZero, R.fl_zero, truthyStr, apiRequest,
    apiReceive, apiSend, responseInterceptor, requestInterceptor, showNotification,
    LocalStorage.getItem, truthy]

/-- What `handleSubmitWithClient` adds to the trace: a request carrying a sale payload
that was not in the trace before carries the payload built from the form. -/
theorem handleSubmitWithClient_sale_request (R : Rounding) (s : SalesState) (b : Browser)
    (client : String)
    (paymentMethodField : Option String) (createReply : Except AxiosError Unit)
    (cfg : RequestConfig) (payload : SalePayload)
    (hreq : Effect.request cfg
      ∈ (handleSubmitWithClient R s b client paymentMethodField createReply).2.log)
    (hsale : cfg.data = .sale payload) :
    Effect.request cfg ∈ b.log
      ∨ payload
        = { client := client
            items := payloadItems R s.saleItems
            paymentMethod :=
              if truthy paymentMethodField then paymentMethodField.getD "" else "dinheiro"
            paymentStatus :=
              if (if truthy paymentMethodField then paymentMethodField.getD ""
                  else "dinheiro") = "pendente" then "pendente" else "pago" } := by
  have hdata : ∀ (ls : LocalStorage) (c : RequestConfig),
      (requestInterceptor ls c).data = c.data :=
    fun ls c => (requestInterceptor_other_fields ls c).2.2.1
  unfold handleSubmitWithClient at hreq
  by_cases hc : truthyStr client = true
  · by_cases hlen : (payloadItems R s.saleItems).length = 0
    · simp [hc, hlen, showNotification] at hreq
      exact Or.inl hreq
    · cases createReply with
      | ok u =>
        simp only [hc, hlen, apiRequest, apiReceive, apiSend, responseInterceptor,
          showNotification, Bool.not_true, Bool.false_eq_true, if_false, List.mem_append,
          List.mem_singleton, Effect.request.injEq] at hreq
        rcases hreq with ((h | h) | h) | h
        · exact Or.inl h
        · right
          rw [h, hdata] at hsale
          simpa [apiConfig] using hsale.symm
        · exact absurd h (by simp)
        · rw [h, hdata] at hsale
          simp [apiConfig] at hsale
      | error e =>
        simp only [hc, hlen, apiRequest, apiReceive, apiSend, responseErrorInterceptor,
          showNotification, Bool.not_true, Bool.false_eq_true, if_false, List.mem_append,
          List.mem_singleton, Effect.request.injEq] at hreq
        rcases hreq with (h | h) | h
        · exact Or.inl h
        · right
          rw [h, hdata] at hsale
          simpa [apiConfig] using hsale.symm
        · exact absurd h (by simp)
  · simp [hc, showNotification] at hreq
    exact Or.inl hreq


/-- C27: every request with a sale payload that `handleSubmit` adds to the trace has
`paymentMethod` equal to the chosen method, or `dinheiro` when the form field is
missing or empty, and `paymentStatus` equal to `pendente` exactly when the method is
`pendente`, and to `pago` for every other method. -/
theorem paymentStatus_derivation (R : Rounding) (s : SalesState) (b : Browser)
    (quickReply : Except AxiosError Client) (paymentMethodField : Option String)
    (createReply : Except AxiosError Unit) (cfg : RequestConfig) (payload : SalePayload)
    (hreq : Effect.request cfg
      ∈ (handleSubmit R s b quickReply paymentMethodField createReply).2.log)
    (hnew : Effect.request cfg ∉ b.log)
    (hsale : cfg.data = .sale payload) :
    payload.paymentMethod
        = (if truthy paymentMethodField then paymentMethodField.getD "" else "dinheiro")
      ∧ (payload.paymentStatus = "pendente" ↔ payload.paymentMethod = "pendente")
      ∧ (payload.paymentMethod ≠ "pendente" → payload.paymentStatus = "pago")
      ∧ (truthy paymentMethodField = false →
          payload.paymentMethod = "dinheiro" ∧ payload.paymentStatus = "pago") := by
  have hdata : ∀ (ls : LocalStorage) (c : RequestConfig),
      (requestInterceptor ls c).data = c.data :=
    fun ls c => (requestInterceptor_other_fields ls c).2.2.1
  have hpayload : ∃ client items, payload
      = { client := client
          items := items
          paymentMethod :=
            if truthy paymentMethodField then paymentMethodField.getD "" else "dinheiro"
          paymentStatus :=
            if (if truthy paymentMethodField then paymentMethodField.getD ""
                else "dinheiro") = "pendente" then "pendente" else "pago" } := by
    unfold handleSubmit at hreq
    by_cases hq : (s.isQuickSale && !truthyStr s.selectedClientId) = true
    · rw [if_pos hq] at hreq
      cases quickReply with
      | ok newClient =>
        simp only [apiRequest, apiReceive, responseInterceptor] at hreq
        rcases handleSubmitWithClient_sale_request R _ _ _ _ _ cfg payload hreq hsale with h | h
        · simp only [apiSend, List.mem_append, List.mem_singleton,
            Effect.request.injEq] at h
          rcases h with h | h
          · exact absurd h hnew
          · rw [h, hdata] at hsale
            simp [apiConfig] at hsale
        · exact ⟨_, _, h⟩
      | error e =>
        simp only [apiRequest, apiReceive, apiSend, responseErrorInterceptor,
          showNotification, List.mem_append, List.mem_singleton,
          Effect.request.injEq] at hreq
        rcases hreq with (h | h) | h
        · exact absurd h hnew
        · rw [h, hdata] at hsale
          simp [apiConfig] at hsale
        · exact absurd h (by simp)
    · rw [if_neg hq] at hreq
      rcases handleSubmitWithClient_sale_request R _ _ _ _ _ cfg payload hreq hsale with h | h
      · exact absurd h hnew
      · exact ⟨_, _, h⟩
  obtain ⟨client, items, rfl⟩ := hpayload
  refine ⟨rfl, ?_, ?_, ?_⟩
  · by_cases hp : (if truthy paymentMethodField then paymentMethodField.getD ""
        else "dinheiro") = "pendente"
    · simp [hp]
    · simp [hp]
  · intro hp
    simp only at hp
    simp [hp]
  · intro hno
    simp [hno]

/-- C27 (witness): a sale of two cones with the method `pendente` chosen. -/
theorem paymentStatus_derivation_witness :
    Effect.request (apiConfig "post" "/sales"
        (.sale { client := "c1"
                 items := [{ product := "p1", quantity := .fin 2, materialsUsed := [] }]
                 paymentMethod := "pendente"
                 paymentStatus := "pendente" }))
        ∈ (handleSubmit Rounding.exact
            { clients := []
              saleItems := [{ product := "p1", quantity := "2", materialsUsed := [] }]
              selectedClientId := "c1"
              isQuickSale := false
              isModalOpen := true }
            { localStorage := { items := [] }, log := [] }
            (.ok { _id := "c1", name := "Ana", phone := "" })
            (some "pendente")
            (.ok ())).2.log
      ∧ (({ client := "c1"
            items := [{ product := "p1", quantity := .fin 2, materialsUsed := [] }]
            paymentMethod := "pendente"
            paymentStatus := "pendente" } : SalePayload).paymentStatus = "pendente"
          ↔ ({ client := "c1"
               items := [{ product := "p1", quantity := .fin 2, materialsUsed := [] }]
               paymentMethod := "pendente"
               paymentStatus := "pendente" } : SalePayload).paymentMethod = "pendente") :=
  ⟨by decide!, (paymentStatus_derivation Rounding.exact
      { clients := []
        saleItems := [{ product := "p1", quantity := "2", materialsUsed := [] }]
        selectedClientId := "c1"
        isQuickSale := false
        isModalOpen := true }
      { localStorage := { items := [] }, log := [] }
      (.ok { _id := "c1", name := "Ana", phone := "" })
      (some "pendente")
      (.ok ())
      (apiConfig "post" "/sales"
        (.sale { client := "c1"
                 items := [{ product := "p1", quantity := .fin 2, materialsUsed := [] }]
                 paymentMethod := "pendente"
                 paymentStatus := "pendente" }))
      { client := "c1"
        items := [{ product := "p1", quantity := .fin 2, materialsUsed := [] }]
        paymentMethod := "pendente"
        paymentStatus := "pendente" }
      (by decide!) (by simp) rfl).2.1⟩


/-- C26: the `initialPurchase` flag submitted by `Materials.handleSubmit` is true
exactly when no material is being edited and the parsed `quantityInStock` is `> 0`; a
quantity that is empty or does not parse is submitted as `0` with the flag false; and
the request that leaves carries exactly this object. -/
theorem initialPurchase_flag (R : Rounding) (s : MaterialsState) (b : Browser)
    (reply : Except AxiosError Unit) :
    ((Materials.submitData R s).initialPurchase = true
        ↔ s.editingMaterial = none ∧ (Materials.submitData R s).quantityInStock.gtZero = true)
      ∧ (Materials.submitData R s).quantityInStock
          = ((parseFloat s.formData.quantityInStock).round R).orZero
      ∧ (parseFloat s.formData.quantityInStock = .nan →
          (Materials.submitData R s).quantityInStock = .fin 0
            ∧ (Materials.submitData R s).initialPurchase = false)
      ∧ parseFloat "" = .nan
      ∧ (∃ method url rest,
          (Materials.handleSubmit R s b reply).2.log
            = b.log ++ Effect.request (requestInterceptor b.localStorage
                (apiConfig method url (.material (Materials.submitData R s)))) :: rest) := by
  refine ⟨?_, rfl, ?_, by decide, ?_⟩
  · cases he : s.editingMaterial <;> simp [Materials.submitData, he]
  · intro hnan
    simp [Materials.submitData, hnan, JsNum.round, JsNum.orZero, JsNum.gtZero]
  · cases he : s.editingMaterial <;> cases reply <;>
      simp [Materials.handleSubmit, he, apiRequest, apiReceive, apiSend, responseInterceptor,
        responseErrorInterceptor, showNotification] <;>
      exact ⟨_, _, rfl⟩


/-- Answers to the three requests of the dashboard leave the session context alone,
and leave the storage alone unless one of them is a 401. -/
theorem Dashboard.fetchDashboardData_session (R : Rounding) (app : App)
    (st : DashboardState) (salesReply : Except AxiosError SalesListResponse)
    (productsReply : Except AxiosError ProductsListResponse)
    (materialsReply : Except AxiosError MaterialStats)
    (hs : ∀ e, salesReply = .error e → e.status ≠ some 401)
    (hp : ∀ e, productsReply = .error e → e.status ≠ some 401)
    (hm : ∀ e, materialsReply = .error e → e.status ≠ some 401) :
    (Dashboard.fetchDashboardData R app st salesReply productsReply materialsReply).1.auth
        = app.auth
      ∧ (Dashboard.fetchDashboardData R app st salesReply productsReply
          materialsReply).1.browser.localStorage = app.browser.localStorage := by
  cases salesReply with
  | ok sr =>
    cases productsReply with
    | ok pr =>
      cases materialsReply with
      | ok mr =>
        simp [Dashboard.fetchDashboardData, apiReceive, apiSend, responseInterceptor]
      | error em =>
        simp [Dashboard.fetchDashboardData, apiReceive, apiSend, responseInterceptor,
          responseErrorInterceptor, hm em rfl]
    | error ep =>
      cases materialsReply with
      | ok mr =>
        simp [Dashboard.fetchDashboardData, apiReceive, apiSend, responseInterceptor,
          responseErrorInterceptor, consoleError, hp ep rfl]
      | error em =>
        simp [Dashboard.fetchDashboardData, apiReceive, apiSend, responseInterceptor,
          responseErrorInterceptor, consoleError, hp ep rfl, hm em rfl]
  | error es =>
    cases productsReply with
    | ok pr =>
      cases materialsReply with
      | ok mr =>
        simp [Dashboard.fetchDashboardData, apiReceive, apiSend, responseInterceptor,
          responseErrorInterceptor, consoleError, hs es rfl]
      | error em =>
        simp [Dashboard.fetchDashboardData, apiReceive, apiSend, responseInterceptor,
          responseErrorInterceptor, consoleError, hs es rfl, hm em rfl]
    | error ep =>
      cases materialsReply with
      | ok mr =>
        simp [Dashboard.fetchDashboardData, apiReceive, apiSend, responseInterceptor,
          responseErrorInterceptor, consoleError, hs es rfl, hp ep rfl]
      | error em =>
        simp [Dashboard.fetchDashboardData, apiReceive, apiSend, responseInterceptor,
          responseErrorInterceptor, consoleError, hs es rfl, hp ep rfl, hm em rfl]

/-- The trace of `fetchDashboardData`: the three requests, followed by one
`console.error` entry exactly when the sales or the products request failed
(`toBool` is true on a fulfilled answer). -/
theorem Dashboard.fetchDashboardData_log (R : Rounding) (app : App)
    (st : DashboardState) (salesReply : Except AxiosError SalesListResponse)
    (productsReply : Except AxiosError ProductsListResponse)
    (materialsReply : Except AxiosError MaterialStats) :
    (Dashboard.fetchDashboardData R app st salesReply productsReply
        materialsReply).1.browser.log
      = (apiSend "get" "/materials/stats" .empty
          (apiSend "get" "/products" .empty
            (apiSend "get" "/sales" .empty app.browser))).log
        ++ (if salesReply.toBool && productsReply.toBool then []
            else [Effect.consoleError "Erro ao buscar dados:"]) := by
  cases salesReply <;> cases productsReply <;> cases materialsReply <;>
    simp [Dashboard.fetchDashboardData, apiReceive, apiSend, responseInterceptor,
      responseErrorInterceptor, consoleError, Except.toBool]

/-- C21 (counterexample): the stats request of the low-stock alert answered with 429:
a `console.error` entry is written. -/
theorem fetchLowStockMaterials_rateLimited_counterexample :
    (StockAlert.fetchLowStockMaterials
        { auth := { user := some { name := "Ana", email := "ana@loja.br", role := "admin",
                                   emailVerified := true },
                    loading := false, checkingRef := false }
          browser := { localStorage := { items := [] }, log := [] } }
        { lowStockMaterials := [], loading := false, isExpanded := false }
        (.error { response := some { status := 429, message := none } })).1.browser.log
      = [Effect.request (apiConfig "get" "/materials/stats" .empty),
         Effect.consoleError "Erro ao buscar materiais com estoque baixo:"] := by
  decide!

/-- C21 (amended): when a periodic refresh receives a 429, the session user and the
stored token are left as they were and no notification is shown; the failure is
written once to `console.error`, by the low-stock alert always and by the dashboard
when the sales or the products request failed (a failed `getStats` of the dashboard
is replaced silently). -/
theorem refresh_rateLimited (R : Rounding) (app : App) (alert : StockAlertState)
    (st : DashboardState) (error : AxiosError)
    (salesReply : Except AxiosError SalesListResponse)
    (productsReply : Except AxiosError ProductsListResponse)
    (materialsReply : Except AxiosError MaterialStats)
    (h429 : error.status = some 429)
    (hs : ∀ e, salesReply = .error e → e.status = some 429)
    (hp : ∀ e, productsReply = .error e → e.status = some 429)
    (hm : ∀ e, materialsReply = .error e → e.status = some 429) :
    (StockAlert.fetchLowStockMaterials app alert (.error error)).1.auth = app.auth
      ∧ (StockAlert.fetchLowStockMaterials app alert (.error error)).1.browser.localStorage
          = app.browser.localStorage
      ∧ (StockAlert.fetchLowStockMaterials app alert (.error error)).1.browser.log
          = app.browser.log
            ++ [Effect.request (requestInterceptor app.browser.localStorage
                  (apiConfig "get" "/materials/stats" .empty)),
                Effect.consoleError "Erro ao buscar materiais com estoque baixo:"]
      ∧ (Dashboard.fetchDashboardData R app st salesReply productsReply
          materialsReply).1.auth = app.auth
      ∧ (Dashboard.fetchDashboardData R app st salesReply productsReply
          materialsReply).1.browser.localStorage = app.browser.localStorage
      ∧ (Dashboard.fetchDashboardData R app st salesReply productsReply
          materialsReply).1.browser.log
          = (apiSend "get" "/materials/stats" .empty
              (apiSend "get" "/products" .empty
                (apiSend "get" "/sales" .empty app.browser))).log
            ++ (if salesReply.toBool && productsReply.toBool then []
                else [Effect.consoleError "Erro ao buscar dados:"]) := by
  have hne : ∀ e : AxiosError, e.status = some 429 → e.status ≠ some 401 := by
    intro e he
    rw [he]
    decide
  have hsession := Dashboard.fetchDashboardData_session R app st salesReply productsReply
    materialsReply (fun e he => hne e (hs e he)) (fun e he => hne e (hp e he))
    (fun e he => hne e (hm e he))
  refine ⟨rfl, ?_, ?_, hsession.1, hsession.2,
    Dashboard.fetchDashboardData_log R app st salesReply productsReply materialsReply⟩
  · simp [StockAlert.fetchLowStockMaterials, serviceCall, apiRequest, apiReceive, apiSend,
      responseErrorInterceptor, consoleError, hne error h429]
  · simp [StockAlert.fetchLowStockMaterials, serviceCall, apiRequest, apiReceive, apiSend,
      responseErrorInterceptor, consoleError]


/-- C21 (witness): a signed-in session whose dashboard refresh has its sales request
answered with 429. -/
theorem refresh_rateLimited_witness :
    (Dashboard.fetchDashboardData Rounding.exact
        { auth := { user := some { name := "Ana", email := "ana@loja.br", role := "admin",
                                   emailVerified := true },
                    loading := false, checkingRef := false }
          browser := { localStorage := { items := [("token", "abc")] }, log := [] } }
        { stats := { totalSales := 0, totalRevenue := 0, totalProfit := 0, totalProducts := 0
                     pendingSales := 0, pendingAmount := 0, totalMaterials := 0
                     materialsStockValue := 0, totalWithdrawalsValue := 0
                     lowStockMaterials := 0 }
          recentSales := [], loading := true, refreshing := false }
        (.error { response := some { status := 429, message := none } })
        (.ok { paginationTotal := some 3 })
        (.ok { lowStockMaterials := none, totalMaterials := none, totalStockValue := none
               totalWithdrawalsValue := none, lowStockCount := none })).1.browser.localStorage
      = { items := [("token", "abc")] } :=
  (refresh_rateLimited Rounding.exact
    { auth := { user := some { name := "Ana", email := "ana@loja.br", role := "admin",
                               emailVerified := true },
                loading := false, checkingRef := false }
      browser := { localStorage := { items := [("token", "abc")] }, log := [] } }
    { lowStockMaterials := [], loading := false, isExpanded := false }
    { stats := { totalSales := 0, totalRevenue := 0, totalProfit := 0, totalProducts := 0
                 pendingSales := 0, pendingAmount := 0, totalMaterials := 0
                 materialsStockValue := 0, totalWithdrawalsValue := 0
                 lowStockMaterials := 0 }
      recentSales := [], loading := true, refreshing := false }
    { response := some { status := 429, message := none } }
    (.error { response := some { status := 429, message := none } })
    (.ok { paginationTotal := some 3 })
    (.ok { lowStockMaterials := none, totalMaterials := none, totalStockValue := none
           totalWithdrawalsValue := none, lowStockCount := none })
    rfl
    (fun e he => by cases he; rfl)
    (fun e he => by cases he)
    (fun e he => by cases he)).2.2.2.2.1

/-- C22: when the stats request of the low-stock alert fails, or the sales or the
products request of the dashboard fails, the handler ends normally, adds no
notification to the trace, leaves `lowStockMaterials` (for the dashboard: `stats` and
`recentSales`) as they were, and sets `loading` (and `refreshing`) to false. -/
theorem refresh_failure_frame (R : Rounding) (app : App) (alert : StockAlertState)
    (st : DashboardState) (error : AxiosError)
    (salesReply : Except AxiosError SalesListResponse)
    (productsReply : Except AxiosError ProductsListResponse)
    (materialsReply : Except AxiosError MaterialStats)
    (hfail : (salesReply.toBool && productsReply.toBool) = false) :
    (StockAlert.fetchLowStockMaterials app alert (.error error)).2.2 = .ok ()
      ∧ (StockAlert.fetchLowStockMaterials app alert (.error error)).2.1
          = { alert with loading := false }
      ∧ (∀ message kind,
          Effect.notification message kind
              ∈ (StockAlert.fetchLowStockMaterials app alert (.error error)).1.browser.log →
            Effect.notification message kind ∈ app.browser.log)
      ∧ (Dashboard.fetchDashboardData R app st salesReply productsReply
          materialsReply).2.2 = .ok ()
      ∧ (Dashboard.fetchDashboardData R app st salesReply productsReply
          materialsReply).2.1 = { st with loading := false, refreshing := false }
      ∧ (∀ message kind,
          Effect.notification message kind
              ∈ (Dashboard.fetchDashboardData R app st salesReply productsReply
                  materialsReply).1.browser.log →
            Effect.notification message kind ∈ app.browser.log) := by
  refine ⟨rfl, rfl, ?_, ?_, ?_, ?_⟩
  · intro message kind hmem
    simpa [StockAlert.fetchLowStockMaterials, serviceCall, apiRequest, apiReceive, apiSend,
      responseErrorInterceptor, consoleError] using hmem
  · cases salesReply <;> cases productsReply <;> rfl
  · cases salesReply <;> cases productsReply <;>
      first
        | rfl
        | exact absurd hfail (by simp [Except.toBool])
  · intro message kind hmem
    rw [Dashboard.fetchDashboardData_log] at hmem
    simp only [hfail, apiSend, List.mem_append, List.mem_singleton] at hmem
    simpa using hmem

/-- C22 (witness): a dashboard refresh whose products request gets no answer. -/
theorem refresh_failure_frame_witness :
    (Dashboard.fetchDashboardData Rounding.exact
        { auth := { user := none, loading := false, checkingRef := false }
          browser := { localStorage := { items := [] }, log := [] } }
        { stats := { totalSales := 7, totalRevenue := 90, totalProfit := 30
                     totalProducts := 4, pendingSales := 1, pendingAmount := 15
                     totalMaterials := 2, materialsStockValue := 40
                     totalWithdrawalsValue := 5, lowStockMaterials := 1 }
          recentSales := [], loading := true, refreshing := true }
        (.ok { sales := none, paginationTotal := none })
        (.error { response := none })
        (.ok { lowStockMaterials := none, totalMaterials := none, totalStockValue := none
               totalWithdrawalsValue := none, lowStockCount := none })).2.1
      = { stats := { totalSales := 7, totalRevenue := 90, totalProfit := 30
                     totalProducts := 4, pendingSales := 1, pendingAmount := 15
                     totalMaterials := 2, materialsStockValue := 40
                     totalWithdrawalsValue := 5, lowStockMaterials := 1 }
          recentSales := [], loading := false, refreshing := false } :=
  (refresh_failure_frame Rounding.exact
    { auth := { user := none, loading := false, checkingRef := false }
      browser := { localStorage := { items := [] }, log := [] } }
    { lowStockMaterials := [], loading := true, isExpanded := false }
    { stats := { totalSales := 7, totalRevenue := 90, totalProfit := 30
                 totalProducts := 4, pendingSales := 1, pendingAmount := 15
                 totalMaterials := 2, materialsStockValue := 40
                 totalWithdrawalsValue := 5, lowStockMaterials := 1 }
      recentSales := [], loading := true, refreshing := true }
    { response := none }
    (.ok { sales := none, paginationTotal := none })
    (.error { response := none })
    (.ok { lowStockMaterials := none, totalMaterials := none, totalStockValue := none
           totalWithdrawalsValue := none, lowStockCount := none })
    rfl).2.2.2.2.1

/-- C30: in the statistics grid of a report each margin line is rendered exactly when
`totalAmount > 0` and the average ticket exactly when `totalSales > 0`.  Every division
evaluated while the grid is rendered has a finite dividend and a divisor above zero, so
its quotient is the rounded exact quotient and never `NaN` or an infinity; the
divisions are the two margins by `totalAmount` when it is positive and the ticket by
`totalSales` when that is positive, and the texts shown are built from those
quotients. -/
theorem report_divisions_guarded (formatCurrency : JsNum → String) (R : Rounding)
    (numberToString : ℚ → String) (statistics : ReportStatistics) :
    ((Reports.statsGrid formatCurrency R numberToString statistics).value.1.isSome = true
        ↔ statistics.totalAmount > 0)
      ∧ ((Reports.statsGrid formatCurrency R numberToString statistics).value.2.1.isSome
            = true
        ↔ statistics.totalAmount > 0)
      ∧ ((Reports.statsGrid formatCurrency R numberToString statistics).value.2.2.isSome
            = true
        ↔ statistics.totalSales > 0)
      ∧ (∀ d ∈ (Reports.statsGrid formatCurrency R numberToString statistics).divisions,
          ∃ x y : ℚ, d = (.fin x, .fin y) ∧ 0 < y ∧ y ≠ 0
            ∧ (tracedDiv R d.1 d.2).value = .fin (R.fl (x / y)))
      ∧ (Reports.statsGrid formatCurrency R numberToString statistics).divisions
          = (if statistics.totalAmount > 0 then
              [(.fin statistics.totalGrossProfit, .fin statistics.totalAmount),
               (.fin statistics.totalNetProfit, .fin statistics.totalAmount)]
             else [])
            ++ (if statistics.totalSales > 0 then
              [(.fin statistics.totalAmount, .fin statistics.totalSales)] else [])
      ∧ (statistics.totalAmount > 0 →
          (Reports.grossMargin R numberToString statistics).value
              = some ("Margem: "
                  ++ (JsNum.fin (R.fl (R.fl (statistics.totalGrossProfit
                        / statistics.totalAmount) * 100))).toFixed1 numberToString
                  ++ "%")
            ∧ (Reports.netMargin R numberToString statistics).value
              = some ("Margem: "
                  ++ (JsNum.fin (R.fl (R.fl (statistics.totalNetProfit
                        / statistics.totalAmount) * 100))).toFixed1 numberToString
                  ++ "%"))
      ∧ (statistics.totalSales > 0 →
          (Reports.averageTicket formatCurrency R statistics).value
            = some (formatCurrency
                (.fin (R.fl (statistics.totalAmount / statistics.totalSales))))) := by
  have hdiv : ∀ x y : ℚ, 0 < y →
      (tracedDiv R (.fin x) (.fin y)).value = .fin (R.fl (x / y)) := by
    intro x y hy
    simp [tracedDiv, JsNum.div, ne_of_gt hy]
  have hlist : (Reports.statsGrid formatCurrency R numberToString statistics).divisions
      = (if statistics.totalAmount > 0 then
          [(JsNum.fin statistics.totalGrossProfit, JsNum.fin statistics.totalAmount),
           (JsNum.fin statistics.totalNetProfit, JsNum.fin statistics.totalAmount)]
         else [])
        ++ (if statistics.totalSales > 0 then
          [(JsNum.fin statistics.totalAmount, JsNum.fin statistics.totalSales)]
          else []) := by
    unfold Reports.statsGrid Reports.grossMargin Reports.netMargin Reports.averageTicket
    by_cases ha : statistics.totalAmount > 0 <;> by_cases hs : statistics.totalSales > 0 <;>
      simp [ha, hs, tracedDiv]
  refine ⟨?_, ?_, ?_, ?_, hlist, ?_, ?_⟩
  · unfold Reports.statsGrid Reports.grossMargin
    by_cases h : statistics.totalAmount > 0 <;> simp [h]
  · unfold Reports.statsGrid Reports.netMargin
    by_cases h : statistics.totalAmount > 0 <;> simp [h]
  · unfold Reports.statsGrid Reports.averageTicket
    by_cases h : statistics.totalSales > 0 <;> simp [h]
  · intro d hd
    rw [hlist] at hd
    rcases List.mem_append.mp hd with h | h
    · by_cases ha : statistics.totalAmount > 0
      · rw [if_pos ha] at h
        simp only [List.mem_cons, List.mem_singleton, List.not_mem_nil, or_false] at h
        rcases h with rfl | rfl
        · exact ⟨_, _, rfl, ha, ne_of_gt ha, hdiv _ _ ha⟩
        · exact ⟨_, _, rfl, ha, ne_of_gt ha, hdiv _ _ ha⟩
      · rw [if_neg ha] at h
        exact absurd h (List.not_mem_nil d)
    · by_cases hs : statistics.totalSales > 0
      · rw [if_pos hs] at h
        simp only [List.mem_singleton] at h
        rw [h]
        exact ⟨_, _, rfl, hs, ne_of_gt hs, hdiv _ _ hs⟩
      · rw [if_neg hs] at h
        exact absurd h (List.not_mem_nil d)
  · intro ha
    have hne : statistics.totalAmount ≠ 0 := ne_of_gt ha
    constructor
    · simp [Reports.grossMargin, ha, tracedDiv, JsNum.div, JsNum.mul, hne]
    · simp [Reports.netMargin, ha, tracedDiv, JsNum.div, JsNum.mul, hne]
  · intro hs
    have hne : statistics.totalSales ≠ 0 := ne_of_gt hs
    simp [Reports.averageTicket, hs, tracedDiv, JsNum.div, hne]


/-- The exponent of a positive value is fixed by the power-of-two bracket around it. -/
theorem log_two_eq {x : ℚ} {k : ℤ} (hlo : (2 : ℚ) ^ k ≤ x) (hhi : x < (2 : ℚ) ^ (k + 1)) :
    Int.log 2 x = k := by
  have hx : 0 < x := lt_of_lt_of_le (by positivity) hlo
  have h1 : k ≤ Int.log 2 x := by
    have := Int.log_mono_right (b := 2) (by positivity : (0 : ℚ) < (2 : ℚ) ^ k) hlo
    have hz := Int.log_zpow (R := ℚ) (b := 2) (by norm_num) k
    simp only [Nat.cast_ofNat] at hz
    rwa [hz] at this
  have h2 : Int.log 2 x < k + 1 := by
    by_contra hge
    have hge' : k + 1 ≤ Int.log 2 x := not_lt.mp hge
    have hpow : (2 : ℚ) ^ (k + 1) ≤ (2 : ℚ) ^ (Int.log 2 x) :=
      zpow_le_zpow_right₀ (by norm_num) hge'
    have hle : (2 : ℚ) ^ (Int.log 2 x) ≤ x := by
      have := Int.zpow_log_le_self (b := 2) (by norm_num) hx
      simpa using this
    linarith
  omega

/-- Away from a tie, `roundHalfEven` is the integer within one half. -/
theorem roundHalfEven_eq (y : ℚ) (m : ℤ) (h1 : (m : ℚ) - 1 / 2 < y)
    (h2 : y < (m : ℚ) + 1 / 2) : roundHalfEven y = m := by
  by_cases hy : (m : ℚ) ≤ y
  · have hf : ⌊y⌋ = m := by
      rw [Int.floor_eq_iff]
      exact ⟨hy, by linarith⟩
    unfold roundHalfEven
    rw [hf, if_pos (by linarith)]
  · have hf : ⌊y⌋ = m - 1 := by
      rw [Int.floor_eq_iff]
      push_cast
      exact ⟨by linarith, by linarith [not_le.mp hy]⟩
    unfold roundHalfEven
    rw [hf]
    push_cast
    rw [if_neg (by linarith), if_pos (by linarith)]
    ring

/-- Value of the double rounding at a positive `x` with `2^k ≤ x < 2^(k+1)`. -/
theorem binary64_eval (x : ℚ) (k m : ℤ) (hlo : (2 : ℚ) ^ k ≤ x)
    (hhi : x < (2 : ℚ) ^ (k + 1))
    (h1 : (m : ℚ) - 1 / 2 < x / 2 ^ (k - 52)) (h2 : x / 2 ^ (k - 52) < (m : ℚ) + 1 / 2) :
    Rounding.binary64.fl x = (m : ℚ) * 2 ^ (k - 52) := by
  have hx : 0 < x := lt_of_lt_of_le (by positivity) hlo
  show binary64Round x = (m : ℚ) * 2 ^ (k - 52)
  unfold binary64Round binary64Pos
  rw [if_neg (ne_of_gt hx), if_pos hx, log_two_eq hlo hhi, roundHalfEven_eq _ m h1 h2]


/-- When the rounding is exact on every partial sum of a list, the accumulated sum is
the sum. -/
theorem jsSum_eq_sum (R : Rounding) (xs : List ℚ)
    (hexact : ∀ l : List ℚ, l <+: xs → R.fl l.sum = l.sum) : jsSum R xs = xs.sum := by
  induction xs using List.reverseRecOn with
  | nil => rfl
  | append_singleton l a ih =>
    have hl : jsSum R l = l.sum :=
      ih fun l' hl' => hexact l' (hl'.trans (List.prefix_append l [a]))
    have hfull := hexact (l ++ [a]) (List.prefix_refl _)
    unfold jsSum at hl ⊢
    rw [List.foldl_append, hl]
    simp only [List.foldl_cons, List.foldl_nil]
    rw [List.sum_append, List.sum_singleton] at hfull
    rw [hfull, List.sum_append, List.sum_singleton]

/-- The double nearest to `2^53 + 1` is `2^53`: a tie, which goes to the even
neighbour. -/
theorem binary64_tie_example :
    Rounding.binary64.fl 9007199254740993 = 9007199254740992 := by
  show binary64Round 9007199254740993 = 9007199254740992
  have hlog : Int.log 2 (9007199254740993 : ℚ) = 53 :=
    log_two_eq (by norm_num) (by norm_num)
  have hfloor : ⌊(9007199254740993 : ℚ) / 2⌋ = 4503599627370496 := by
    rw [Int.floor_eq_iff]
    constructor <;> norm_num
  unfold binary64Round binary64Pos
  rw [if_neg (by norm_num), if_pos (by norm_num), hlog]
  norm_num [roundHalfEven, hfloor]

/-- A quantity typed beyond `2^53` enters the payload as the double nearest to it, which
is what `parseInt` returns. -/
theorem payloadItems_rounds_quantity :
    payloadItems Rounding.binary64
        [{ product := "p1", quantity := "9007199254740993", materialsUsed := [] }]
      = [{ product := "p1", quantity := .fin 9007199254740992, materialsUsed := [] }] := by
  have hint : parseInt "9007199254740993" = .fin 9007199254740993 := by decide!
  have hnum : toNumber "9007199254740993" = .fin 9007199254740993 := by decide!
  simp [payloadItems, validItem, truthyStr, hint, hnum, JsNum.round, JsNum.gtZero,
    binary64_tie_example]

/-- The nearest integer is within one half. -/
theorem roundHalfEven_error (y : ℚ) : |(roundHalfEven y : ℚ) - y| ≤ 1 / 2 := by
  have h1 := Int.floor_le y
  have h2 := Int.lt_floor_add_one y
  rw [abs_le]
  unfold roundHalfEven
  split_ifs <;> constructor <;> push_cast <;> linarith

/-- Rounding a positive value to 53 significant bits moves it by at most `2^-53` of
itself. -/
theorem binary64Pos_error (x : ℚ) (hx : 0 < x) : |binary64Pos x - x| ≤ x / 2 ^ 53 := by
  have hu : (0 : ℚ) < 2 ^ (Int.log 2 x - 52) := by positivity
  have hlo : (2 : ℚ) ^ (Int.log 2 x) ≤ x := by
    have := Int.zpow_log_le_self (b := 2) (by norm_num) hx
    simpa using this
  have e1 : (2 : ℚ) ^ (Int.log 2 x) = 2 ^ 52 * 2 ^ (Int.log 2 x - 52) := by
    rw [zpow_sub₀ (by norm_num : (2 : ℚ) ≠ 0)]
    field_simp
    ring
  have hxy : x = x / 2 ^ (Int.log 2 x - 52) * 2 ^ (Int.log 2 x - 52) := by
    field_simp
  have hdiff : binary64Pos x - x
      = ((roundHalfEven (x / 2 ^ (Int.log 2 x - 52)) : ℚ) - x / 2 ^ (Int.log 2 x - 52))
        * 2 ^ (Int.log 2 x - 52) := by
    unfold binary64Pos
    rw [sub_mul]
    congr 1
  rw [hdiff, abs_mul, abs_of_pos hu]
  have hr := roundHalfEven_error (x / 2 ^ (Int.log 2 x - 52))
  have hstep : |(roundHalfEven (x / 2 ^ (Int.log 2 x - 52)) : ℚ) - x / 2 ^ (Int.log 2 x - 52)|
      * 2 ^ (Int.log 2 x - 52) ≤ 1 / 2 * 2 ^ (Int.log 2 x - 52) :=
    mul_le_mul_of_nonneg_right hr (le_of_lt hu)
  have hu2 : (2 : ℚ) ^ 52 * 2 ^ (Int.log 2 x - 52) ≤ x := by rw [← e1]; exact hlo
  have : 1 / 2 * (2 : ℚ) ^ (Int.log 2 x - 52) ≤ x / 2 ^ 53 := by
    rw [le_div_iff₀ (by positivity)]
    have : (1 / 2 * (2 : ℚ) ^ (Int.log 2 x - 52)) * 2 ^ 53
        = 2 ^ 52 * 2 ^ (Int.log 2 x - 52) := by ring
    rw [this]
    exact hu2
  linarith

/-- The rounding of doubles has relative error at most `2^-53`. -/
theorem binary64_relative_error (x : ℚ) :
    |Rounding.binary64.fl x - x| ≤ 1 / 2 ^ 53 * |x| := by
  show |binary64Round x - x| ≤ 1 / 2 ^ 53 * |x|
  unfold binary64Round
  by_cases h0 : x = 0
  · simp [h0]
  · by_cases hpos : 0 < x
    · rw [if_neg h0, if_pos hpos, abs_of_pos hpos]
      have := binary64Pos_error x hpos
      calc |binary64Pos x - x| ≤ x / 2 ^ 53 := this
        _ = 1 / 2 ^ 53 * x := by ring
    · have hneg : x < 0 := lt_of_le_of_ne (not_lt.mp hpos) h0
      rw [if_neg h0, if_neg hpos, abs_of_neg hneg]
      have := binary64Pos_error (-x) (by linarith)
      have heq : -binary64Pos (-x) - x = -(binary64Pos (-x) - -x) := by ring
      rw [heq, abs_neg]
      calc |binary64Pos (-x) - -x| ≤ -x / 2 ^ 53 := this
        _ = 1 / 2 ^ 53 * -x := by ring

/-- Error of a sum accumulated with rounded additions, for a rounding of relative error
at most `u`: after `n` additions it is at most `(1 + u)^n - 1` times the sum of the
magnitudes. -/
theorem jsSum_error (R : Rounding) (u : ℚ) (hu : 0 ≤ u)
    (hR : ∀ x : ℚ, |R.fl x - x| ≤ u * |x|) (xs : List ℚ) :
    |jsSum R xs - xs.sum| ≤ ((1 + u) ^ xs.length - 1) * (xs.map fun x => |x|).sum := by
  induction xs using List.reverseRecOn with
  | nil => simp [jsSum]
  | append_singleton l a ih =>
    have hsum : jsSum R (l ++ [a]) = R.fl (jsSum R l + a) := by
      unfold jsSum
      rw [List.foldl_append]
      rfl
    have habs : |l.sum| ≤ (l.map fun x => |x|).sum := by
      clear ih hsum
      induction l with
      | nil => simp
      | cons b bs ihb =>
        simp only [List.sum_cons, List.map_cons]
        calc |b + bs.sum| ≤ |b| + |bs.sum| := abs_add _ _
          _ ≤ |b| + (bs.map fun x => |x|).sum := by linarith
    have hA : 0 ≤ (l.map fun x => |x|).sum := le_trans (abs_nonneg _) habs
    have hg : 0 ≤ (1 + u) ^ l.length - 1 := by
      have : (1 : ℚ) ≤ (1 + u) ^ l.length := one_le_pow₀ (by linarith)
      linarith
    rw [hsum, List.sum_append, List.sum_singleton, List.length_append, List.length_singleton,
      List.map_append, List.sum_append, List.map_singleton, List.sum_singleton]
    set S := jsSum R l with hS
    set A := (l.map fun x => |x|).sum with hAdef
    set g := (1 + u) ^ l.length - 1 with hgdef
    have hpow : (1 + u) ^ (l.length + 1) - 1 = (1 + u) * g + u := by
      rw [hgdef, pow_succ]
      ring
    have h1 := hR (S + a)
    have h2 : |S + a| ≤ |S - l.sum| + A + |a| := by
      calc |S + a| = |(S - l.sum) + l.sum + a| := by ring_nf
        _ ≤ |(S - l.sum) + l.sum| + |a| := abs_add _ _
        _ ≤ |S - l.sum| + |l.sum| + |a| := by linarith [abs_add (S - l.sum) l.sum]
        _ ≤ |S - l.sum| + A + |a| := by linarith
    have h3 : |R.fl (S + a) - (l.sum + a)| ≤ |R.fl (S + a) - (S + a)| + |S - l.sum| := by
      calc |R.fl (S + a) - (l.sum + a)|
          = |(R.fl (S + a) - (S + a)) + (S - l.sum)| := by ring_nf
        _ ≤ _ := abs_add _ _
    have h4 : u * |S + a| ≤ u * (|S - l.sum| + A + |a|) := mul_le_mul_of_nonneg_left h2 hu
    have h5 : u * |S - l.sum| ≤ u * (g * A) := mul_le_mul_of_nonneg_left ih hu
    have ha : 0 ≤ |a| := abs_nonneg a
    have h6 : 0 ≤ (1 + u) * g * |a| := by positivity
    rw [hpow]
    nlinarith [h1, h3, h4, h5, ih, h6]

/-- What is summed over the paid sales and over the pending sales adds up to the sum
over all the sales, when every sale is one or the other. -/
theorem paid_pending_partition (f : Sale → ℚ) (sales : List Sale)
    (hstatus : ∀ sale ∈ sales, sale.paymentStatus = "pago" ∨ sale.paymentStatus = "pendente") :
    ((sales.filter fun s => s.paymentStatus = "pago").map f).sum
        + ((sales.filter fun s => s.paymentStatus = "pendente").map f).sum
      = (sales.map f).sum := by
  induction sales with
  | nil => simp
  | cons sale rest ih =>
    have hrest := ih fun s hs => hstatus s (List.mem_cons_of_mem _ hs)
    have h1 : decide (("pago" : String) = "pendente") = false := by decide
    have h2 : decide (("pendente" : String) = "pago") = false := by decide
    rcases hstatus sale (List.mem_cons_self _ _) with h | h
    · simp only [List.filter_cons, h, h1, decide_True, if_true, if_false,
        List.map_cons, List.sum_cons, Bool.false_eq_true]
      linarith
    · simp only [List.filter_cons, h, h2, decide_True, if_true, if_false,
        List.map_cons, List.sum_cons, Bool.false_eq_true]
      linarith

/-- C28 (counterexample): three sales of 0.1 (paid), 0.1 (pending) and 1.1 (paid), the
amounts being the doubles these literals denote, summed with the rounding of doubles.
`totalRevenue` is 1.2000000000000002 and `pendingAmount` is 0.1: their exact sum is
not the exact sum of the three amounts, and their JavaScript sum (1.3000000000000003)
is not the JavaScript sum of the three amounts (1.3). -/
theorem dashboard_totals_counterexample :
    (Dashboard.computeStats Rounding.binary64
        { sales := some
            [{ _id := "s1", paymentStatus := "pago"
               totalAmount := 3602879701896397 / 36028797018963968, netProfit := 0 },
             { _id := "s2", paymentStatus := "pendente"
               totalAmount := 3602879701896397 / 36028797018963968, netProfit := 0 },
             { _id := "s3", paymentStatus := "pago"
               totalAmount := 2476979795053773 / 2251799813685248, netProfit := 0 }]
          paginationTotal := some 3 }
        { paginationTotal := none }
        { lowStockMaterials := none, totalMaterials := none, totalStockValue := none
          totalWithdrawalsValue := none, lowStockCount := none }).totalRevenue
        = 1351079888211149 / 1125899906842624
      ∧ (Dashboard.computeStats Rounding.binary64
        { sales := some
            [{ _id := "s1", paymentStatus := "pago"
               totalAmount := 3602879701896397 / 36028797018963968, netProfit := 0 },
             { _id := "s2", paymentStatus := "pendente"
               totalAmount := 3602879701896397 / 36028797018963968, netProfit := 0 },
             { _id := "s3", paymentStatus := "pago"
               totalAmount := 2476979795053773 / 2251799813685248, netProfit := 0 }]
          paginationTotal := some 3 }
        { paginationTotal := none }
        { lowStockMaterials := none, totalMaterials := none, totalStockValue := none
          totalWithdrawalsValue := none, lowStockCount := none }).pendingAmount
        = 3602879701896397 / 36028797018963968
      ∧ (1351079888211149 / 1125899906842624 + 3602879701896397 / 36028797018963968 : ℚ)
        ≠ 3602879701896397 / 36028797018963968 + 3602879701896397 / 36028797018963968
            + 2476979795053773 / 2251799813685248
      ∧ Rounding.binary64.fl
          (1351079888211149 / 1125899906842624 + 3602879701896397 / 36028797018963968)
        ≠ jsSum Rounding.binary64
            [3602879701896397 / 36028797018963968, 3602879701896397 / 36028797018963968,
             2476979795053773 / 2251799813685248] := by
  have e1 : Rounding.binary64.fl (3602879701896397 / 36028797018963968)
      = 3602879701896397 / 36028797018963968 := by
    rw [binary64_eval _ (-4) 7205759403792794 (by norm_num) (by norm_num) (by norm_num)
      (by norm_num)]
    norm_num
  have e2 : Rounding.binary64.fl
      (3602879701896397 / 36028797018963968 + 2476979795053773 / 2251799813685248)
      = 1351079888211149 / 1125899906842624 := by
    rw [binary64_eval _ 0 5404319552844596 (by norm_num) (by norm_num) (by norm_num)
      (by norm_num)]
    norm_num
  have e3 : Rounding.binary64.fl
      (1351079888211149 / 1125899906842624 + 3602879701896397 / 36028797018963968)
      = 2927339757790823 / 2251799813685248 := by
    rw [binary64_eval _ 0 5854679515581646 (by norm_num) (by norm_num) (by norm_num)
      (by norm_num)]
    norm_num
  have e4 : Rounding.binary64.fl
      (3602879701896397 / 36028797018963968 + 3602879701896397 / 36028797018963968)
      = 3602879701896397 / 18014398509481984 := by
    rw [binary64_eval _ (-3) 7205759403792794 (by norm_num) (by norm_num) (by norm_num)
      (by norm_num)]
    norm_num
  have e5 : Rounding.binary64.fl
      (3602879701896397 / 18014398509481984 + 2476979795053773 / 2251799813685248)
      = 5854679515581645 / 4503599627370496 := by
    rw [binary64_eval _ 0 5854679515581645 (by norm_num) (by norm_num) (by norm_num)
      (by norm_num)]
    norm_num
  have hpago : ("pendente" : String) ≠ "pago" := by decide
  have hpend : ("pago" : String) ≠ "pendente" := by decide
  refine ⟨?_, ?_, by norm_num, ?_⟩
  · simp only [Dashboard.computeStats, jsSum, Option.getD_some, List.filter_cons,
      List.filter_nil, decide_True, decide_False, hpago, if_true, if_false, List.map_cons,
      List.map_nil, List.foldl_cons, List.foldl_nil, zero_add, e1, e2, Bool.false_eq_true]
  · simp only [Dashboard.computeStats, jsSum, Option.getD_some, List.filter_cons,
      List.filter_nil, decide_True, decide_False, hpend, if_true, if_false, List.map_cons,
      List.map_nil, List.foldl_cons, List.foldl_nil, zero_add, e1, Bool.false_eq_true]
  · simp only [jsSum, List.foldl_cons, List.foldl_nil, zero_add, e1, e3, e4, e5]
    norm_num


/-- C28 (amended): `pendingSales` is the number of sales whose status is `pendente`.
When every sale is `pago` or `pendente`, `totalRevenue + pendingAmount` equals the sum
of `totalAmount` over all the sales up to the rounding of the additions: for a rounding
of relative error at most `u` (for doubles `u = 2^-53`) and `n` sales the two differ
by at most `(1 + u)^n - 1` times the sum of the magnitudes of the amounts.  The two are
equal when the additions are exact, be it that the rounding has no error or that it
changes no partial sum of the two accumulations. -/
theorem dashboard_totals (R : Rounding) (u : ℚ) (salesRes : SalesListResponse)
    (productsRes : ProductsListResponse) (materialsStats : MaterialStats)
    (hstatus : ∀ sale ∈ salesRes.sales.getD [],
      sale.paymentStatus = "pago" ∨ sale.paymentStatus = "pendente")
    (hu : 0 ≤ u)
    (hR : ∀ x : ℚ, |R.fl x - x| ≤ u * |x|) :
    (Dashboard.computeStats R salesRes productsRes materialsStats).pendingSales
        = ((salesRes.sales.getD []).countP fun s => s.paymentStatus = "pendente")
      ∧ |(Dashboard.computeStats R salesRes productsRes materialsStats).totalRevenue
            + (Dashboard.computeStats R salesRes productsRes materialsStats).pendingAmount
            - ((salesRes.sales.getD []).map fun sale => sale.totalAmount).sum|
          ≤ ((1 + u) ^ (salesRes.sales.getD []).length - 1)
            * ((salesRes.sales.getD []).map fun sale => |sale.totalAmount|).sum
      ∧ (u = 0 →
          (Dashboard.computeStats R salesRes productsRes materialsStats).totalRevenue
            + (Dashboard.computeStats R salesRes productsRes materialsStats).pendingAmount
          = ((salesRes.sales.getD []).map fun sale => sale.totalAmount).sum)
      ∧ ((∀ l : List ℚ,
            l <+: (((salesRes.sales.getD []).filter fun s => s.paymentStatus = "pago").map
              fun sale => sale.totalAmount) → R.fl l.sum = l.sum) →
          (∀ l : List ℚ,
            l <+: (((salesRes.sales.getD []).filter
                fun s => s.paymentStatus = "pendente").map
              fun sale => sale.totalAmount) → R.fl l.sum = l.sum) →
          (Dashboard.computeStats R salesRes productsRes materialsStats).totalRevenue
            + (Dashboard.computeStats R salesRes productsRes materialsStats).pendingAmount
          = ((salesRes.sales.getD []).map fun sale => sale.totalAmount).sum) := by
  have hbound :
      |(Dashboard.computeStats R salesRes productsRes materialsStats).totalRevenue
          + (Dashboard.computeStats R salesRes productsRes materialsStats).pendingAmount
          - ((salesRes.sales.getD []).map fun sale => sale.totalAmount).sum|
        ≤ ((1 + u) ^ (salesRes.sales.getD []).length - 1)
          * ((salesRes.sales.getD []).map fun sale => |sale.totalAmount|).sum := by
    show |jsSum R _ + jsSum R _ - _| ≤ _
    have hp := jsSum_error R u hu hR
      (((salesRes.sales.getD []).filter fun s => s.paymentStatus = "pago").map
        fun sale => sale.totalAmount)
    have hq := jsSum_error R u hu hR
      (((salesRes.sales.getD []).filter fun s => s.paymentStatus = "pendente").map
        fun sale => sale.totalAmount)
    have hsum := paid_pending_partition (fun sale => sale.totalAmount) _ hstatus
    have habs := paid_pending_partition (fun sale => |sale.totalAmount|) _ hstatus
    rw [List.map_map, List.length_map] at hp hq
    have hcomp : ((fun x : ℚ => |x|) ∘ fun sale : Sale => sale.totalAmount)
        = fun sale : Sale => |sale.totalAmount| := rfl
    rw [hcomp] at hp hq
    have hnonneg : ∀ l : List Sale, 0 ≤ (l.map fun sale => |sale.totalAmount|).sum := by
      intro l
      apply List.sum_nonneg
      intro x hx
      obtain ⟨sale, _, rfl⟩ := List.mem_map.mp hx
      exact abs_nonneg _
    have hone : (1 : ℚ) ≤ 1 + u := by linarith
    have hgp : (1 + u) ^ ((salesRes.sales.getD []).filter
        fun s => s.paymentStatus = "pago").length - 1
        ≤ (1 + u) ^ (salesRes.sales.getD []).length - 1 := by
      have := pow_le_pow_right₀ hone (List.length_filter_le
        (fun s : Sale => decide (s.paymentStatus = "pago")) (salesRes.sales.getD []))
      linarith
    have hgq : (1 + u) ^ ((salesRes.sales.getD []).filter
        fun s => s.paymentStatus = "pendente").length - 1
        ≤ (1 + u) ^ (salesRes.sales.getD []).length - 1 := by
      have := pow_le_pow_right₀ hone (List.length_filter_le
        (fun s : Sale => decide (s.paymentStatus = "pendente")) (salesRes.sales.getD []))
      linarith
    have hp' := le_trans hp (mul_le_mul_of_nonneg_right hgp (hnonneg _))
    have hq' := le_trans hq (mul_le_mul_of_nonneg_right hgq (hnonneg _))
    rw [← hsum, ← habs, mul_add]
    calc |jsSum R (((salesRes.sales.getD []).filter fun s => s.paymentStatus = "pago").map
              fun sale => sale.totalAmount)
            + jsSum R (((salesRes.sales.getD []).filter
                fun s => s.paymentStatus = "pendente").map fun sale => sale.totalAmount)
            - ((((salesRes.sales.getD []).filter fun s => s.paymentStatus = "pago").map
                fun sale => sale.totalAmount).sum
              + (((salesRes.sales.getD []).filter fun s => s.paymentStatus = "pendente").map
                fun sale => sale.totalAmount).sum)|
        = |(jsSum R (((salesRes.sales.getD []).filter fun s => s.paymentStatus = "pago").map
              fun sale => sale.totalAmount)
            - (((salesRes.sales.getD []).filter fun s => s.paymentStatus = "pago").map
                fun sale => sale.totalAmount).sum)
          + (jsSum R (((salesRes.sales.getD []).filter
                fun s => s.paymentStatus = "pendente").map fun sale => sale.totalAmount)
            - (((salesRes.sales.getD []).filter fun s => s.paymentStatus = "pendente").map
                fun sale => sale.totalAmount).sum)| := by ring_nf
      _ ≤ _ := le_trans (abs_add _ _) (add_le_add hp' hq')
  refine ⟨?_, hbound, ?_, ?_⟩
  · simp [Dashboard.computeStats, List.countP_eq_length_filter]
  · intro h0
    rw [h0] at hbound
    simp only [add_zero, one_pow, sub_self, zero_mul] at hbound
    have := abs_nonpos_iff.mp hbound
    linarith
  · intro hpaid hpending
    show jsSum R _ + jsSum R _ = _
    rw [jsSum_eq_sum R _ hpaid, jsSum_eq_sum R _ hpending]
    exact paid_pending_partition (fun sale => sale.totalAmount) _ hstatus

/-- C28 (witness): a paid sale of 10.10 and a pending sale of 5.20, summed with the
rounding of doubles. -/
theorem dashboard_totals_witness :
    |(Dashboard.computeStats Rounding.binary64
          { sales := some
              [{ _id := "s1", paymentStatus := "pago", totalAmount := 101 / 10
                 netProfit := 4 },
               { _id := "s2", paymentStatus := "pendente", totalAmount := 26 / 5
                 netProfit := 2 }]
            paginationTotal := some 2 }
          { paginationTotal := some 1 }
          { lowStockMaterials := none, totalMaterials := none, totalStockValue := none
            totalWithdrawalsValue := none, lowStockCount := none }).totalRevenue
        + (Dashboard.computeStats Rounding.binary64
          { sales := some
              [{ _id := "s1", paymentStatus := "pago", totalAmount := 101 / 10
                 netProfit := 4 },
               { _id := "s2", paymentStatus := "pendente", totalAmount := 26 / 5
                 netProfit := 2 }]
            paginationTotal := some 2 }
          { paginationTotal := some 1 }
          { lowStockMaterials := none, totalMaterials := none, totalStockValue := none
            totalWithdrawalsValue := none, lowStockCount := none }).pendingAmount
        - ([{ _id := "s1", paymentStatus := "pago", totalAmount := 101 / 10, netProfit := 4 },
            { _id := "s2", paymentStatus := "pendente", totalAmount := 26 / 5
              netProfit := 2 }].map fun sale : Sale => sale.totalAmount).sum|
      ≤ ((1 + 1 / 2 ^ 53) ^ 2 - 1)
        * ([{ _id := "s1", paymentStatus := "pago", totalAmount := 101 / 10, netProfit := 4 },
            { _id := "s2", paymentStatus := "pendente", totalAmount := 26 / 5
              netProfit := 2 }].map fun sale : Sale => |sale.totalAmount|).sum :=
  (dashboard_totals Rounding.binary64 (1 / 2 ^ 53)
    { sales := some
        [{ _id := "s1", paymentStatus := "pago", totalAmount := 101 / 10, netProfit := 4 },
         { _id := "s2", paymentStatus := "pendente", totalAmount := 26 / 5, netProfit := 2 }]
      paginationTotal := some 2 }
    { paginationTotal := some 1 }
    { lowStockMaterials := none, totalMaterials := none, totalStockValue := none
      totalWithdrawalsValue := none, lowStockCount := none }
    (by simp)
    (by norm_num)
    binary64_relative_error).2.1

end FinanceSystem
